import Mathlib

/-!
Weather-Simulation: the slice sampler of `ingest.cpp`.

A shallow embedding of the grid sampling and bilinear interpolation code of
`src/ingest.cpp` (`aboveOrBelowLine`, `insideCell`, `findFirstCell`,
`nextInterpolationPoint`, `solve4x4Lapack`, `interpolateSliceGraph`) and theorems
about it.

Conventions of the embedding.

* `float` and `double` are exact rationals (`ℚ`): a theorem on `aboveOrBelowLine`,
  `insideCell`, `findFirstCell`, `nextInterpolationPoint`, `interpolateSliceGraph` is a
  statement about the program in exact arithmetic. The definitions whose names end in
  `With` take the side test, the routine `dgesv_` and the sample points as parameters;
  a theorem on them holds for every arithmetic. `aboveOrBelowLineFloat` is the side
  test with the roundings of `float`.
* `int` and `long` are `Int`; `/` and `%` on them are the truncating `Int.tdiv` and
  `Int.tmod` of C++.
* A C array (`float *weatherCoords`, `float *weatherData`, `float *sliceData`,
  `double A[16]`) is a total function from offsets to values; reading an offset the
  program never allocated yields whatever the function holds there.
* A reference parameter (`int &index`) is passed in and returned.
* The global variables read by the sampler are gathered in the records `Grid`
  (geometry) and `Pass` (all the others).
-/

namespace WeatherSim

/-! ## Data model -/

/-- The C struct `coord_t` (lines 96-101). -/
structure coord_t where
  x : ℚ
  y : ℚ
  z : ℚ
  val : Int
deriving DecidableEq

/-- The C enum `lineloc_t` (lines 134-138). -/
inductive lineloc_t where
  | ABOVE_LINE
  | ON_LINE
  | BELOW_LINE
deriving DecidableEq, Repr

open lineloc_t

/-- Grid geometry globals: `numRows`, `numCols`, `recSize` and the interleaved corner
array `weatherCoords` (x at even offsets, y at odd offsets, row-major). -/
structure Grid where
  numRows : Int
  numCols : Int
  recSize : Int
  weatherCoords : Int → ℚ

/-- The other globals read or written by `interpolateSliceGraph`: the selected field
array `weatherData`, `currentTimeStep`, `totalSliceSteps`, the two line endpoints and
the axis tick vector `sliceLegendCoords`. -/
structure Pass where
  weatherData : Int → ℚ
  currentTimeStep : Int
  totalSliceSteps : Int
  lineStart : coord_t
  lineEnd : coord_t
  sliceLegendCoords : List coord_t

/-- A point with the given `x` and `y`; the members the program leaves unset are zero
(they are never read by the code embedded here). -/
def mkCoord (x y : ℚ) : coord_t := ⟨x, y, 0, 0⟩

/-- The array with the given initial contents (zero elsewhere). -/
def arrayOfList (l : List ℚ) : Int → ℚ :=
  fun k => if k < 0 then 0 else l.getD k.toNat 0

/-! ## Geometry predicates -/

/-- The square of `calcDistance(x1, y1, x2, y2)` (lines 1528-1530): the program
computes `sqrt(pow(x2 - x1, 2) + pow(y2 - y1, 2))`, which is not rational, and
compares it with `1.0`; `calcDistance_gt_one_iff` shows that this comparison is the
comparison of the square with `1`. -/
def calcDistanceSq (x1 y1 x2 y2 : ℚ) : ℚ :=
  (x2 - x1) ^ 2 + (y2 - y1) ^ 2

/-- The function `aboveOrBelowLine` (lines 2715-2744) with one more component: the
Boolean tells whether the call reached one of the two `unreachable(...)` statements.
The first component is the returned value (`ON_LINE` after the trailing
`unreachable`). -/
def aboveOrBelowLineTraced (a b c : coord_t) : lineloc_t × Bool :=
  if a.x ≠ b.x then
    let tx := (c.x - a.x) / (b.x - a.x)
    if a.y ≠ b.y then
      let ty := (c.y - a.y) / (b.y - a.y)
      if tx = ty then (ON_LINE, false)
      else if a.y < b.y then
        if tx > ty then (BELOW_LINE, false)
        else if tx < ty then (ABOVE_LINE, false)
        else (ON_LINE, true)
      else if a.y > b.y then
        if tx < ty then (BELOW_LINE, false)
        else if tx > ty then (ABOVE_LINE, false)
        else (ON_LINE, true)
      else (ON_LINE, true)
    else
      if c.y = a.y then (ON_LINE, false)
      else if c.y < a.y then (BELOW_LINE, false)
      else if c.y > a.y then (ABOVE_LINE, false)
      else (ON_LINE, true)
  else (ON_LINE, false)

/-- The value returned by `aboveOrBelowLine(a, b, c)`. -/
def aboveOrBelowLine (a b c : coord_t) : lineloc_t :=
  (aboveOrBelowLineTraced a b c).1

/-! ## Point location -/

/-- The function `insideCell(x, y, i)` (lines 1697-1719). The second component is the
value of the reference parameter `i` on return; the body never assigns to it. -/
def insideCell (g : Grid) (x y : ℚ) (i : Int) : Bool × Int :=
  let pointsPerRow := g.numCols * 2
  let bottomLeft := mkCoord (g.weatherCoords i) (g.weatherCoords (i + 1))
  let bottomRight := mkCoord (g.weatherCoords (i + 2)) (g.weatherCoords (i + 3))
  let topLeft :=
    mkCoord (g.weatherCoords (i + pointsPerRow)) (g.weatherCoords (i + pointsPerRow + 1))
  let topRight :=
    mkCoord (g.weatherCoords (i + pointsPerRow + 2)) (g.weatherCoords (i + pointsPerRow + 3))
  let c := mkCoord x y
  if aboveOrBelowLine bottomLeft bottomRight c = BELOW_LINE then (false, i)
  else if aboveOrBelowLine bottomRight topRight c = ABOVE_LINE then (false, i)
  else if aboveOrBelowLine topLeft topRight c = ABOVE_LINE then (false, i)
  else if aboveOrBelowLine topLeft bottomLeft c = BELOW_LINE then (false, i)
  else (true, i)

/-- The body of the inner loop of `findFirstCell` (lines 1735-1762) for the cell with
bottom-left offset `i`: `false` when one of the five `continue` statements is taken,
`true` when the body reaches `index = i; return true;`. -/
def findFirstCellBody (g : Grid) (x y : ℚ) (i : Int) : Bool :=
  let pointsPerRow := g.numCols * 2
  let c := mkCoord x y
  let bottomLeft := mkCoord (g.weatherCoords i) (g.weatherCoords (i + 1))
  if calcDistanceSq x y bottomLeft.x bottomLeft.y > 1 then false
  else
    let bottomRight := mkCoord (g.weatherCoords (i + 2)) (g.weatherCoords (i + 3))
    if aboveOrBelowLine bottomLeft bottomRight c = BELOW_LINE then false
    else
      let topLeft :=
        mkCoord (g.weatherCoords (i + pointsPerRow)) (g.weatherCoords (i + pointsPerRow + 1))
      if aboveOrBelowLine topLeft bottomLeft c = BELOW_LINE then false
      else
        let topRight :=
          mkCoord (g.weatherCoords (i + pointsPerRow + 2))
            (g.weatherCoords (i + pointsPerRow + 3))
        if aboveOrBelowLine bottomRight topRight c = ABOVE_LINE then false
        else if aboveOrBelowLine topRight topLeft c = ABOVE_LINE then false
        else true

/-- The inner loop of `findFirstCell` for one row:
`for (col = 0; col < 2*(numCols - 1); col += 2)`, that is `col = 2*k` for
`k = 0, 1, ..., numCols - 2`; the result is the offset of the first cell of the row
whose body returns, if any. -/
def findFirstCellCols (g : Grid) (x y : ℚ) (row : Int) : Option Int :=
  (List.range (g.numCols - 1).toNat).findSome? fun (k : Nat) =>
    let col : Int := 2 * (k : Int)
    let i := row * (g.numCols * 2) + col
    if findFirstCellBody g x y i then some i else none

/-- The two nested loops of `findFirstCell`: rows `0, ..., numRows - 2` in order. -/
def findFirstCellScan (g : Grid) (x y : ℚ) : Option Int :=
  (List.range (g.numRows - 1).toNat).findSome? fun (row : Nat) =>
    findFirstCellCols g x y (row : Int)

/-- The function `findFirstCell(x, y, index)` (lines 1722-1766): the returned flag and
the value of the reference parameter `index` on return. -/
def findFirstCell (g : Grid) (x y : ℚ) (index : Int) : Bool × Int :=
  match findFirstCellScan g x y with
  | some i => (true, i)
  | none => (false, index)

/-- The range check of lines 1602 and 1782:
`(index > 2*recSize - pointsPerRow) || (index % pointsPerRow == pointsPerRow - 1)`. -/
def indexOutOfRange (g : Grid) (index : Int) : Bool :=
  let pointsPerRow := 2 * g.numCols
  decide (index > 2 * g.recSize - pointsPerRow) ||
    decide (index.tmod pointsPerRow = pointsPerRow - 1)

/-- The function `nextInterpolationPoint(x, y, index, level)` (lines 1772-1793): the
returned flag and the value of the reference parameter `index` on return. -/
def nextInterpolationPoint (g : Grid) (x y : ℚ) (index : Int) (level : Int) : Bool × Int :=
  if level > 10 then
    if (findFirstCell g x y index).1 then (true, (findFirstCell g x y index).2)
    else (false, (findFirstCell g x y index).2)
  else if indexOutOfRange g index then (false, index)
  else if (insideCell g x y index).1 then (true, (insideCell g x y index).2)
  else nextInterpolationPoint g x y (insideCell g x y index).2 (level + 1)
termination_by (11 - level).toNat
decreasing_by omega

/-! ## Bilinear solver -/

/-- Entry (row `r`, column `c`) of a 4x4 matrix stored in column-major order, as the
comment on `solve4x4Lapack` requires. -/
def colMajor (A : Nat → ℚ) (r c : Nat) : ℚ := A (r + 4 * c)

/-- Determinant of a 3x3 matrix given by rows. -/
def det3 (a b c d e f g h i : ℚ) : ℚ :=
  a * (e * i - f * h) - b * (d * i - f * g) + c * (d * h - e * g)

/-- Determinant of a 4x4 matrix (expansion along row 0). -/
def det4 (M : Nat → Nat → ℚ) : ℚ :=
  M 0 0 * det3 (M 1 1) (M 1 2) (M 1 3) (M 2 1) (M 2 2) (M 2 3) (M 3 1) (M 3 2) (M 3 3)
  - M 0 1 * det3 (M 1 0) (M 1 2) (M 1 3) (M 2 0) (M 2 2) (M 2 3) (M 3 0) (M 3 2) (M 3 3)
  + M 0 2 * det3 (M 1 0) (M 1 1) (M 1 3) (M 2 0) (M 2 1) (M 2 3) (M 3 0) (M 3 1) (M 3 3)
  - M 0 3 * det3 (M 1 0) (M 1 1) (M 1 2) (M 2 0) (M 2 1) (M 2 2) (M 3 0) (M 3 1) (M 3 2)

/-- The matrix `M` with column `j` replaced by the vector `b`. -/
def replaceCol (M : Nat → Nat → ℚ) (j : Nat) (b : Nat → ℚ) : Nat → Nat → ℚ :=
  fun r c => if c = j then b r else M r c

/-- Row `k` of the product of the column-major matrix `A` with the vector `c`. -/
def matVec (A : Nat → ℚ) (c : Nat → ℚ) (k : Nat) : ℚ :=
  colMajor A k 0 * c 0 + colMajor A k 1 * c 1 + colMajor A k 2 * c 2 + colMajor A k 3 * c 3

/-- The LAPACK routine `dgesv_` for `n = 4`, `nrhs = 1` (an external library, declared
at lines 90-93) in exact arithmetic, by its documented contract: when the matrix is
nonsingular, `b` is overwritten with the solution of `A * X = B` and `info = 0`; when
it is singular, the solution is not computed, `b` is left as it was and `info > 0`.
The first component is the content of `b` on return, the second tells whether `info`
is nonzero. The solution is written by the rule of Cramer, which in exact arithmetic
is the value every elimination order reaches. -/
def dgesv (a : Nat → ℚ) (b : Nat → ℚ) : (Nat → ℚ) × Bool :=
  let M := colMajor a
  if det4 M = 0 then (b, true)
  else (fun j => if j < 4 then det4 (replaceCol M j b) / det4 M else b j, false)

/-- The function `solve4x4Lapack(a, b)` (lines 1533-1539): the content of `b` on
return. The local variable `info` is dropped on return. -/
def solve4x4Lapack (a : Nat → ℚ) (b : Nat → ℚ) : Nat → ℚ :=
  (dgesv a b).1

/-! ## Slice sampler -/

/-- The array `A` of lines 1632-1637 for the cell with bottom-left offset `index`. -/
def cellMatrix (g : Grid) (index : Int) : Nat → ℚ :=
  let pointsPerRow := g.numCols * 2
  let xa := g.weatherCoords index
  let ya := g.weatherCoords (index + 1)
  let xb := g.weatherCoords (index + 2)
  let yb := g.weatherCoords (index + 3)
  let xc := g.weatherCoords (index + pointsPerRow + 2)
  let yc := g.weatherCoords (index + pointsPerRow + 3)
  let xd := g.weatherCoords (index + pointsPerRow)
  let yd := g.weatherCoords (index + pointsPerRow + 1)
  fun k => [1, 1, 1, 1,
            xa, xb, xc, xd,
            ya, yb, yc, yd,
            xa * ya, xb * yb, xc * yc, xd * yd].getD k 0

/-- The array `B` of line 1640 for the cell with bottom-left offset `index`. -/
def cellRhs (g : Grid) (p : Pass) (index : Int) : Nat → ℚ :=
  let vala := p.weatherData (p.currentTimeStep * g.recSize + index.tdiv 2)
  let valb := p.weatherData (p.currentTimeStep * g.recSize + (index.tdiv 2 + 1))
  let valc := p.weatherData (p.currentTimeStep * g.recSize + (index.tdiv 2 + g.numCols + 1))
  let vald := p.weatherData (p.currentTimeStep * g.recSize + (index.tdiv 2 + g.numCols))
  fun k => [vala, valb, valc, vald].getD k 0

/-- The value `sliceValue` of lines 1615-1646: the system of cell `index` is solved
and the bilinear form is evaluated at `(x, y)`. -/
def cellValue (g : Grid) (p : Pass) (index : Int) (x y : ℚ) : ℚ :=
  let B := solve4x4Lapack (cellMatrix g index) (cellRhs g p index)
  B 0 + B 1 * x + B 2 * y + B 3 * x * y

/-- The sample point of step `sliceStep` (lines 1584-1586). -/
def samplePoint (p : Pass) (sliceStep : Int) : ℚ × ℚ :=
  let t : ℚ := (sliceStep : ℚ) / (p.totalSliceSteps : ℚ)
  ((1 - t) * p.lineStart.x + t * p.lineEnd.x, (1 - t) * p.lineStart.y + t * p.lineEnd.y)

/-- The local variables `index` and `insideGraph` of `interpolateSliceGraph`, which
live across the iterations of its loop. -/
structure Cursor where
  index : Int
  insideGraph : Bool
deriving DecidableEq

/-- One iteration of the sampling loop (lines 1584-1660) at the point `(x, y)`:
`none` when the range check of line 1602 makes the function return, otherwise the
cursor after the iteration and the value stored in `sliceData[sliceStep]`. -/
def sliceStepAt (g : Grid) (p : Pass) (x y : ℚ) (cur : Cursor) : Option (Cursor × ℚ) :=
  -- lines 1589-1594
  let cur1 : Cursor :=
    if !cur.insideGraph then
      if (findFirstCell g x y cur.index).1 then ⟨(findFirstCell g x y cur.index).2, true⟩
      else ⟨(findFirstCell g x y cur.index).2, cur.insideGraph⟩
    else cur
  -- lines 1597-1599
  let r := nextInterpolationPoint g x y cur1.index 1
  let cur2 : Cursor := if !r.1 then ⟨r.2, false⟩ else ⟨r.2, cur1.insideGraph⟩
  -- lines 1602-1606
  if indexOutOfRange g cur2.index then none
  -- lines 1609-1613
  else if !cur2.insideGraph then some (cur2, 0)
  -- lines 1615-1660
  else some (cur2, cellValue g p cur2.index x y)

/-- The loop of lines 1583-1661, `n` iterations from step `sliceStep` on: the array
`sliceData` at the end and whether the loop ran to its end (`false` when the range
check made the function return). -/
def sliceLoop (g : Grid) (p : Pass) :
    Nat → Int → Cursor → (Int → ℚ) → (Int → ℚ) × Bool
  | 0, _, _, sliceData => (sliceData, true)
  | n + 1, sliceStep, cur, sliceData =>
    match sliceStepAt g p (samplePoint p sliceStep).1 (samplePoint p sliceStep).2 cur with
    | none => (sliceData, false)
    | some (cur1, v) =>
      sliceLoop g p n (sliceStep + 1) cur1 (fun k => if k = sliceStep then v else sliceData k)

/-- The constant `SLICE_XAXIS_COORDS` (line 167). -/
def SLICE_XAXIS_COORDS : Int := 8

/-- The axis tick computation of lines 1668-1690 on the vector `sliceLegendCoords`. -/
def sliceLegend (lineStart lineEnd : coord_t) (sliceLegendCoords : List coord_t) :
    List coord_t :=
  let v1 := sliceLegendCoords ++ [lineStart, lineEnd]
  let first := v1.getD 0 (mkCoord 0 0)
  let second := v1.getD 1 (mkCoord 0 0)
  let diffx := second.x - first.x
  let diffy := second.y - first.y
  let stepx := diffx / (SLICE_XAXIS_COORDS : ℚ)
  let stepy := diffy / (SLICE_XAXIS_COORDS : ℚ)
  let v2 := v1.dropLast
  let v3 := (List.range (SLICE_XAXIS_COORDS - 1).toNat).foldl
    (fun (v : List coord_t) (k : Nat) =>
      let i : Int := (k : Int) + 1
      v ++ [mkCoord ((v.getD 0 (mkCoord 0 0)).x + (i : ℚ) * stepx)
                    ((v.getD 0 (mkCoord 0 0)).y + (i : ℚ) * stepy)]) v2
  v3 ++ [second]

/-- The outcome of a call of `interpolateSliceGraph`: the array `sliceData`, the
globals after the call, and whether the call ran to its end (`false` when it
returned at line 1605). -/
structure SliceResult where
  sliceData : Int → ℚ
  pass : Pass
  completed : Bool

/-- The exchange of the two endpoints of lines 1562-1566. -/
def orderLine (p : Pass) : Pass :=
  if p.lineStart.x > p.lineEnd.x then
    { p with lineStart := p.lineEnd, lineEnd := p.lineStart }
  else p

/-- The function `interpolateSliceGraph(sliceData, sdsize)` (lines 1551-1693). -/
def interpolateSliceGraph (g : Grid) (p : Pass) (sliceData : Int → ℚ) (_sdsize : Int) :
    SliceResult :=
  -- lines 1562-1566
  let p1 : Pass := orderLine p
  -- lines 1581-1661
  let r := sliceLoop g p1 p1.totalSliceSteps.toNat 0 ⟨0, false⟩ sliceData
  if r.2 then
    -- lines 1668-1690
    { sliceData := r.1
      pass := { p1 with sliceLegendCoords :=
                  sliceLegend p1.lineStart p1.lineEnd p1.sliceLegendCoords }
      completed := true }
  else
    { sliceData := r.1, pass := p1, completed := false }

/-! ## Cells and their corners -/

/-- The offset of the bottom-left corner of the cell in row `row` and column `col`
(`i = row * pointsPerRow + col` with the loop variable `col` equal to `2 * col`). -/
def cellOffset (g : Grid) (row col : Int) : Int :=
  row * (g.numCols * 2) + 2 * col

/-- The bottom-left corner of the cell with offset `i` (offsets `i`, `i + 1`). -/
def bottomLeft (g : Grid) (i : Int) : coord_t :=
  mkCoord (g.weatherCoords i) (g.weatherCoords (i + 1))

/-- The bottom-right corner of the cell with offset `i` (offsets `i + 2`, `i + 3`). -/
def bottomRight (g : Grid) (i : Int) : coord_t :=
  mkCoord (g.weatherCoords (i + 2)) (g.weatherCoords (i + 3))

/-- The top-left corner of the cell with offset `i` (offsets `i + pointsPerRow`,
`i + pointsPerRow + 1`). -/
def topLeft (g : Grid) (i : Int) : coord_t :=
  mkCoord (g.weatherCoords (i + g.numCols * 2)) (g.weatherCoords (i + g.numCols * 2 + 1))

/-- The top-right corner of the cell with offset `i` (offsets `i + pointsPerRow + 2`,
`i + pointsPerRow + 3`). -/
def topRight (g : Grid) (i : Int) : coord_t :=
  mkCoord (g.weatherCoords (i + g.numCols * 2 + 2)) (g.weatherCoords (i + g.numCols * 2 + 3))

/-- Corner `k` of the cell with offset `i`, in the order of the rows of the system of
`interpolateSliceGraph`: bottom-left, bottom-right, top-right, top-left. -/
def cellCorner (g : Grid) (i : Int) (k : Nat) : coord_t :=
  match k with
  | 0 => bottomLeft g i
  | 1 => bottomRight g i
  | 2 => topRight g i
  | _ => topLeft g i

/-- Twice the signed area of the triangle `a`, `b`, `c`: positive when `c` lies to the
left of the directed line from `a` to `b`. -/
def cross (a b c : coord_t) : ℚ :=
  (b.x - a.x) * (c.y - a.y) - (b.y - a.y) * (c.x - a.x)

/-- The corners `bl`, `br`, `tr`, `tl` form, in this counter-clockwise order, a convex
quadrilateral with no three consecutive corners on a line; such a quadrilateral is
simple (it does not intersect itself). -/
def ConvexQuad (bl br tr tl : coord_t) : Prop :=
  0 < cross bl br tr ∧ 0 < cross br tr tl ∧ 0 < cross tr tl bl ∧ 0 < cross tl bl br

/-- The point `c` lies strictly inside the convex quadrilateral `bl`, `br`, `tr`, `tl`:
strictly to the left of each of its four directed edges. -/
def StrictlyInside (bl br tr tl c : coord_t) : Prop :=
  0 < cross bl br c ∧ 0 < cross br tr c ∧ 0 < cross tr tl c ∧ 0 < cross tl bl c

/-- The point `c` lies in the closed convex quadrilateral `bl`, `br`, `tr`, `tl`
(inside it or on its boundary). -/
def InClosedQuad (bl br tr tl c : coord_t) : Prop :=
  0 ≤ cross bl br c ∧ 0 ≤ cross br tr c ∧ 0 ≤ cross tr tl c ∧ 0 ≤ cross tl bl c

/-- The cell tests of `findFirstCell` as the specification words them: the distance
from `(x, y)` to the bottom-left corner is at most `1.0`, and the point is not below
the bottom edge, not below the left edge, not above the right edge and not above the
top edge. -/
def PassesCellTests (g : Grid) (x y : ℚ) (i : Int) : Prop :=
  Real.sqrt ((((x - (bottomLeft g i).x) ^ 2 + (y - (bottomLeft g i).y) ^ 2 : ℚ)) : ℝ) ≤ 1 ∧
  aboveOrBelowLine (bottomLeft g i) (bottomRight g i) (mkCoord x y) ≠ BELOW_LINE ∧
  aboveOrBelowLine (bottomLeft g i) (topLeft g i) (mkCoord x y) ≠ BELOW_LINE ∧
  aboveOrBelowLine (bottomRight g i) (topRight g i) (mkCoord x y) ≠ ABOVE_LINE ∧
  aboveOrBelowLine (topLeft g i) (topRight g i) (mkCoord x y) ≠ ABOVE_LINE

/-- The distance from `(x, y)` to the bottom-left corner of the cell with offset `i` is
at most `1.0`. -/
def NearBottomLeft (g : Grid) (x y : ℚ) (i : Int) : Prop :=
  Real.sqrt ((((x - (bottomLeft g i).x) ^ 2 + (y - (bottomLeft g i).y) ^ 2 : ℚ)) : ℝ) ≤ 1

/-! ## Concrete grids -/

/-- The grid of the concrete scenarios: `numRows = numCols = 4`, corner `(r, c)` at
`(x, y) = (c, r)`. -/
def unitGrid : Grid where
  numRows := 4
  numCols := 4
  recSize := 16
  weatherCoords := arrayOfList
    [0, 0, 1, 0, 2, 0, 3, 0,
     0, 1, 1, 1, 2, 1, 3, 1,
     0, 2, 1, 2, 2, 2, 3, 2,
     0, 3, 1, 3, 2, 3, 3, 3]

/-- The field of the concrete scenarios: the value at corner `(r, c)` is `r + c`. -/
def unitField : Int → ℚ :=
  arrayOfList
    [0, 1, 2, 3,
     1, 2, 3, 4,
     2, 3, 4, 5,
     3, 4, 5, 6]

/-- The pass of the first concrete scenario: the line from `(0.5, 0.5)` to
`(2.5, 2.5)` sampled with `N = 5` at timestep `0`, with an empty tick vector. -/
def diagonalPass : Pass where
  weatherData := unitField
  currentTimeStep := 0
  totalSliceSteps := 5
  lineStart := mkCoord (1 / 2) (1 / 2)
  lineEnd := mkCoord (5 / 2) (5 / 2)
  sliceLegendCoords := []

/-- A grid with one cell whose right edge leans to the right: corners `(0,0)`,
`(1,0)` (bottom row) and `(0,1)`, `(2,1)` (top row). -/
def slantGrid : Grid where
  numRows := 2
  numCols := 2
  recSize := 4
  weatherCoords := arrayOfList [0, 0, 1, 0, 0, 1, 2, 1]

/-- A grid with two cells side by side that share the slanted edge from `(1,0)` to
`(2,1)`: bottom row `(0,0)`, `(1,0)`, `(3,0)`, top row `(0,1)`, `(2,1)`, `(3,1)`. -/
def trapezoidGrid : Grid where
  numRows := 2
  numCols := 3
  recSize := 6
  weatherCoords := arrayOfList [0, 0, 1, 0, 3, 0, 0, 1, 2, 1, 3, 1]

/-- A pass over `trapezoidGrid` whose field is `1` at the corner `(2,1)` and `0` at the
five others. -/
def trapezoidPass : Pass where
  weatherData := arrayOfList [0, 0, 0, 0, 1, 0]
  currentTimeStep := 0
  totalSliceSteps := 1
  lineStart := mkCoord (3 / 2) (1 / 2)
  lineEnd := mkCoord (3 / 2) (1 / 2)
  sliceLegendCoords := []

/-- A grid with two cells of side `2`, one above the other: corners `(0,0)`, `(2,0)`,
`(0,2)`, `(2,2)`, `(0,4)`, `(2,4)`. -/
def tallGrid : Grid where
  numRows := 3
  numCols := 2
  recSize := 6
  weatherCoords := arrayOfList [0, 0, 2, 0, 0, 2, 2, 2, 0, 4, 2, 4]

/-- A pass over `unitGrid` along the line from `(-1/2, 1/4)` to `(-1/4, 1/4)`, to the
left of the grid, sampled with `N = 2`. -/
def outsidePass : Pass where
  weatherData := unitField
  currentTimeStep := 0
  totalSliceSteps := 2
  lineStart := mkCoord (-1 / 2) (1 / 4)
  lineEnd := mkCoord (-1 / 4) (1 / 4)
  sliceLegendCoords := []

/-- A pass over `unitGrid` along the line from `(-5, -5)` to `(-1, -1)`, away from the
grid, sampled with `N = 5`. -/
def farPass : Pass where
  weatherData := unitField
  currentTimeStep := 0
  totalSliceSteps := 5
  lineStart := mkCoord (-5) (-5)
  lineEnd := mkCoord (-1) (-1)
  sliceLegendCoords := []

/-! ## The sampler state machine, as the specification words it -/

/-- The two states of the sampler: no current cell known, or a current cell index. -/
inductive SamplerState where
  | SEARCHING
  | TRACKING (cursor : Int)
deriving DecidableEq

open SamplerState

/-- One step of the state machine of the specification at the point `(x, y)`: in
`SEARCHING` attempt `findFirstCell`, on success go to `TRACKING` (and emit the
bilinear value of the cell found), on failure stay and emit the sentinel `0.0`; in
`TRACKING` attempt `nextInterpolationPoint` from the current index, on success stay
with the new index and emit the bilinear value, on failure go to `SEARCHING` and emit
the sentinel. -/
def samplerStep (g : Grid) (p : Pass) (x y : ℚ) : SamplerState → SamplerState × ℚ
  | SEARCHING =>
    match findFirstCellScan g x y with
    | some i => (TRACKING i, cellValue g p i x y)
    | none => (SEARCHING, 0)
  | TRACKING cursor =>
    if (nextInterpolationPoint g x y cursor 1).1 then
      (TRACKING (nextInterpolationPoint g x y cursor 1).2,
        cellValue g p (nextInterpolationPoint g x y cursor 1).2 x y)
    else (SEARCHING, 0)

/-- The state of the machine before step `k` of a pass that starts in `SEARCHING`. -/
def samplerStateAt (g : Grid) (p : Pass) : Nat → SamplerState
  | 0 => SEARCHING
  | k + 1 =>
    (samplerStep g p (samplePoint p (k : Int)).1 (samplePoint p (k : Int)).2
      (samplerStateAt g p k)).1

/-- The value the machine emits at step `k` of a pass that starts in `SEARCHING`. -/
def samplerOutput (g : Grid) (p : Pass) (k : Nat) : ℚ :=
  (samplerStep g p (samplePoint p (k : Int)).1 (samplePoint p (k : Int)).2
    (samplerStateAt g p k)).2

/-- The state of the machine that the local variables of the loop stand for. -/
def Cursor.state (cur : Cursor) : SamplerState :=
  if cur.insideGraph then TRACKING cur.index else SEARCHING

/-! ## Definitions for the second group of claims -/

/-- A pass over the line of the second concrete scenario, from `(-5, -5)` to
`(-1, -1)`, with any field, timestep, step count and tick vector. -/
def farLinePass (field : Int → ℚ) (T N : Int) (ticks : List coord_t) : Pass where
  weatherData := field
  currentTimeStep := T
  totalSliceSteps := N
  lineStart := mkCoord (-5) (-5)
  lineEnd := mkCoord (-1) (-1)
  sliceLegendCoords := ticks

/-- The two passes have the same inputs of the sampling loop: field array, timestep,
step count and line endpoints (everything but the tick vector). -/
def SameSamplingInputs (p q : Pass) : Prop :=
  p.weatherData = q.weatherData ∧ p.currentTimeStep = q.currentTimeStep ∧
  p.totalSliceSteps = q.totalSliceSteps ∧ p.lineStart = q.lineStart ∧ p.lineEnd = q.lineEnd

/-- A grid with one cell, a square standing on a corner: bottom row `(1,0)`, `(2,1)`,
top row `(0,1)`, `(1,2)`. -/
def diamondGrid : Grid where
  numRows := 2
  numCols := 2
  recSize := 4
  weatherCoords := arrayOfList [1, 0, 2, 1, 0, 1, 1, 2]

/-- A pass over `diamondGrid` with the field values `1, 2, 3, 4`, whose only sample
point is the centre `(1, 1)` of the cell. -/
def diamondPass : Pass where
  weatherData := arrayOfList [1, 2, 3, 4]
  currentTimeStep := 0
  totalSliceSteps := 1
  lineStart := mkCoord 1 1
  lineEnd := mkCoord (3 / 2) 1
  sliceLegendCoords := []

/-- The grid of the concrete scenarios with the last entry of `weatherCoords` (the `y`
of the corner `(3, 3)`) replaced by `99`. -/
def unitGridMarked : Grid where
  numRows := 4
  numCols := 4
  recSize := 16
  weatherCoords := fun k => if k = 31 then 99 else unitGrid.weatherCoords k

/-- The height of the line through `a` and `b` at the abscissa of `c`:
`yL = a.y + (c.x - a.x) * (b.y - a.y) / (b.x - a.x)`. -/
def lineHeight (a b c : coord_t) : ℚ :=
  a.y + (c.x - a.x) * (b.y - a.y) / (b.x - a.x)

/-! ## Definitions for the third group of claims -/

/-- A pass over `unitGrid` with no sample at all (`N = 0`) along a line drawn from
right to left, from `(2, 1)` to `(0, 0)`, with an empty tick vector. -/
def emptyPass : Pass where
  weatherData := unitField
  currentTimeStep := 0
  totalSliceSteps := 0
  lineStart := mkCoord 2 1
  lineEnd := mkCoord 0 0
  sliceLegendCoords := []

/-- The function `calcSliceSteps()` (lines 1541-1549): the value it assigns to the
global `totalSliceSteps` from the globals `screenStart` and `screenEnd`. The program
computes `pixelLength = calcDistance(...)`, the square root of `calcDistanceSq`, which
is not rational; the test `pixelLength <= 1000.0` is the test of the square against
`1000 ^ 2`, and `(int)pixelLength`, the integer part of a nonnegative number, is the
integer square root of the integer part of the square. -/
def calcSliceSteps (screenStart screenEnd : coord_t) : Int :=
  let sq := calcDistanceSq screenStart.x screenStart.y screenEnd.x screenEnd.y
  if sq ≤ 1000 ^ 2 then ((Nat.sqrt ⌊sq⌋.toNat : Nat) : Int) else 1000

/-- Counters of the work done by a call: the calls of `insideCell`, the calls of
`findFirstCell`, and the executions of the body of the inner loop of `findFirstCell`
(the cells examined). -/
structure Work where
  insideCellTests : Nat
  findFirstCellCalls : Nat
  cellsExamined : Nat
deriving DecidableEq

/-- The sum of two records of counters. -/
def Work.add (a b : Work) : Work :=
  ⟨a.insideCellTests + b.insideCellTests, a.findFirstCellCalls + b.findFirstCellCalls,
    a.cellsExamined + b.cellsExamined⟩

/-- The two nested loops of `findFirstCell` (lines 1733-1763) with a counter: the first
component is the offset assigned to `index` when the function returns `true` (`none`
when both loops run to their end), the second counts the executions of the body of the
inner loop until the function returns. -/
def findFirstCellCounted (g : Grid) (x y : ℚ) : Option Int × Nat :=
  (List.range (g.numRows - 1).toNat).foldl
    (fun (acc : Option Int × Nat) (row : Nat) =>
      (List.range (g.numCols - 1).toNat).foldl
        (fun (acc : Option Int × Nat) (k : Nat) =>
          match acc.1 with
          | some _ => acc
          | none =>
            let col : Int := 2 * (k : Int)
            let i := (row : Int) * (g.numCols * 2) + col
            (if findFirstCellBody g x y i then some i else none, acc.2 + 1))
        acc)
    (none, 0)

/-- The function `nextInterpolationPoint` (lines 1772-1793) with counters: the first
component is the result of the call (flag and reference parameter), the second the work
done by the call and the calls it makes. -/
def nextInterpolationPointCounted (g : Grid) (x y : ℚ) (index : Int) (level : Int) :
    (Bool × Int) × Work :=
  if level > 10 then
    (if (findFirstCell g x y index).1 then (true, (findFirstCell g x y index).2)
      else (false, (findFirstCell g x y index).2),
     ⟨0, 1, (findFirstCellCounted g x y).2⟩)
  else if indexOutOfRange g index then ((false, index), ⟨0, 0, 0⟩)
  else if (insideCell g x y index).1 then ((true, (insideCell g x y index).2), ⟨1, 0, 0⟩)
  else
    ((nextInterpolationPointCounted g x y (insideCell g x y index).2 (level + 1)).1,
     Work.add ⟨1, 0, 0⟩
       (nextInterpolationPointCounted g x y (insideCell g x y index).2 (level + 1)).2)
termination_by (11 - level).toNat
decreasing_by all_goals omega

/-- The work of one iteration of the sampling loop (lines 1584-1660) at the point
`(x, y)`: the call of `findFirstCell` of line 1590 when `insideGraph` is false, and the
call of `nextInterpolationPoint` of line 1597. -/
def sliceStepWork (g : Grid) (x y : ℚ) (cur : Cursor) : Work :=
  let w1 : Work :=
    if !cur.insideGraph then ⟨0, 1, (findFirstCellCounted g x y).2⟩ else ⟨0, 0, 0⟩
  let index1 : Int := if !cur.insideGraph then (findFirstCell g x y cur.index).2 else cur.index
  Work.add w1 (nextInterpolationPointCounted g x y index1 1).2

/-- The work of the loop of lines 1583-1661, `n` iterations from step `sliceStep` on:
the number of iterations executed (the last one may end with the `return` of line
1605) and the sum of the work of the iterations. -/
def sliceLoopWork (g : Grid) (p : Pass) : Nat → Int → Cursor → Nat × Work
  | 0, _, _ => (0, ⟨0, 0, 0⟩)
  | n + 1, sliceStep, cur =>
    let w := sliceStepWork g (samplePoint p sliceStep).1 (samplePoint p sliceStep).2 cur
    match sliceStepAt g p (samplePoint p sliceStep).1 (samplePoint p sliceStep).2 cur with
    | none => (1, w)
    | some (cur1, _) =>
      ((sliceLoopWork g p n (sliceStep + 1) cur1).1 + 1,
        Work.add w (sliceLoopWork g p n (sliceStep + 1) cur1).2)

/-- The work of a call of `interpolateSliceGraph`: the iterations of its loop and the
work they do, on the canonicalised line, from the initial values `index = 0` and
`insideGraph = false` of the local variables. -/
def interpolateSliceGraphWork (g : Grid) (p : Pass) : Nat × Work :=
  sliceLoopWork g (orderLine p) (orderLine p).totalSliceSteps.toNat 0 ⟨0, false⟩

/-- The constant `SLICE_GRAPH_WIDTH` (line 160). -/
def SLICE_GRAPH_WIDTH : ℚ := 1000

/-- The constant `SLICE_GRAPH_HEIGHT` (line 160). -/
def SLICE_GRAPH_HEIGHT : ℚ := 200

/-- The enumerator `ATTR_MIN` (line 111). -/
def ATTR_MIN : Int := 0

/-- The enumerator `ATTR_MAX` (line 120). -/
def ATTR_MAX : Int := 7

/-- The globals of the presentation layer read by `redraw2` and `computeSliceCoords`:
the selected attribute `weatherAttrNum` and the array `weatherAttrMax`. -/
structure View where
  weatherAttrNum : Int
  weatherAttrMax : Int → ℚ

/-- The pass `p` with the global `currentTimeStep` set to `T`. -/
def atTimeStep (p : Pass) (T : Int) : Pass :=
  { p with currentTimeStep := T }

/-- The function `computeSliceCoords(sliceCoords, cosize, sliceData, prevSliceData)`
(lines 2218-2246): the array `sliceCoords` on return. The call of `unreachable` of
line 2241 only prints. -/
def computeSliceCoords (v : View) (currentTimeStep : Int) (sliceCoords : Int → ℚ)
    (cosize : Int) (sliceData prevSliceData : Int → ℚ) : Int → ℚ :=
  let numXSteps := cosize.tdiv 2
  (List.range numXSteps.toNat).foldl
    (fun (sc : Int → ℚ) (k : Nat) =>
      let i : Int := (k : Int)
      -- x
      let sc1 : Int → ℚ := fun j =>
        if j = 2 * i then ((i : ℚ) / (numXSteps : ℚ)) * SLICE_GRAPH_WIDTH else sc j
      let scalingFactor := SLICE_GRAPH_HEIGHT / v.weatherAttrMax v.weatherAttrNum
      let foo := scalingFactor * sliceData i
      let foo1 :=
        if v.weatherAttrNum ≥ ATTR_MIN ∧ v.weatherAttrNum < 4 then foo
        else if v.weatherAttrNum ≥ 4 ∧ v.weatherAttrNum ≤ ATTR_MAX then
          let previous := if currentTimeStep = 0 then 0 else scalingFactor * prevSliceData i
          foo - previous
        else foo
      -- y
      fun j => if j = 2 * i + 1 then foo1 else sc1 j)
    sliceCoords

/-- The loop of lines 926-928 of `redraw2`: `prevSliceData[i] = 0.0` for
`i = 0, ..., n - 1`. -/
def zeroFill (prevSliceData : Int → ℚ) (n : Int) : Int → ℚ :=
  (List.range n.toNat).foldl
    (fun (a : Int → ℚ) (k : Nat) => fun j => if j = (k : Int) then 0 else a j)
    prevSliceData

/-- What a call of `redraw2` leaves: the local arrays `sliceData`, `prevSliceData`
and `sliceCoords` when they are handed to the drawing calls, and the globals of the
sampler. -/
structure Redraw2Result where
  sliceData : Int → ℚ
  prevSliceData : Int → ℚ
  sliceCoords : Int → ℚ
  pass : Pass

/-- The data flow of `redraw2` (lines 894-947): the arguments `sliceData`,
`prevSliceData` and `sliceCoords` are the contents of the local arrays of the same
names when they are declared. The drawing calls and `computeColors`,
`computeDailyColors` (which write the colour array only) are left out. -/
def redraw2 (g : Grid) (p : Pass) (v : View) (sliceData prevSliceData sliceCoords : Int → ℚ) :
    Redraw2Result :=
  -- line 904
  let r1 := interpolateSliceGraph g p sliceData p.totalSliceSteps
  let p1 := r1.pass
  let cosize := 2 * p1.totalSliceSteps
  if v.weatherAttrNum ≥ ATTR_MIN ∧ v.weatherAttrNum < 4 then
    { sliceData := r1.sliceData
      prevSliceData := prevSliceData
      sliceCoords :=
        computeSliceCoords v p1.currentTimeStep sliceCoords cosize r1.sliceData prevSliceData
      pass := p1 }
  else if v.weatherAttrNum ≥ 4 ∧ v.weatherAttrNum ≤ ATTR_MAX then
    if p1.currentTimeStep = 0 then
      -- lines 925-929
      let prev := zeroFill prevSliceData p1.totalSliceSteps
      { sliceData := r1.sliceData
        prevSliceData := prev
        sliceCoords :=
          computeSliceCoords v p1.currentTimeStep sliceCoords cosize r1.sliceData prev
        pass := p1 }
    else
      -- lines 931-935
      let p2 := atTimeStep p1 (p1.currentTimeStep - 1)
      let r2 := interpolateSliceGraph g p2 prevSliceData p2.totalSliceSteps
      let p3 := atTimeStep r2.pass (r2.pass.currentTimeStep + 1)
      { sliceData := r1.sliceData
        prevSliceData := r2.sliceData
        sliceCoords :=
          computeSliceCoords v p3.currentTimeStep sliceCoords cosize r1.sliceData r2.sliceData
        pass := p3 }
  else
    { sliceData := r1.sliceData
      prevSliceData := prevSliceData
      sliceCoords := sliceCoords
      pass := p1 }

/-- A view on a daily attribute: `weatherAttrNum = 4` with the maximum `10`. -/
def dailyView : View where
  weatherAttrNum := 4
  weatherAttrMax := fun _ => 10

/-- The offset `i` is that of the bottom-left corner of a cell of the grid: the even
offset `row * 2 * numCols + 2 * col` with `0 <= row <= numRows - 2` and
`0 <= col <= numCols - 2`. -/
def IsCellOffset (g : Grid) (i : Int) : Prop :=
  ∃ row col : Int, 0 ≤ row ∧ row ≤ g.numRows - 2 ∧ 0 ≤ col ∧ col ≤ g.numCols - 2 ∧
    i = cellOffset g row col

/-- The local variables `index` and `insideGraph` of `interpolateSliceGraph` at the
top of iteration `k` of its loop (lines 1583-1661) over the pass `p`: `index = 0` and
`insideGraph = false` at the start, then the values iteration `k - 1` leaves; `none`
when the function has returned at line 1605 before. -/
def cursorAt (g : Grid) (p : Pass) : Nat → Option Cursor
  | 0 => some ⟨0, false⟩
  | k + 1 =>
    match cursorAt g p k with
    | none => none
    | some cur =>
      match sliceStepAt g p (samplePoint p (k : Int)).1 (samplePoint p (k : Int)).2 cur with
      | none => none
      | some (cur1, _) => some cur1

/-- The constant `HOURS_PER_DAY` (line 165). -/
def HOURS_PER_DAY : Int := 24

/-- The day index `redraw` passes to `drawText` (lines 819-821):
`(int)(currentTimeStep / samplesPerDay)` with `samplesPerDay = HOURS_PER_DAY / 3`. -/
def dayOfTimeStep (currentTimeStep : Int) : Int :=
  currentTimeStep.tdiv (HOURS_PER_DAY.tdiv 3)

/-- What `drawText` composes for the date: the string `month` (`none` when no branch
assigns the pointer), the number printed into `day`, the string `year`, and whether
the last branch (`currentTimeStep = 0`) is taken. -/
structure DateText where
  month : Option String
  day : Int
  year : String
  resetsTime : Bool
deriving DecidableEq

/-- The date computation of `drawText(totalDays)` (lines 1114-1176): the strings are
those of the program. -/
def drawText (totalDays : Int) : DateText :=
  -- index this at 1, not 0
  let totalDays := totalDays + 1
  let year := if totalDays < 62 then ", 2001" else ", 2002"
  -- find the date based on 11-1: `month`, `totalDays`, and whether the time is reset
  let r : Option String × Int × Bool :=
    if totalDays < 31 then (some "November ", totalDays, false)
    else if totalDays < 62 then (some "Decemeber ", totalDays - 30, false)
    else if totalDays < 93 then (some "January ", totalDays - 61, false)
    else if totalDays < 121 then (some "February ", totalDays - 92, false)
    else if totalDays < 152 then (some "March ", totalDays - 120, false)
    else if totalDays < 182 then (some "April ", totalDays - 151, false)
    else if totalDays < 213 then (some "May ", totalDays - 181, false)
    else if totalDays < 243 then (some "June ", totalDays - 212, false)
    else if totalDays < 274 then (some "July ", totalDays - 242, false)
    else if totalDays < 305 then (some "August ", totalDays - 273, false)
    else if totalDays < 335 then (some "September ", totalDays - 304, false)
    else if totalDays < 365 then (some "October ", totalDays - 333, false)
    else (none, totalDays, true)
  ⟨r.1, r.2.1, year, r.2.2⟩

/-- The months from November on with their lengths (February of a year that is not a
leap year), each name followed by a blank as `drawText` composes it. -/
def monthsFromNovember : List (String × Int) :=
  [("November ", 30), ("December ", 31), ("January ", 31), ("February ", 28),
   ("March ", 31), ("April ", 30), ("May ", 31), ("June ", 30), ("July ", 31),
   ("August ", 31), ("September ", 30), ("October ", 31)]

/-- The month and the day of the month `d` days after the first day of the first month
of the list. -/
def calendarDateFrom : List (String × Int) → Int → Option (String × Int)
  | [], _ => none
  | (m, len) :: rest, d => if d < len then some (m, d + 1) else calendarDateFrom rest (d - len)

/-- The calendar date `d` days after November 1, as the claim words it: month name
and day of the month. -/
def calendarDate (d : Int) : Option (String × Int) :=
  calendarDateFrom monthsFromNovember d

/-- The year of the date `d` days after November 1, 2001, as `drawText` writes it:
2001 up to December 31 (`d = 60`), 2002 afterwards. -/
def calendarYear (d : Int) : String :=
  if d ≤ 60 then ", 2001" else ", 2002"

/-! ## The sampler for any arithmetic of the side test and any `dgesv_`

The definitions above compute `tx` and `ty` of `aboveOrBelowLine` exactly and take
`dgesv_` to be the exact solution. The program computes `tx` and `ty` in `float`, with
a rounding after each operation, and `dgesv_` is a library routine in `double`. The
definitions of this section take the side test and the routine as parameters:
`side a b c` stands for the value of `aboveOrBelowLine(a, b, c)` as the machine
computes it, and `dgesv_ a b` for the content of `b` and the value of `info` when the
routine returns. What is proved of them for every `side` and every `dgesv_` holds of
the program whatever the roundings are. The distance test of `findFirstCell` and the
value `B[0] + B[1]*x + B[2]*y + B[3]*x*y` stay exact. -/

/-- The function `insideCell(x, y, i)` (lines 1697-1719) over the side test `side`. -/
def insideCellWith (side : coord_t → coord_t → coord_t → lineloc_t) (g : Grid) (x y : ℚ)
    (i : Int) : Bool × Int :=
  let pointsPerRow := g.numCols * 2
  let bottomLeft := mkCoord (g.weatherCoords i) (g.weatherCoords (i + 1))
  let bottomRight := mkCoord (g.weatherCoords (i + 2)) (g.weatherCoords (i + 3))
  let topLeft :=
    mkCoord (g.weatherCoords (i + pointsPerRow)) (g.weatherCoords (i + pointsPerRow + 1))
  let topRight :=
    mkCoord (g.weatherCoords (i + pointsPerRow + 2)) (g.weatherCoords (i + pointsPerRow + 3))
  let c := mkCoord x y
  if side bottomLeft bottomRight c = BELOW_LINE then (false, i)
  else if side bottomRight topRight c = ABOVE_LINE then (false, i)
  else if side topLeft topRight c = ABOVE_LINE then (false, i)
  else if side topLeft bottomLeft c = BELOW_LINE then (false, i)
  else (true, i)

/-- The body of the inner loop of `findFirstCell` (lines 1735-1762) over the side test
`side`: `true` when the body reaches `index = i; return true;`. -/
def findFirstCellBodyWith (side : coord_t → coord_t → coord_t → lineloc_t) (g : Grid)
    (x y : ℚ) (i : Int) : Bool :=
  let pointsPerRow := g.numCols * 2
  let c := mkCoord x y
  let bottomLeft := mkCoord (g.weatherCoords i) (g.weatherCoords (i + 1))
  if calcDistanceSq x y bottomLeft.x bottomLeft.y > 1 then false
  else
    let bottomRight := mkCoord (g.weatherCoords (i + 2)) (g.weatherCoords (i + 3))
    if side bottomLeft bottomRight c = BELOW_LINE then false
    else
      let topLeft :=
        mkCoord (g.weatherCoords (i + pointsPerRow)) (g.weatherCoords (i + pointsPerRow + 1))
      if side topLeft bottomLeft c = BELOW_LINE then false
      else
        let topRight :=
          mkCoord (g.weatherCoords (i + pointsPerRow + 2))
            (g.weatherCoords (i + pointsPerRow + 3))
        if side bottomRight topRight c = ABOVE_LINE then false
        else if side topRight topLeft c = ABOVE_LINE then false
        else true

/-- The inner loop of `findFirstCell` for one row, over the side test `side`. -/
def findFirstCellColsWith (side : coord_t → coord_t → coord_t → lineloc_t) (g : Grid)
    (x y : ℚ) (row : Int) : Option Int :=
  (List.range (g.numCols - 1).toNat).findSome? fun (k : Nat) =>
    let col : Int := 2 * (k : Int)
    let i := row * (g.numCols * 2) + col
    if findFirstCellBodyWith side g x y i then some i else none

/-- The two nested loops of `findFirstCell`, over the side test `side`. -/
def findFirstCellScanWith (side : coord_t → coord_t → coord_t → lineloc_t) (g : Grid)
    (x y : ℚ) : Option Int :=
  (List.range (g.numRows - 1).toNat).findSome? fun (row : Nat) =>
    findFirstCellColsWith side g x y (row : Int)

/-- The function `findFirstCell(x, y, index)` (lines 1722-1766) over the side test
`side`. -/
def findFirstCellWith (side : coord_t → coord_t → coord_t → lineloc_t) (g : Grid) (x y : ℚ)
    (index : Int) : Bool × Int :=
  match findFirstCellScanWith side g x y with
  | some i => (true, i)
  | none => (false, index)

/-- The function `nextInterpolationPoint(x, y, index, level)` (lines 1772-1793) over
the side test `side`. -/
def nextInterpolationPointWith (side : coord_t → coord_t → coord_t → lineloc_t) (g : Grid)
    (x y : ℚ) (index : Int) (level : Int) : Bool × Int :=
  if level > 10 then
    if (findFirstCellWith side g x y index).1 then
      (true, (findFirstCellWith side g x y index).2)
    else (false, (findFirstCellWith side g x y index).2)
  else if indexOutOfRange g index then (false, index)
  else if (insideCellWith side g x y index).1 then (true, (insideCellWith side g x y index).2)
  else nextInterpolationPointWith side g x y (insideCellWith side g x y index).2 (level + 1)
termination_by (11 - level).toNat
decreasing_by omega

/-- The function `solve4x4Lapack(a, b)` (lines 1533-1539) over the routine `dgesv_`:
the content of `b` on return. The value of `info` is dropped. -/
def solve4x4LapackWith (dgesv_ : (Nat → ℚ) → (Nat → ℚ) → (Nat → ℚ) × Int)
    (a : Nat → ℚ) (b : Nat → ℚ) : Nat → ℚ :=
  (dgesv_ a b).1

/-- The value `sliceValue` of lines 1615-1646 over the routine `dgesv_`. -/
def cellValueWith (dgesv_ : (Nat → ℚ) → (Nat → ℚ) → (Nat → ℚ) × Int) (g : Grid) (p : Pass)
    (index : Int) (x y : ℚ) : ℚ :=
  let B := solve4x4LapackWith dgesv_ (cellMatrix g index) (cellRhs g p index)
  B 0 + B 1 * x + B 2 * y + B 3 * x * y

/-- One iteration of the sampling loop (lines 1584-1660) at the point `(x, y)`, over
the side test `side` and the routine `dgesv_`. -/
def sliceStepAtWith (side : coord_t → coord_t → coord_t → lineloc_t)
    (dgesv_ : (Nat → ℚ) → (Nat → ℚ) → (Nat → ℚ) × Int) (g : Grid) (p : Pass) (x y : ℚ)
    (cur : Cursor) : Option (Cursor × ℚ) :=
  -- lines 1589-1594
  let cur1 : Cursor :=
    if !cur.insideGraph then
      if (findFirstCellWith side g x y cur.index).1 then
        ⟨(findFirstCellWith side g x y cur.index).2, true⟩
      else ⟨(findFirstCellWith side g x y cur.index).2, cur.insideGraph⟩
    else cur
  -- lines 1597-1599
  let r := nextInterpolationPointWith side g x y cur1.index 1
  let cur2 : Cursor := if !r.1 then ⟨r.2, false⟩ else ⟨r.2, cur1.insideGraph⟩
  -- lines 1602-1606
  if indexOutOfRange g cur2.index then none
  -- lines 1609-1613
  else if !cur2.insideGraph then some (cur2, 0)
  -- lines 1615-1660
  else some (cur2, cellValueWith dgesv_ g p cur2.index x y)

/-- The loop of lines 1583-1661 over the side test `side`, the routine `dgesv_` and the
sample points: `point k` stands for the point `(x, y)` of step `k` as the machine
computes it (lines 1584-1586). -/
def sliceLoopWith (side : coord_t → coord_t → coord_t → lineloc_t)
    (dgesv_ : (Nat → ℚ) → (Nat → ℚ) → (Nat → ℚ) × Int) (point : Int → ℚ × ℚ) (g : Grid)
    (p : Pass) : Nat → Int → Cursor → (Int → ℚ) → (Int → ℚ) × Bool
  | 0, _, _, sliceData => (sliceData, true)
  | n + 1, sliceStep, cur, sliceData =>
    match sliceStepAtWith side dgesv_ g p (point sliceStep).1 (point sliceStep).2 cur with
    | none => (sliceData, false)
    | some (cur1, v) =>
      sliceLoopWith side dgesv_ point g p n (sliceStep + 1) cur1
        (fun k => if k = sliceStep then v else sliceData k)

/-- The function `interpolateSliceGraph(sliceData, sdsize)` (lines 1551-1693) over the
side test `side`, the routine `dgesv_` and the sample points `samplePointOf` of a
pass. -/
def interpolateSliceGraphWith (side : coord_t → coord_t → coord_t → lineloc_t)
    (dgesv_ : (Nat → ℚ) → (Nat → ℚ) → (Nat → ℚ) × Int)
    (samplePointOf : Pass → Int → ℚ × ℚ) (g : Grid) (p : Pass)
    (sliceData : Int → ℚ) (_sdsize : Int) : SliceResult :=
  let p1 : Pass := orderLine p
  let r := sliceLoopWith side dgesv_ (samplePointOf p1) g p1 p1.totalSliceSteps.toNat 0
    ⟨0, false⟩ sliceData
  if r.2 then
    { sliceData := r.1
      pass := { p1 with sliceLegendCoords :=
                  sliceLegend p1.lineStart p1.lineEnd p1.sliceLegendCoords }
      completed := true }
  else
    { sliceData := r.1, pass := p1, completed := false }

/-- The routine `dgesv_` of the exact embedding with its value of `info`: `0` when the
system is solved, `1` when the matrix is singular. -/
def dgesvExact (a : Nat → ℚ) (b : Nat → ℚ) : (Nat → ℚ) × Int :=
  ((dgesv a b).1, if (dgesv a b).2 then 1 else 0)

/-- The contract of `dgesv_` for a failure: when `info > 0` (the factor `U` has a zero
on its diagonal) the solution is not computed and `b` is left as it was. -/
def LeavesRhsOnFailure (dgesv_ : (Nat → ℚ) → (Nat → ℚ) → (Nat → ℚ) × Int) : Prop :=
  ∀ a b, 0 < (dgesv_ a b).2 → (dgesv_ a b).1 = b

/-- The five tests of the body of the loop of `findFirstCell` for the cell with offset
`i`, in the order and with the edge directions of lines 1740-1758: the bottom-left
corner is within `1.0` of `(x, y)`, the point is not below `(bottomLeft, bottomRight)`,
not below `(topLeft, bottomLeft)`, not above `(bottomRight, topRight)` and not above
`(topRight, topLeft)`. -/
def PassesFindFirstCellTests (side : coord_t → coord_t → coord_t → lineloc_t) (g : Grid)
    (x y : ℚ) (i : Int) : Prop :=
  NearBottomLeft g x y i ∧
  side (bottomLeft g i) (bottomRight g i) (mkCoord x y) ≠ BELOW_LINE ∧
  side (topLeft g i) (bottomLeft g i) (mkCoord x y) ≠ BELOW_LINE ∧
  side (bottomRight g i) (topRight g i) (mkCoord x y) ≠ ABOVE_LINE ∧
  side (topRight g i) (topLeft g i) (mkCoord x y) ≠ ABOVE_LINE

/-- Rounding of a rational to the nearest integer, a tie going to the even one. -/
def roundHalfEven (x : ℚ) : Int :=
  if Int.fract x < 1 / 2 then ⌊x⌋
  else if 1 / 2 < Int.fract x then ⌊x⌋ + 1
  else if ⌊x⌋ % 2 = 0 then ⌊x⌋
  else ⌊x⌋ + 1

/-- The `float` nearest to the rational `q` (IEEE 754 binary32, 24 significant bits,
round to nearest, ties to even): `q` is written `m * 2 ^ (e - 23)` with
`2 ^ e <= |q| < 2 ^ (e + 1)` and `m` is rounded to an integer. Overflow and subnormal
numbers are not modelled (the exponent is not bounded). -/
def roundFloat32 (q : ℚ) : ℚ :=
  if q = 0 then 0
  else
    let ulp : ℚ := (2 : ℚ) ^ (Int.log 2 |q| - 23)
    (roundHalfEven (q / ulp) : ℚ) * ulp

/-- The function `aboveOrBelowLine` (lines 2715-2744) in `float` arithmetic: each
subtraction and each division is rounded to the nearest `float`, as the program
computes `tx` and `ty`. -/
def aboveOrBelowLineFloat (a b c : coord_t) : lineloc_t :=
  if a.x ≠ b.x then
    let tx := roundFloat32 (roundFloat32 (c.x - a.x) / roundFloat32 (b.x - a.x))
    if a.y ≠ b.y then
      let ty := roundFloat32 (roundFloat32 (c.y - a.y) / roundFloat32 (b.y - a.y))
      if tx = ty then ON_LINE
      else if a.y < b.y then
        if tx > ty then BELOW_LINE
        else if tx < ty then ABOVE_LINE
        else ON_LINE
      else if a.y > b.y then
        if tx < ty then BELOW_LINE
        else if tx > ty then ABOVE_LINE
        else ON_LINE
      else ON_LINE
    else
      if c.y = a.y then ON_LINE
      else if c.y < a.y then BELOW_LINE
      else if c.y > a.y then ABOVE_LINE
      else ON_LINE
  else ON_LINE

/-- A grid of `float` coordinates with one cell: bottom row `(0, 0)`, `(1, 0)`, top row
`(0, 0.5)`, `(1, 0.7f)`, where `0.7f = 11744051 / 2^24` is the `float` nearest to
`0.7`. -/
def floatGrid : Grid where
  numRows := 2
  numCols := 2
  recSize := 4
  weatherCoords := arrayOfList [0, 0, 1, 0, 0, 1 / 2, 1, 11744051 / 16777216]

/-! ## Lemmas on `aboveOrBelowLine` -/

lemma aboveOrBelowLine_swap (a b c : coord_t) :
    aboveOrBelowLine a b c = aboveOrBelowLine b a c := by
  unfold aboveOrBelowLine aboveOrBelowLineTraced
  by_cases hx : a.x = b.x
  · simp [hx]
  · have hx1 : b.x ≠ a.x := Ne.symm hx
    by_cases hy : a.y = b.y
    · simp [hx, hx1, hy]
    · have hy1 : b.y ≠ a.y := Ne.symm hy
      have kx : (c.x - b.x) / (a.x - b.x) = 1 - (c.x - a.x) / (b.x - a.x) := by
        have h1 : a.x - b.x ≠ 0 := sub_ne_zero.mpr hx
        have h2 : b.x - a.x ≠ 0 := sub_ne_zero.mpr hx1
        field_simp
        ring
      have ky : (c.y - b.y) / (a.y - b.y) = 1 - (c.y - a.y) / (b.y - a.y) := by
        have h1 : a.y - b.y ≠ 0 := sub_ne_zero.mpr hy
        have h2 : b.y - a.y ≠ 0 := sub_ne_zero.mpr hy1
        field_simp
        ring
      simp only [ne_eq, hx, hx1, hy, hy1, not_false_eq_true, if_true, kx, ky]
      generalize (c.x - a.x) / (b.x - a.x) = tx
      generalize (c.y - a.y) / (b.y - a.y) = ty
      rcases lt_trichotomy a.y b.y with h | h | h
      · rcases lt_trichotomy tx ty with h3 | h3 | h3
        · have e1 : ¬ tx = ty := ne_of_lt h3
          have e2 : ¬ (1 - tx = 1 - ty) := fun e => e1 (by linarith)
          have e3 : ¬ b.y < a.y := not_lt.mpr h.le
          have e4 : ¬ tx > ty := not_lt.mpr h3.le
          have e5 : 1 - tx > 1 - ty := by linarith
          have e6 : ¬ 1 - tx < 1 - ty := not_lt.mpr e5.le
          simp [e1, e2, e3, e4, e5, e6, h, h3]
        · simp [h3]
        · have e1 : ¬ tx = ty := ne_of_gt h3
          have e2 : ¬ (1 - tx = 1 - ty) := fun e => e1 (by linarith)
          have e3 : ¬ b.y < a.y := not_lt.mpr h.le
          have e5 : 1 - tx < 1 - ty := by linarith
          simp [e1, e2, e3, e5, h, h3]
      · exact absurd h hy
      · rcases lt_trichotomy tx ty with h3 | h3 | h3
        · have e1 : ¬ tx = ty := ne_of_lt h3
          have e2 : ¬ (1 - tx = 1 - ty) := fun e => e1 (by linarith)
          have e3 : ¬ a.y < b.y := not_lt.mpr h.le
          have e5 : 1 - tx > 1 - ty := by linarith
          simp [e1, e2, e3, e5, h, h3]
        · simp [h3]
        · have e1 : ¬ tx = ty := ne_of_gt h3
          have e2 : ¬ (1 - tx = 1 - ty) := fun e => e1 (by linarith)
          have e3 : ¬ a.y < b.y := not_lt.mpr h.le
          have e4 : ¬ tx < ty := not_lt.mpr h3.le
          have e5 : 1 - tx < 1 - ty := by linarith
          have e6 : ¬ 1 - tx > 1 - ty := not_lt.mpr e5.le
          simp [e1, e2, e3, e4, e5, e6, h, h3]

/-! ## Lemmas on the point location functions -/

lemma findSome_range_eq_some {β : Type} (f : Nat → Option β) (n : Nat) (b : β) :
    (List.range n).findSome? f = some b ↔
      ∃ k, k < n ∧ f k = some b ∧ ∀ j, j < k → f j = none := by
  induction n with
  | zero => simp
  | succ n ih =>
    rw [List.range_succ, List.findSome?_append]
    constructor
    · intro h
      cases hfs : (List.range n).findSome? f with
      | some b1 =>
        rw [hfs] at h
        simp only [Option.or_some] at h
        obtain ⟨k, hk, hfk, hmin⟩ := ih.1 (hfs.trans h)
        exact ⟨k, by omega, hfk, hmin⟩
      | none =>
        rw [hfs] at h
        have hn : f n = some b := by
          cases hfn : f n with
          | none => simp [List.findSome?_cons, hfn] at h
          | some v => simpa [List.findSome?_cons, hfn] using h
        refine ⟨n, by omega, hn, fun j hj => ?_⟩
        exact (List.findSome?_eq_none_iff.1 hfs) j (List.mem_range.2 hj)
    · rintro ⟨k, hk, hfk, hmin⟩
      by_cases hkn : k < n
      · rw [ih.2 ⟨k, hkn, hfk, hmin⟩]
        rfl
      · have hkn1 : k = n := by omega
        subst hkn1
        have hnone : (List.range k).findSome? f = none :=
          List.findSome?_eq_none_iff.2 fun j hj => hmin j (List.mem_range.1 hj)
        rw [hnone]
        simp [List.findSome?_cons, hfk]

lemma findSome_range_eq_none {β : Type} (f : Nat → Option β) (n : Nat) :
    (List.range n).findSome? f = none ↔ ∀ k, k < n → f k = none := by
  rw [List.findSome?_eq_none_iff]
  constructor
  · intro h k hk
    exact h k (List.mem_range.2 hk)
  · intro h k hk
    exact h k (List.mem_range.1 hk)

lemma insideCell_snd (g : Grid) (x y : ℚ) (i : Int) : (insideCell g x y i).2 = i := by
  unfold insideCell
  simp only
  split_ifs <;> rfl

lemma insideCell_fst_iff (g : Grid) (x y : ℚ) (i : Int) :
    (insideCell g x y i).1 = true ↔
      aboveOrBelowLine (mkCoord (g.weatherCoords i) (g.weatherCoords (i + 1)))
          (mkCoord (g.weatherCoords (i + 2)) (g.weatherCoords (i + 3))) (mkCoord x y)
        ≠ BELOW_LINE ∧
      aboveOrBelowLine (mkCoord (g.weatherCoords (i + 2)) (g.weatherCoords (i + 3)))
          (mkCoord (g.weatherCoords (i + g.numCols * 2 + 2))
            (g.weatherCoords (i + g.numCols * 2 + 3))) (mkCoord x y)
        ≠ ABOVE_LINE ∧
      aboveOrBelowLine (mkCoord (g.weatherCoords (i + g.numCols * 2))
            (g.weatherCoords (i + g.numCols * 2 + 1)))
          (mkCoord (g.weatherCoords (i + g.numCols * 2 + 2))
            (g.weatherCoords (i + g.numCols * 2 + 3))) (mkCoord x y)
        ≠ ABOVE_LINE ∧
      aboveOrBelowLine (mkCoord (g.weatherCoords (i + g.numCols * 2))
            (g.weatherCoords (i + g.numCols * 2 + 1)))
          (mkCoord (g.weatherCoords i) (g.weatherCoords (i + 1))) (mkCoord x y)
        ≠ BELOW_LINE := by
  unfold insideCell
  simp only
  split_ifs <;> simp_all

lemma findFirstCellBody_iff (g : Grid) (x y : ℚ) (i : Int) :
    findFirstCellBody g x y i = true ↔
      calcDistanceSq x y (g.weatherCoords i) (g.weatherCoords (i + 1)) ≤ 1 ∧
        (insideCell g x y i).1 = true := by
  rw [insideCell_fst_iff]
  unfold findFirstCellBody
  simp only [mkCoord]
  have e := aboveOrBelowLine_swap
    ⟨g.weatherCoords (i + g.numCols * 2 + 2), g.weatherCoords (i + g.numCols * 2 + 3), 0, 0⟩
    ⟨g.weatherCoords (i + g.numCols * 2), g.weatherCoords (i + g.numCols * 2 + 1), 0, 0⟩
    ⟨x, y, 0, 0⟩
  simp only [e]
  split_ifs <;> simp_all

lemma findFirstCell_eq_of_scan_some (g : Grid) (x y : ℚ) (index i : Int)
    (h : findFirstCellScan g x y = some i) : findFirstCell g x y index = (true, i) := by
  unfold findFirstCell
  rw [h]

lemma findFirstCell_eq_of_scan_none (g : Grid) (x y : ℚ) (index : Int)
    (h : findFirstCellScan g x y = none) : findFirstCell g x y index = (false, index) := by
  unfold findFirstCell
  rw [h]

lemma nextInterpolationPoint_fallback (g : Grid) (x y : ℚ) (index level : Int)
    (h : level > 10) :
    nextInterpolationPoint g x y index level = findFirstCell g x y index := by
  rw [nextInterpolationPoint]
  simp only [h, if_true]
  cases hf : (findFirstCell g x y index).1 <;> simp [← hf]

lemma nextInterpolationPoint_closed_aux (g : Grid) (x y : ℚ) (n : Nat) (index : Int) :
    nextInterpolationPoint g x y index (10 - (n : Int)) =
      if indexOutOfRange g index then (false, index)
      else if (insideCell g x y index).1 then (true, index)
      else findFirstCell g x y index := by
  induction n with
  | zero =>
    rw [nextInterpolationPoint]
    have h10 : ¬ ((10 : Int) - ((0 : Nat) : Int) > 10) := by simp
    simp only [h10, if_false, insideCell_snd]
    split_ifs
    · rfl
    · rfl
    · exact nextInterpolationPoint_fallback g x y index _ (by simp)
  | succ n ih =>
    rw [nextInterpolationPoint]
    have h10 : ¬ ((10 : Int) - ((n + 1 : Nat) : Int) > 10) := by push_cast; omega
    have hl : (10 : Int) - ((n + 1 : Nat) : Int) + 1 = 10 - (n : Int) := by push_cast; ring
    simp only [h10, if_false, insideCell_snd, hl]
    split_ifs with h1 h2
    · rfl
    · rfl
    · rw [ih]
      simp [h1, h2]

lemma nextInterpolationPoint_closed (g : Grid) (x y : ℚ) (index level : Int)
    (h : level ≤ 10) :
    nextInterpolationPoint g x y index level =
      if indexOutOfRange g index then (false, index)
      else if (insideCell g x y index).1 then (true, index)
      else findFirstCell g x y index := by
  have e : level = 10 - (((10 - level).toNat : Nat) : Int) := by
    rw [Int.toNat_of_nonneg (by omega)]
    ring
  rw [e]
  exact nextInterpolationPoint_closed_aux g x y _ index

lemma findFirstCellCols_eq_none_iff (g : Grid) (x y : ℚ) (row : Int) :
    findFirstCellCols g x y row = none ↔
      ∀ k : Nat, k < (g.numCols - 1).toNat →
        findFirstCellBody g x y (cellOffset g row k) = false := by
  unfold findFirstCellCols cellOffset
  rw [findSome_range_eq_none]
  constructor
  · intro h k hk
    have := h k hk
    simpa using this
  · intro h k hk
    simp [h k hk]

lemma findFirstCellCols_eq_some_iff (g : Grid) (x y : ℚ) (row i : Int) :
    findFirstCellCols g x y row = some i ↔
      ∃ k : Nat, k < (g.numCols - 1).toNat ∧ i = cellOffset g row k ∧
        findFirstCellBody g x y (cellOffset g row k) = true ∧
        ∀ j : Nat, j < k → findFirstCellBody g x y (cellOffset g row j) = false := by
  unfold findFirstCellCols cellOffset
  rw [findSome_range_eq_some]
  constructor
  · rintro ⟨k, hk, hfk, hmin⟩
    refine ⟨k, hk, ?_, ?_, ?_⟩
    · by_cases hb : findFirstCellBody g x y (row * (g.numCols * 2) + 2 * (k : Int)) = true
      · simp only [hb, if_true, Option.some.injEq] at hfk
        exact hfk.symm
      · simp [hb] at hfk
    · by_cases hb : findFirstCellBody g x y (row * (g.numCols * 2) + 2 * (k : Int)) = true
      · exact hb
      · simp [hb] at hfk
    · intro j hj
      have := hmin j hj
      simpa using this
  · rintro ⟨k, hk, hi, hb, hmin⟩
    refine ⟨k, hk, ?_, ?_⟩
    · simp [hb, hi]
    · intro j hj
      simp [hmin j hj]

lemma findFirstCellScan_eq_none_iff (g : Grid) (x y : ℚ) :
    findFirstCellScan g x y = none ↔
      ∀ row col : Nat, row < (g.numRows - 1).toNat → col < (g.numCols - 1).toNat →
        findFirstCellBody g x y (cellOffset g row col) = false := by
  unfold findFirstCellScan
  rw [findSome_range_eq_none]
  constructor
  · intro h row col hr hc
    exact (findFirstCellCols_eq_none_iff g x y row).1 (h row hr) col hc
  · intro h row hr
    exact (findFirstCellCols_eq_none_iff g x y row).2 fun col hc => h row col hr hc

lemma findFirstCellScan_eq_some_iff (g : Grid) (x y : ℚ) (i : Int) :
    findFirstCellScan g x y = some i ↔
      ∃ row col : Nat, row < (g.numRows - 1).toNat ∧ col < (g.numCols - 1).toNat ∧
        i = cellOffset g row col ∧
        findFirstCellBody g x y (cellOffset g row col) = true ∧
        (∀ j : Nat, j < col → findFirstCellBody g x y (cellOffset g row j) = false) ∧
        (∀ r c : Nat, r < row → c < (g.numCols - 1).toNat →
          findFirstCellBody g x y (cellOffset g r c) = false) := by
  unfold findFirstCellScan
  rw [findSome_range_eq_some]
  constructor
  · rintro ⟨row, hr, hf, hmin⟩
    obtain ⟨col, hc, hi, hb, hcm⟩ := (findFirstCellCols_eq_some_iff g x y row i).1 hf
    refine ⟨row, col, hr, hc, hi, hb, hcm, fun r c hr1 hc1 => ?_⟩
    exact (findFirstCellCols_eq_none_iff g x y r).1 (hmin r hr1) c hc1
  · rintro ⟨row, col, hr, hc, hi, hb, hcm, hrm⟩
    refine ⟨row, hr, ?_, fun r hr1 => ?_⟩
    · exact (findFirstCellCols_eq_some_iff g x y row i).2 ⟨col, hc, hi, hb, hcm⟩
    · exact (findFirstCellCols_eq_none_iff g x y r).2 fun c hc1 => hrm r c hr1 hc1

/-- The offsets of cells pass the range check of lines 1602 and 1782 when
`recSize = numRows * numCols`. -/
lemma cellOffset_inRange (g : Grid) (hrec : g.recSize = g.numRows * g.numCols)
    (row col : Int) (hr0 : 0 ≤ row) (hr : row ≤ g.numRows - 2) (hc0 : 0 ≤ col)
    (hc : col ≤ g.numCols - 2) : indexOutOfRange g (cellOffset g row col) = false := by
  unfold indexOutOfRange cellOffset
  have hn : 0 < g.numCols := by omega
  have h1 : row * (g.numCols * 2) ≤ (g.numRows - 2) * (g.numCols * 2) :=
    mul_le_mul_of_nonneg_right hr (by omega)
  have h0 : 0 ≤ row * (g.numCols * 2) := mul_nonneg hr0 (by omega)
  have hmod : (row * (g.numCols * 2) + 2 * col).tmod (2 * g.numCols) = 2 * col := by
    rw [Int.tmod_eq_emod (by omega) (by omega)]
    have e : row * (g.numCols * 2) + 2 * col = 2 * col + (2 * g.numCols) * row := by ring
    rw [e, Int.add_mul_emod_self_left]
    exact Int.emod_eq_of_lt (by omega) (by omega)
  simp only [Bool.or_eq_false_iff, decide_eq_false_iff_not, not_lt, hmod, hrec]
  constructor
  · nlinarith
  · omega

lemma findFirstCellScan_inRange (g : Grid) (hrec : g.recSize = g.numRows * g.numCols)
    (x y : ℚ) (i : Int) (h : findFirstCellScan g x y = some i) :
    indexOutOfRange g i = false := by
  obtain ⟨row, col, hr, hc, hi, -⟩ := (findFirstCellScan_eq_some_iff g x y i).1 h
  rw [hi]
  exact cellOffset_inRange g hrec row col (by omega) (by omega) (by omega) (by omega)

lemma findFirstCellScan_insideCell (g : Grid) (x y : ℚ) (i : Int)
    (h : findFirstCellScan g x y = some i) : (insideCell g x y i).1 = true := by
  obtain ⟨row, col, -, -, hi, hb, -⟩ := (findFirstCellScan_eq_some_iff g x y i).1 h
  rw [hi]
  exact ((findFirstCellBody_iff g x y _).1 hb).2

/-! ## Lemmas on the solver -/

/-- When the determinant is not zero, `dgesv` returns a solution of the system. -/
lemma dgesv_solves (a b : Nat → ℚ) (hdet : det4 (colMajor a) ≠ 0) (k : Nat) (hk : k < 4) :
    matVec a (dgesv a b).1 k = b k := by
  unfold dgesv
  simp only [hdet, if_false]
  unfold matVec
  simp only [show (0 : Nat) < 4 by decide, show (1 : Nat) < 4 by decide,
    show (2 : Nat) < 4 by decide, show (3 : Nat) < 4 by decide, if_true]
  have hk4 : k = 0 ∨ k = 1 ∨ k = 2 ∨ k = 3 := by omega
  rcases hk4 with h | h | h | h <;> subst h <;>
    · field_simp
      simp only [det4, det3, replaceCol]
      simp
      ring

/-- When the determinant is not zero, the system has no other solution than the one
`dgesv` returns. -/
lemma dgesv_unique (a b c : Nat → ℚ) (hdet : det4 (colMajor a) ≠ 0)
    (hc : ∀ k, k < 4 → matVec a c k = b k) (j : Nat) (hj : j < 4) :
    (dgesv a b).1 j = c j := by
  unfold dgesv
  simp only [hdet, if_false, hj, if_true]
  have h0 := hc 0 (by decide)
  have h1 := hc 1 (by decide)
  have h2 := hc 2 (by decide)
  have h3 := hc 3 (by decide)
  unfold matVec at h0 h1 h2 h3
  rw [div_eq_iff hdet]
  have hj4 : j = 0 ∨ j = 1 ∨ j = 2 ∨ j = 3 := by omega
  rcases hj4 with h | h | h | h <;> subst h <;>
    · simp only [det4, det3, replaceCol]
      simp
      rw [← h0, ← h1, ← h2, ← h3]
      ring

/-! ## The sampling loop and the state machine -/

lemma nextInterpolationPoint_inRange (g : Grid) (hrec : g.recSize = g.numRows * g.numCols)
    (x y : ℚ) (index level : Int) (hl : level ≤ 10)
    (hin : indexOutOfRange g index = false) :
    indexOutOfRange g (nextInterpolationPoint g x y index level).2 = false := by
  rw [nextInterpolationPoint_closed g x y index level hl]
  simp only [hin, Bool.false_eq_true, if_false]
  split_ifs
  · exact hin
  · cases hs : findFirstCellScan g x y with
    | none => rw [findFirstCell_eq_of_scan_none g x y index hs]; exact hin
    | some i =>
      rw [findFirstCell_eq_of_scan_some g x y index i hs]
      exact findFirstCellScan_inRange g hrec x y i hs

lemma sliceStepAt_refines (g : Grid) (p : Pass) (hrec : g.recSize = g.numRows * g.numCols)
    (x y : ℚ) (cur : Cursor) (hin : indexOutOfRange g cur.index = false) :
    ∃ cur1 : Cursor,
      sliceStepAt g p x y cur = some (cur1, (samplerStep g p x y cur.state).2) ∧
      cur1.state = (samplerStep g p x y cur.state).1 ∧
      indexOutOfRange g cur1.index = false := by
  obtain ⟨index, insideGraph⟩ := cur
  simp only at hin
  cases insideGraph with
  | false =>
    cases hs : findFirstCellScan g x y with
    | none =>
      have hf := findFirstCell_eq_of_scan_none g x y index hs
      have hn : (nextInterpolationPoint g x y index 1).2 = index := by
        rw [nextInterpolationPoint_closed g x y index 1 (by norm_num)]
        simp only [hin, Bool.false_eq_true, if_false, hf]
        split_ifs <;> rfl
      refine ⟨⟨index, false⟩, ?_, ?_, hin⟩
      · simp [sliceStepAt, hf, hn, hin, Cursor.state, samplerStep, hs]
      · simp [Cursor.state, samplerStep, hs]
    | some i =>
      have hf := findFirstCell_eq_of_scan_some g x y index i hs
      have hi := findFirstCellScan_inRange g hrec x y i hs
      have hn : nextInterpolationPoint g x y i 1 = (true, i) := by
        rw [nextInterpolationPoint_closed g x y i 1 (by norm_num)]
        simp [hi, findFirstCellScan_insideCell g x y i hs]
      refine ⟨⟨i, true⟩, ?_, ?_, hi⟩
      · simp [sliceStepAt, hf, hn, hi, Cursor.state, samplerStep, hs]
      · simp [Cursor.state, samplerStep, hs]
  | true =>
    have hr := nextInterpolationPoint_inRange g hrec x y index 1 (by norm_num) hin
    cases hb : (nextInterpolationPoint g x y index 1).1 with
    | false =>
      refine ⟨⟨(nextInterpolationPoint g x y index 1).2, false⟩, ?_, ?_, hr⟩
      · simp [sliceStepAt, hb, hr, Cursor.state, samplerStep]
      · simp [Cursor.state, samplerStep, hb]
    | true =>
      refine ⟨⟨(nextInterpolationPoint g x y index 1).2, true⟩, ?_, ?_, hr⟩
      · simp [sliceStepAt, hb, hr, Cursor.state, samplerStep]
      · simp [Cursor.state, samplerStep, hb]

lemma sliceLoop_refines (g : Grid) (p : Pass) (hrec : g.recSize = g.numRows * g.numCols)
    (n : Nat) : ∀ (k0 : Nat) (cur : Cursor) (sliceData : Int → ℚ),
      indexOutOfRange g cur.index = false → cur.state = samplerStateAt g p k0 →
      (sliceLoop g p n (k0 : Int) cur sliceData).2 = true ∧
      ∀ j : Int, (sliceLoop g p n (k0 : Int) cur sliceData).1 j =
        if (k0 : Int) ≤ j ∧ j < (k0 : Int) + (n : Int) then samplerOutput g p j.toNat
        else sliceData j := by
  induction n with
  | zero =>
    intro k0 cur sliceData _ _
    refine ⟨rfl, fun j => ?_⟩
    have : ¬ ((k0 : Int) ≤ j ∧ j < (k0 : Int) + ((0 : Nat) : Int)) := by
      push_cast; omega
    simp only [this, if_false]
    rfl
  | succ n ih =>
    intro k0 cur sliceData hin hst
    obtain ⟨cur1, hstep, hst1, hin1⟩ :=
      sliceStepAt_refines g p hrec (samplePoint p (k0 : Int)).1 (samplePoint p (k0 : Int)).2
        cur hin
    have hst2 : cur1.state = samplerStateAt g p (k0 + 1) := by
      rw [hst1, hst]
      rfl
    have hloop : sliceLoop g p (n + 1) (k0 : Int) cur sliceData =
        sliceLoop g p n (((k0 + 1 : Nat)) : Int) cur1
          (fun k => if k = (k0 : Int) then
            (samplerStep g p (samplePoint p (k0 : Int)).1 (samplePoint p (k0 : Int)).2
              cur.state).2 else sliceData k) := by
      rw [sliceLoop, hstep]
      push_cast
      rfl
    rw [hloop]
    obtain ⟨h1, h2⟩ := ih (k0 + 1) cur1 _ hin1 hst2
    refine ⟨h1, fun j => ?_⟩
    rw [h2 j]
    by_cases hj : j = (k0 : Int)
    · subst hj
      have c1 : ¬ (((k0 + 1 : Nat) : Int) ≤ (k0 : Int) ∧
          (k0 : Int) < ((k0 + 1 : Nat) : Int) + (n : Int)) := by push_cast; omega
      have c2 : (k0 : Int) ≤ (k0 : Int) ∧ (k0 : Int) < (k0 : Int) + ((n + 1 : Nat) : Int) := by
        push_cast; omega
      simp only [c1, c2, if_false, if_true, and_self]
      rw [hst]
      simp [samplerOutput]
    · by_cases hr : ((k0 + 1 : Nat) : Int) ≤ j ∧ j < ((k0 + 1 : Nat) : Int) + (n : Int)
      · have c2 : (k0 : Int) ≤ j ∧ j < (k0 : Int) + ((n + 1 : Nat) : Int) := by
          push_cast at hr ⊢; omega
        simp only [hr, c2, and_self, if_true]
      · have c2 : ¬ ((k0 : Int) ≤ j ∧ j < (k0 : Int) + ((n + 1 : Nat) : Int)) := by
          push_cast at hr ⊢; omega
        simp only [hr, c2, if_false, hj]

lemma indexOutOfRange_zero (g : Grid) (hrec : g.recSize = g.numRows * g.numCols)
    (hr : 1 ≤ g.numRows) (hc : 1 ≤ g.numCols) : indexOutOfRange g 0 = false := by
  unfold indexOutOfRange
  have h1 : 0 ≤ (g.numRows - 1) * g.numCols := mul_nonneg (by omega) (by omega)
  simp only [Bool.or_eq_false_iff, decide_eq_false_iff_not, not_lt, hrec, Int.zero_tmod]
  constructor
  · nlinarith
  · omega

lemma interpolateSliceGraph_refines (g : Grid) (p : Pass)
    (hrec : g.recSize = g.numRows * g.numCols) (hr : 1 ≤ g.numRows) (hc : 1 ≤ g.numCols)
    (sliceData : Int → ℚ) (sdsize : Int) :
    (interpolateSliceGraph g p sliceData sdsize).completed = true ∧
    ∀ j : Int, (interpolateSliceGraph g p sliceData sdsize).sliceData j =
      if 0 ≤ j ∧ j < ((orderLine p).totalSliceSteps.toNat : Int) then
        samplerOutput g (orderLine p) j.toNat
      else sliceData j := by
  have h := sliceLoop_refines g (orderLine p) hrec (orderLine p).totalSliceSteps.toNat 0
    ⟨0, false⟩ sliceData (indexOutOfRange_zero g hrec hr hc) rfl
  obtain ⟨h1, h2⟩ := h
  simp only [Nat.cast_zero, zero_add] at h1 h2
  unfold interpolateSliceGraph
  simp only [h1, if_true]
  exact ⟨trivial, h2⟩

/-! ## Lemmas on the edges parallel to the axes -/

lemma aboveOrBelowLine_vertical (a b c : coord_t) (h : a.x = b.x) :
    aboveOrBelowLine a b c = ON_LINE := by
  simp [aboveOrBelowLine, aboveOrBelowLineTraced, h]

lemma aboveOrBelowLine_horizontal (a b c : coord_t) (hx : a.x ≠ b.x) (hy : a.y = b.y) :
    aboveOrBelowLine a b c =
      if c.y = a.y then ON_LINE else if c.y < a.y then BELOW_LINE else ABOVE_LINE := by
  unfold aboveOrBelowLine aboveOrBelowLineTraced
  simp only [ne_eq, hx, not_false_eq_true, if_true, hy, not_true_eq_false, if_false]
  split_ifs with h1 h2 h3
  · rfl
  · rfl
  · rfl
  · exact absurd (lt_of_le_of_ne (not_lt.mp h2) (Ne.symm (hy ▸ h1))) h3

/-! ## Lemmas on the grid of the concrete scenarios -/

lemma unitGrid_coord (r c : Nat) (hr : r < 4) (hc : c < 4) :
    unitGrid.weatherCoords (8 * (r : Int) + 2 * (c : Int)) = (c : ℚ) ∧
    unitGrid.weatherCoords (8 * (r : Int) + 2 * (c : Int) + 1) = (r : ℚ) := by
  interval_cases r <;> interval_cases c <;> simp [unitGrid, arrayOfList]

lemma unitGrid_cellOffset (r c : Int) :
    cellOffset unitGrid r c = 8 * r + 2 * c := by
  simp only [cellOffset, unitGrid]
  ring

lemma unitGrid_insideCell (r c : Nat) (hr : r < 3) (hc : c < 3) (x y : ℚ) :
    (insideCell unitGrid x y (cellOffset unitGrid r c)).1 = true ↔
      (r : ℚ) ≤ y ∧ y ≤ (r : ℚ) + 1 := by
  rw [insideCell_fst_iff]
  have e0 := unitGrid_cellOffset r c
  have e1 : unitGrid.numCols * 2 = 8 := by simp [unitGrid]
  have a0 := unitGrid_coord r c (by omega) (by omega)
  have a1 := unitGrid_coord r (c + 1) (by omega) (by omega)
  have a2 := unitGrid_coord (r + 1) c (by omega) (by omega)
  have a3 := unitGrid_coord (r + 1) (c + 1) (by omega) (by omega)
  push_cast at a1 a2 a3
  have f1 : 8 * (r : Int) + 2 * (c : Int) + 2 = 8 * (r : Int) + 2 * ((c : Int) + 1) := by ring
  have f2 : 8 * (r : Int) + 2 * (c : Int) + 3 = 8 * (r : Int) + 2 * ((c : Int) + 1) + 1 := by
    ring
  have f3 : 8 * (r : Int) + 2 * (c : Int) + 8 = 8 * ((r : Int) + 1) + 2 * (c : Int) := by ring
  have f4 : 8 * (r : Int) + 2 * (c : Int) + 8 + 1 = 8 * ((r : Int) + 1) + 2 * (c : Int) + 1 := by
    ring
  have f5 : 8 * (r : Int) + 2 * (c : Int) + 8 + 2 = 8 * ((r : Int) + 1) + 2 * ((c : Int) + 1) := by
    ring
  have f6 : 8 * (r : Int) + 2 * (c : Int) + 8 + 3 =
      8 * ((r : Int) + 1) + 2 * ((c : Int) + 1) + 1 := by ring
  rw [e0, e1, f1, f2, f4, f5, f6, f3, a0.1, a0.2, a1.1, a1.2, a2.1, a2.2, a3.1, a3.2]
  rw [aboveOrBelowLine_horizontal _ _ _ (by simp [mkCoord]) (by simp [mkCoord]),
    aboveOrBelowLine_vertical _ _ _ (by simp [mkCoord]),
    aboveOrBelowLine_horizontal _ _ _ (by simp [mkCoord]) (by simp [mkCoord]),
    aboveOrBelowLine_vertical _ _ _ (by simp [mkCoord])]
  simp only [mkCoord]
  constructor
  · rintro ⟨h1, -, h3, -⟩
    constructor
    · by_contra hlt
      apply h1
      have : y < r := not_le.mp hlt
      simp [this, ne_of_lt this]
    · by_contra hlt
      apply h3
      have : (r : ℚ) + 1 < y := not_le.mp hlt
      simp [ne_of_gt this, not_lt.mpr this.le]
  · rintro ⟨h1, h2⟩
    refine ⟨?_, by simp, ?_, by simp⟩
    · split_ifs with ha hb
      · simp
      · exact absurd h1 (not_le.mpr hb)
      · simp
    · split_ifs with ha hb
      · simp
      · simp
      · exact absurd (le_antisymm h2 (not_lt.mp hb)) ha

lemma unitGrid_body (r c : Nat) (hr : r < 3) (hc : c < 3) (x y : ℚ) :
    findFirstCellBody unitGrid x y (cellOffset unitGrid r c) = true ↔
      (x - (c : ℚ)) ^ 2 + (y - (r : ℚ)) ^ 2 ≤ 1 ∧ (r : ℚ) ≤ y ∧ y ≤ (r : ℚ) + 1 := by
  rw [findFirstCellBody_iff, unitGrid_insideCell r c hr hc]
  have a0 := unitGrid_coord r c (by omega) (by omega)
  rw [unitGrid_cellOffset, a0.1, a0.2]
  unfold calcDistanceSq
  have e : ((c : ℚ) - x) ^ 2 + ((r : ℚ) - y) ^ 2 = (x - (c : ℚ)) ^ 2 + (y - (r : ℚ)) ^ 2 := by
    ring
  rw [e]

lemma unitField_at (r c : Nat) (hr : r < 4) (hc : c < 4) :
    unitField (4 * (r : Int) + (c : Int)) = (r : ℚ) + (c : ℚ) := by
  interval_cases r <;> interval_cases c <;> simp [unitField, arrayOfList] <;> norm_num

lemma unitGrid_cellMatrix (r c : Nat) (hr : r < 3) (hc : c < 3) :
    cellMatrix unitGrid (cellOffset unitGrid r c) = fun k =>
      [1, 1, 1, 1, (c : ℚ), (c : ℚ) + 1, (c : ℚ) + 1, (c : ℚ),
        (r : ℚ), (r : ℚ), (r : ℚ) + 1, (r : ℚ) + 1,
        (c : ℚ) * (r : ℚ), ((c : ℚ) + 1) * (r : ℚ), ((c : ℚ) + 1) * ((r : ℚ) + 1),
        (c : ℚ) * ((r : ℚ) + 1)].getD k 0 := by
  have e0 := unitGrid_cellOffset r c
  have e1 : unitGrid.numCols * 2 = 8 := by simp [unitGrid]
  have a0 := unitGrid_coord r c (by omega) (by omega)
  have a1 := unitGrid_coord r (c + 1) (by omega) (by omega)
  have a2 := unitGrid_coord (r + 1) c (by omega) (by omega)
  have a3 := unitGrid_coord (r + 1) (c + 1) (by omega) (by omega)
  push_cast at a1 a2 a3
  have f1 : 8 * (r : Int) + 2 * (c : Int) + 2 = 8 * (r : Int) + 2 * ((c : Int) + 1) := by ring
  have f2 : 8 * (r : Int) + 2 * (c : Int) + 3 = 8 * (r : Int) + 2 * ((c : Int) + 1) + 1 := by
    ring
  have f3 : 8 * (r : Int) + 2 * (c : Int) + 8 = 8 * ((r : Int) + 1) + 2 * (c : Int) := by ring
  have f4 : 8 * (r : Int) + 2 * (c : Int) + 8 + 1 = 8 * ((r : Int) + 1) + 2 * (c : Int) + 1 := by
    ring
  have f5 : 8 * (r : Int) + 2 * (c : Int) + 8 + 2 = 8 * ((r : Int) + 1) + 2 * ((c : Int) + 1) := by
    ring
  have f6 : 8 * (r : Int) + 2 * (c : Int) + 8 + 3 =
      8 * ((r : Int) + 1) + 2 * ((c : Int) + 1) + 1 := by ring
  unfold cellMatrix
  simp only []
  rw [e0, e1, f1, f2, f4, f5, f6, f3, a0.1, a0.2, a1.1, a1.2, a2.1, a2.2, a3.1, a3.2]

lemma unitGrid_cellRhs (p : Pass) (hw : p.weatherData = unitField)
    (ht : p.currentTimeStep = 0) (r c : Nat) (hr : r < 3) (hc : c < 3) :
    cellRhs unitGrid p (cellOffset unitGrid r c) = fun k =>
      [(r : ℚ) + (c : ℚ), (r : ℚ) + ((c : ℚ) + 1), (r : ℚ) + 1 + ((c : ℚ) + 1),
        (r : ℚ) + 1 + (c : ℚ)].getD k 0 := by
  have e0 := unitGrid_cellOffset r c
  have v0 := unitField_at r c (by omega) (by omega)
  have v1 := unitField_at r (c + 1) (by omega) (by omega)
  have v2 := unitField_at (r + 1) c (by omega) (by omega)
  have v3 := unitField_at (r + 1) (c + 1) (by omega) (by omega)
  push_cast at v1 v2 v3
  have t0 : (8 * (r : Int) + 2 * (c : Int)).tdiv 2 = 4 * (r : Int) + (c : Int) := by
    rw [Int.tdiv_eq_ediv (by omega) (by omega)]; omega
  have g1 : (0 : Int) * 16 + (4 * (r : Int) + (c : Int)) = 4 * (r : Int) + (c : Int) := by ring
  have g2 : (0 : Int) * 16 + (4 * (r : Int) + (c : Int) + 1) = 4 * (r : Int) + ((c : Int) + 1) := by
    ring
  have g3 : (0 : Int) * 16 + (4 * (r : Int) + (c : Int) + 4 + 1) =
      4 * ((r : Int) + 1) + ((c : Int) + 1) := by ring
  have g4 : (0 : Int) * 16 + (4 * (r : Int) + (c : Int) + 4) = 4 * ((r : Int) + 1) + (c : Int) := by
    ring
  unfold cellRhs
  have hn : unitGrid.numCols = 4 := rfl
  have hs : unitGrid.recSize = 16 := rfl
  simp only [e0, t0, hn, hs, ht, hw, g1, g2, g3, g4, v0, v1, v2, v3]

lemma unitGrid_det (r c : Nat) (hr : r < 3) (hc : c < 3) :
    det4 (colMajor (cellMatrix unitGrid (cellOffset unitGrid r c))) ≠ 0 := by
  rw [unitGrid_cellMatrix r c hr hc]
  simp [det4, det3, colMajor]
  ring_nf
  norm_num

lemma unitGrid_solves (p : Pass) (hw : p.weatherData = unitField)
    (ht : p.currentTimeStep = 0) (r c : Nat) (hr : r < 3) (hc : c < 3) (k : Nat) (hk : k < 4) :
    matVec (cellMatrix unitGrid (cellOffset unitGrid r c))
      (fun j => ([0, 1, 1, 0] : List ℚ).getD j 0) k =
      cellRhs unitGrid p (cellOffset unitGrid r c) k := by
  rw [unitGrid_cellMatrix r c hr hc, unitGrid_cellRhs p hw ht r c hr hc]
  have hk4 : k = 0 ∨ k = 1 ∨ k = 2 ∨ k = 3 := by omega
  rcases hk4 with h | h | h | h <;> subst h <;> simp [matVec, colMajor] <;> ring

/-- On the grid of the concrete scenarios, with the field `r + c`, the bilinear value
of every cell at `(x, y)` is `x + y`. -/
lemma unitGrid_cellValue (p : Pass) (hw : p.weatherData = unitField)
    (ht : p.currentTimeStep = 0) (r c : Nat) (hr : r < 3) (hc : c < 3) (x y : ℚ) :
    cellValue unitGrid p (cellOffset unitGrid r c) x y = x + y := by
  have hsol : ∀ j, j < 4 →
      (dgesv (cellMatrix unitGrid (cellOffset unitGrid r c))
        (cellRhs unitGrid p (cellOffset unitGrid r c))).1 j =
        ([0, 1, 1, 0] : List ℚ).getD j 0 := fun j hj =>
    dgesv_unique _ _ (fun j => ([0, 1, 1, 0] : List ℚ).getD j 0) (unitGrid_det r c hr hc)
      (fun k hk => unitGrid_solves p hw ht r c hr hc k hk) j hj
  unfold cellValue solve4x4Lapack
  simp only [hsol 0 (by decide), hsol 1 (by decide), hsol 2 (by decide), hsol 3 (by decide)]
  simp

/-! ## Lemmas on the system of a cell -/

lemma cellMatrix_row (g : Grid) (index : Int) (k : Nat) (hk : k < 4) :
    colMajor (cellMatrix g index) k 0 = 1 ∧
    colMajor (cellMatrix g index) k 1 = (cellCorner g index k).x ∧
    colMajor (cellMatrix g index) k 2 = (cellCorner g index k).y ∧
    colMajor (cellMatrix g index) k 3 = (cellCorner g index k).x * (cellCorner g index k).y := by
  have hk4 : k = 0 ∨ k = 1 ∨ k = 2 ∨ k = 3 := by omega
  rcases hk4 with h | h | h | h <;> subst h <;>
    simp [colMajor, cellMatrix, cellCorner, bottomLeft, bottomRight, topLeft, topRight, mkCoord]

lemma matVec_cell (g : Grid) (index : Int) (c : Nat → ℚ) (k : Nat) (hk : k < 4) :
    matVec (cellMatrix g index) c k =
      c 0 + c 1 * (cellCorner g index k).x + c 2 * (cellCorner g index k).y
        + c 3 * (cellCorner g index k).x * (cellCorner g index k).y := by
  obtain ⟨h0, h1, h2, h3⟩ := cellMatrix_row g index k hk
  unfold matVec
  rw [h0, h1, h2, h3]
  ring

lemma orderLine_totalSliceSteps (p : Pass) :
    (orderLine p).totalSliceSteps = p.totalSliceSteps := by
  unfold orderLine
  split_ifs <;> rfl

/-! ## The claims -/

/-- C1: the loop of `interpolateSliceGraph` is the two-state machine of the
specification. For a grid with `recSize = numRows * numCols` and at least one row and
one column of corners: the pass starts in `SEARCHING` with the cursor `0`, which passes
the range check; from every cursor that passes the range check, one iteration of the
loop does not take the early return, emits the value the machine emits from the state
the cursor stands for, and ends in the state the machine ends in, with a cursor that
passes the range check again (in `SEARCHING`: sentinel `0.0` and `SEARCHING` when
`findFirstCell` fails, the bilinear value of the found cell and `TRACKING` when it
succeeds; in `TRACKING`: the bilinear value of the returned cell and `TRACKING` when
`nextInterpolationPoint(x, y, cursor, 1)` succeeds, sentinel and `SEARCHING` when it
fails); hence a whole pass runs to its end and stores at every step `k` below
`totalSliceSteps` the value the machine emits at step `k`. -/
theorem interpolateSliceGraph_is_sampler_machine (g : Grid) (p : Pass)
    (hrec : g.recSize = g.numRows * g.numCols) (hr : 1 ≤ g.numRows) (hc : 1 ≤ g.numCols) :
    (Cursor.state ⟨0, false⟩ = SEARCHING ∧ indexOutOfRange g 0 = false) ∧
    (∀ (x y : ℚ) (cur : Cursor), indexOutOfRange g cur.index = false →
      ∃ cur1 : Cursor,
        sliceStepAt g p x y cur = some (cur1, (samplerStep g p x y cur.state).2) ∧
        cur1.state = (samplerStep g p x y cur.state).1 ∧
        indexOutOfRange g cur1.index = false) ∧
    (∀ (sliceData : Int → ℚ) (sdsize : Int),
      (interpolateSliceGraph g p sliceData sdsize).completed = true ∧
      ∀ k : Nat, (k : Int) < p.totalSliceSteps →
        (interpolateSliceGraph g p sliceData sdsize).sliceData (k : Int) =
          samplerOutput g (orderLine p) k) := by
  refine ⟨⟨rfl, indexOutOfRange_zero g hrec hr hc⟩,
    fun x y cur hin => sliceStepAt_refines g p hrec x y cur hin, fun sliceData sdsize => ?_⟩
  obtain ⟨h1, h2⟩ := interpolateSliceGraph_refines g p hrec hr hc sliceData sdsize
  refine ⟨h1, fun k hk => ?_⟩
  rw [h2 (k : Int)]
  have hk1 : (0 : Int) ≤ (k : Int) ∧ (k : Int) < ((orderLine p).totalSliceSteps.toNat : Int) := by
    rw [orderLine_totalSliceSteps]
    omega
  simp only [hk1, and_self, if_true, Int.toNat_ofNat]

/-- Witness of C1 on the grid and the line of the first concrete scenario. -/
theorem interpolateSliceGraph_is_sampler_machine_witness :
    unitGrid.recSize = unitGrid.numRows * unitGrid.numCols ∧
    (1 : Int) ≤ unitGrid.numRows ∧ (1 : Int) ≤ unitGrid.numCols ∧
    (interpolateSliceGraph unitGrid diagonalPass (fun _ => 0) 5).completed = true :=
  ⟨by decide, by decide, by decide,
    ((interpolateSliceGraph_is_sampler_machine unitGrid diagonalPass (by decide) (by decide)
      (by decide)).2.2 (fun _ => 0) 5).1⟩

/-- C2 (the code rejects a point of the interior): on `slantGrid` the corners of cell
`0` form a convex quadrilateral in the order bottom-left, bottom-right, top-right,
top-left, the point `(1/2, 1/2)` lies strictly inside it, and `insideCell` returns
false, because the point is above the line through the right edge. -/
theorem insideCell_rejects_interior_point :
    ConvexQuad (bottomLeft slantGrid 0) (bottomRight slantGrid 0) (topRight slantGrid 0)
      (topLeft slantGrid 0) ∧
    StrictlyInside (bottomLeft slantGrid 0) (bottomRight slantGrid 0) (topRight slantGrid 0)
      (topLeft slantGrid 0) (mkCoord (1 / 2) (1 / 2)) ∧
    aboveOrBelowLine (bottomRight slantGrid 0) (topRight slantGrid 0) (mkCoord (1 / 2) (1 / 2))
      = ABOVE_LINE ∧
    (insideCell slantGrid (1 / 2) (1 / 2) 0).1 = false := by
  have hr : aboveOrBelowLine (bottomRight slantGrid 0) (topRight slantGrid 0)
      (mkCoord (1 / 2) (1 / 2)) = ABOVE_LINE := by
    simp [aboveOrBelowLine, aboveOrBelowLineTraced, bottomRight, topRight, slantGrid,
      arrayOfList, mkCoord]
    norm_num
  refine ⟨?_, ?_, hr, ?_⟩
  · simp [ConvexQuad, cross, bottomLeft, bottomRight, topLeft, topRight, slantGrid,
      arrayOfList, mkCoord]
  · simp [StrictlyInside, cross, bottomLeft, bottomRight, topLeft, topRight, slantGrid,
      arrayOfList, mkCoord]
    norm_num
  · rw [Bool.eq_false_iff, Ne, insideCell_fst_iff]
    intro h
    exact h.2.1 (by simpa [bottomRight, topRight] using hr)

/-- C3: interpolation is exact at the nodes. For the cell with offset `index`, row `k`
of the column-major matrix `A` built by `interpolateSliceGraph` is
`[1, x_k, y_k, x_k * y_k]` for the corners `k = 0..3` (bottom-left, bottom-right,
top-right, top-left), the right-hand side holds the four field values read at
`T * recSize + index/2`, `+ 1`, `+ numCols + 1`, `+ numCols`, and every solution `c` of
`A * c = b` satisfies `c0 + c1 * x_k + c2 * y_k + c3 * x_k * y_k = b_k` at each corner;
when the determinant is not zero, the value the code computes at a corner is the
field value of that corner. -/
theorem cellSystem_exact_at_corners (g : Grid) (p : Pass) (index : Int) :
    (∀ k : Nat, k < 4 →
      colMajor (cellMatrix g index) k 0 = 1 ∧
      colMajor (cellMatrix g index) k 1 = (cellCorner g index k).x ∧
      colMajor (cellMatrix g index) k 2 = (cellCorner g index k).y ∧
      colMajor (cellMatrix g index) k 3 =
        (cellCorner g index k).x * (cellCorner g index k).y) ∧
    (cellRhs g p index 0 = p.weatherData (p.currentTimeStep * g.recSize + index.tdiv 2) ∧
      cellRhs g p index 1 =
        p.weatherData (p.currentTimeStep * g.recSize + (index.tdiv 2 + 1)) ∧
      cellRhs g p index 2 =
        p.weatherData (p.currentTimeStep * g.recSize + (index.tdiv 2 + g.numCols + 1)) ∧
      cellRhs g p index 3 =
        p.weatherData (p.currentTimeStep * g.recSize + (index.tdiv 2 + g.numCols))) ∧
    (∀ c : Nat → ℚ, (∀ k : Nat, k < 4 → matVec (cellMatrix g index) c k = cellRhs g p index k) →
      ∀ k : Nat, k < 4 →
        c 0 + c 1 * (cellCorner g index k).x + c 2 * (cellCorner g index k).y
          + c 3 * (cellCorner g index k).x * (cellCorner g index k).y = cellRhs g p index k) ∧
    (det4 (colMajor (cellMatrix g index)) ≠ 0 →
      ∀ k : Nat, k < 4 →
        cellValue g p index (cellCorner g index k).x (cellCorner g index k).y =
          cellRhs g p index k) := by
  refine ⟨fun k hk => cellMatrix_row g index k hk, ⟨rfl, rfl, rfl, rfl⟩, ?_, ?_⟩
  · intro c hc k hk
    rw [← matVec_cell g index c k hk]
    exact hc k hk
  · intro hdet k hk
    have h := dgesv_solves (cellMatrix g index) (cellRhs g p index) hdet k hk
    rw [matVec_cell g index _ k hk] at h
    unfold cellValue solve4x4Lapack
    simp only
    rw [← h]

/-- Witness of C3: on the first cell of the grid of the concrete scenarios the
coefficients `(0, 1, 1, 0)` of `x + y` solve the system, and they give the field value
`2` at the top-right corner `(1, 1)`. -/
theorem cellSystem_exact_at_corners_witness :
    (∀ k : Nat, k < 4 →
      matVec (cellMatrix unitGrid 0) (fun j => ([0, 1, 1, 0] : List ℚ).getD j 0) k =
        cellRhs unitGrid diagonalPass 0 k) ∧
    (fun j => ([0, 1, 1, 0] : List ℚ).getD j 0) 0
      + (fun j => ([0, 1, 1, 0] : List ℚ).getD j 0) 1 * (cellCorner unitGrid 0 2).x
      + (fun j => ([0, 1, 1, 0] : List ℚ).getD j 0) 2 * (cellCorner unitGrid 0 2).y
      + (fun j => ([0, 1, 1, 0] : List ℚ).getD j 0) 3 * (cellCorner unitGrid 0 2).x
          * (cellCorner unitGrid 0 2).y = cellRhs unitGrid diagonalPass 0 2 :=
  have h : ∀ k : Nat, k < 4 →
      matVec (cellMatrix unitGrid 0) (fun j => ([0, 1, 1, 0] : List ℚ).getD j 0) k =
        cellRhs unitGrid diagonalPass 0 k := fun k hk => by
    have e := unitGrid_solves diagonalPass rfl rfl 0 0 (by decide) (by decide) k hk
    simpa [unitGrid_cellOffset] using e
  ⟨h, (cellSystem_exact_at_corners unitGrid diagonalPass 0).2.2.1 _ h 2 (by decide)⟩

/-- The value of a bilinear form along an edge parallel to an axis: when the form takes
the values `vP` at `P` and `vQ` at `Q`, and `P`, `Q` have the same `x` or the same `y`,
its value at `P + s * (Q - P)` is `(1 - s) * vP + s * vQ`. -/
lemma bilinear_on_axis_edge (c0 c1 c2 c3 px py qx qy vP vQ s : ℚ)
    (hax : px = qx ∨ py = qy)
    (hP : c0 + c1 * px + c2 * py + c3 * px * py = vP)
    (hQ : c0 + c1 * qx + c2 * qy + c3 * qx * qy = vQ) :
    c0 + c1 * (px + s * (qx - px)) + c2 * (py + s * (qy - py))
      + c3 * (px + s * (qx - px)) * (py + s * (qy - py)) = (1 - s) * vP + s * vQ := by
  rcases hax with h | h
  · subst h
    linear_combination (1 - s) * hP + s * hQ
  · subst h
    linear_combination (1 - s) * hP + s * hQ

/-- C4, as the claim states it, fails: on `trapezoidGrid` the cells `0` and `2` share
the edge from `(1,0)` to `(2,1)` (corners 1 and 2 of cell `0` are corners 0 and 3 of
cell `2`, with the same field values), both systems have a nonzero determinant, and at
the midpoint `(3/2, 1/2)` of the shared edge the two cells give `3/8` and `3/4`. -/
theorem shared_edge_discontinuity :
    cellCorner trapezoidGrid 0 1 = cellCorner trapezoidGrid 2 0 ∧
    cellCorner trapezoidGrid 0 2 = cellCorner trapezoidGrid 2 3 ∧
    cellRhs trapezoidGrid trapezoidPass 0 1 = cellRhs trapezoidGrid trapezoidPass 2 0 ∧
    cellRhs trapezoidGrid trapezoidPass 0 2 = cellRhs trapezoidGrid trapezoidPass 2 3 ∧
    det4 (colMajor (cellMatrix trapezoidGrid 0)) ≠ 0 ∧
    det4 (colMajor (cellMatrix trapezoidGrid 2)) ≠ 0 ∧
    (3 / 2 : ℚ) = (cellCorner trapezoidGrid 0 1).x
      + 1 / 2 * ((cellCorner trapezoidGrid 0 2).x - (cellCorner trapezoidGrid 0 1).x) ∧
    (1 / 2 : ℚ) = (cellCorner trapezoidGrid 0 1).y
      + 1 / 2 * ((cellCorner trapezoidGrid 0 2).y - (cellCorner trapezoidGrid 0 1).y) ∧
    cellValue trapezoidGrid trapezoidPass 0 (3 / 2) (1 / 2) = 3 / 8 ∧
    cellValue trapezoidGrid trapezoidPass 2 (3 / 2) (1 / 2) = 3 / 4 ∧
    cellValue trapezoidGrid trapezoidPass 0 (3 / 2) (1 / 2) ≠
      cellValue trapezoidGrid trapezoidPass 2 (3 / 2) (1 / 2) := by
  have hA0 : cellMatrix trapezoidGrid 0 = fun k =>
      ([1, 1, 1, 1, 0, 1, 2, 0, 0, 0, 1, 1, 0, 0, 2, 0] : List ℚ).getD k 0 := by
    funext k
    simp [cellMatrix, trapezoidGrid, arrayOfList]
  have hA2 : cellMatrix trapezoidGrid 2 = fun k =>
      ([1, 1, 1, 1, 1, 3, 3, 2, 0, 0, 1, 1, 0, 0, 3, 2] : List ℚ).getD k 0 := by
    funext k
    simp [cellMatrix, trapezoidGrid, arrayOfList]
  have t0 : (0 : Int).tdiv 2 = 0 := by decide
  have t2 : (2 : Int).tdiv 2 = 1 := by decide
  have hB0 : cellRhs trapezoidGrid trapezoidPass 0 = fun k =>
      ([0, 0, 1, 0] : List ℚ).getD k 0 := by
    funext k
    simp [cellRhs, trapezoidGrid, trapezoidPass, arrayOfList, t0]
  have hB2 : cellRhs trapezoidGrid trapezoidPass 2 = fun k =>
      ([0, 0, 0, 1] : List ℚ).getD k 0 := by
    funext k
    simp [cellRhs, trapezoidGrid, trapezoidPass, arrayOfList, t2]
  have hd0 : det4 (colMajor (cellMatrix trapezoidGrid 0)) ≠ 0 := by
    rw [hA0]
    simp [det4, det3, colMajor]
  have hd2 : det4 (colMajor (cellMatrix trapezoidGrid 2)) ≠ 0 := by
    rw [hA2]
    simp [det4, det3, colMajor]
    norm_num
  have hs0 : ∀ j, j < 4 →
      (dgesv (cellMatrix trapezoidGrid 0) (cellRhs trapezoidGrid trapezoidPass 0)).1 j =
        ([0, 0, 0, 1 / 2] : List ℚ).getD j 0 := fun j hj =>
    dgesv_unique _ _ (fun j => ([0, 0, 0, 1 / 2] : List ℚ).getD j 0) hd0
      (fun k hk => by
        rw [hA0, hB0]
        have hk4 : k = 0 ∨ k = 1 ∨ k = 2 ∨ k = 3 := by omega
        rcases hk4 with h | h | h | h <;> subst h <;> simp [matVec, colMajor]) j hj
  have hs2 : ∀ j, j < 4 →
      (dgesv (cellMatrix trapezoidGrid 2) (cellRhs trapezoidGrid trapezoidPass 2)).1 j =
        ([0, 0, 3, -1] : List ℚ).getD j 0 := fun j hj =>
    dgesv_unique _ _ (fun j => ([0, 0, 3, -1] : List ℚ).getD j 0) hd2
      (fun k hk => by
        rw [hA2, hB2]
        have hk4 : k = 0 ∨ k = 1 ∨ k = 2 ∨ k = 3 := by omega
        rcases hk4 with h | h | h | h <;> subst h <;> norm_num [matVec, colMajor]) j hj
  have hv0 : cellValue trapezoidGrid trapezoidPass 0 (3 / 2) (1 / 2) = 3 / 8 := by
    unfold cellValue solve4x4Lapack
    simp only [hs0 0 (by decide), hs0 1 (by decide), hs0 2 (by decide), hs0 3 (by decide)]
    norm_num
  have hv2 : cellValue trapezoidGrid trapezoidPass 2 (3 / 2) (1 / 2) = 3 / 4 := by
    unfold cellValue solve4x4Lapack
    simp only [hs2 0 (by decide), hs2 1 (by decide), hs2 2 (by decide), hs2 3 (by decide)]
    norm_num
  refine ⟨?_, ?_, ?_, ?_, hd0, hd2, ?_, ?_, hv0, hv2, ?_⟩
  · simp [cellCorner, bottomRight, bottomLeft, trapezoidGrid]
  · simp [cellCorner, topRight, topLeft, trapezoidGrid]
  · rw [hB0, hB2]; simp
  · rw [hB0, hB2]; simp
  · simp [cellCorner, bottomRight, topRight, trapezoidGrid, arrayOfList, mkCoord]
    norm_num
  · simp [cellCorner, bottomRight, topRight, trapezoidGrid, arrayOfList, mkCoord]
  · rw [hv0, hv2]
    norm_num

/-- C4, amended: the sampled value is continuous across a shared edge that is parallel
to an axis. If corners `a`, `b` of cell `i` are corners `a1`, `b1` of cell `j` (same
coordinates, same field values), both systems have a nonzero determinant, and the two
shared corners have the same `x` or the same `y`, then at every point
`P + s * (Q - P)` of the line through the shared corners `P`, `Q` the value computed
from the coefficients of cell `i` equals the value computed from those of cell `j`. -/
theorem shared_axis_edge_continuity (g : Grid) (p : Pass) (i j : Int) (a b a1 b1 : Nat)
    (ha : a < 4) (hb : b < 4) (ha1 : a1 < 4) (hb1 : b1 < 4)
    (hP : cellCorner g i a = cellCorner g j a1) (hQ : cellCorner g i b = cellCorner g j b1)
    (hvP : cellRhs g p i a = cellRhs g p j a1) (hvQ : cellRhs g p i b = cellRhs g p j b1)
    (hdi : det4 (colMajor (cellMatrix g i)) ≠ 0) (hdj : det4 (colMajor (cellMatrix g j)) ≠ 0)
    (hax : (cellCorner g i a).x = (cellCorner g i b).x ∨
      (cellCorner g i a).y = (cellCorner g i b).y)
    (s x y : ℚ)
    (hx : x = (cellCorner g i a).x + s * ((cellCorner g i b).x - (cellCorner g i a).x))
    (hy : y = (cellCorner g i a).y + s * ((cellCorner g i b).y - (cellCorner g i a).y)) :
    cellValue g p i x y = cellValue g p j x y := by
  have hiP := dgesv_solves (cellMatrix g i) (cellRhs g p i) hdi a ha
  have hiQ := dgesv_solves (cellMatrix g i) (cellRhs g p i) hdi b hb
  have hjP := dgesv_solves (cellMatrix g j) (cellRhs g p j) hdj a1 ha1
  have hjQ := dgesv_solves (cellMatrix g j) (cellRhs g p j) hdj b1 hb1
  rw [matVec_cell g i _ a ha] at hiP
  rw [matVec_cell g i _ b hb] at hiQ
  rw [matVec_cell g j _ a1 ha1, ← hP, ← hvP] at hjP
  rw [matVec_cell g j _ b1 hb1, ← hQ, ← hvQ] at hjQ
  have e1 := bilinear_on_axis_edge _ _ _ _ _ _ _ _ _ _ s hax hiP hiQ
  have e2 := bilinear_on_axis_edge _ _ _ _ _ _ _ _ _ _ s hax hjP hjQ
  unfold cellValue solve4x4Lapack
  simp only
  rw [hx, hy, e1, e2]

/-- Witness of C4 (amended): the cells `0` and `2` of the grid of the concrete
scenarios share the vertical edge from `(1,0)` to `(1,1)`; at its midpoint the two
cells give the same value. -/
theorem shared_axis_edge_continuity_witness :
    cellCorner unitGrid 0 1 = cellCorner unitGrid 2 0 ∧
    cellCorner unitGrid 0 2 = cellCorner unitGrid 2 3 ∧
    cellRhs unitGrid diagonalPass 0 1 = cellRhs unitGrid diagonalPass 2 0 ∧
    cellRhs unitGrid diagonalPass 0 2 = cellRhs unitGrid diagonalPass 2 3 ∧
    det4 (colMajor (cellMatrix unitGrid 0)) ≠ 0 ∧
    det4 (colMajor (cellMatrix unitGrid 2)) ≠ 0 ∧
    (cellCorner unitGrid 0 1).x = (cellCorner unitGrid 0 2).x ∧
    cellValue unitGrid diagonalPass 0 1 (1 / 2) = cellValue unitGrid diagonalPass 2 1 (1 / 2) := by
  have hc1 : cellCorner unitGrid 0 1 = cellCorner unitGrid 2 0 := by
    simp [cellCorner, bottomRight, bottomLeft, unitGrid]
  have hc2 : cellCorner unitGrid 0 2 = cellCorner unitGrid 2 3 := by
    simp [cellCorner, topRight, topLeft, unitGrid]
  have hB0 := unitGrid_cellRhs diagonalPass rfl rfl 0 0 (by decide) (by decide)
  have hB2 := unitGrid_cellRhs diagonalPass rfl rfl 0 1 (by decide) (by decide)
  have hd0 := unitGrid_det 0 0 (by decide) (by decide)
  have hd2 := unitGrid_det 0 1 (by decide) (by decide)
  simp only [unitGrid_cellOffset, Nat.cast_zero, Nat.cast_one, mul_zero, mul_one, add_zero,
    zero_add] at hB0 hB2 hd0 hd2
  have hv1 : cellRhs unitGrid diagonalPass 0 1 = cellRhs unitGrid diagonalPass 2 0 := by
    rw [hB0, hB2]; simp
  have hv2 : cellRhs unitGrid diagonalPass 0 2 = cellRhs unitGrid diagonalPass 2 3 := by
    rw [hB0, hB2]; simp
  have hxx : (cellCorner unitGrid 0 1).x = (cellCorner unitGrid 0 2).x := by
    simp [cellCorner, bottomRight, topRight, unitGrid, arrayOfList, mkCoord]
  exact ⟨hc1, hc2, hv1, hv2, hd0, hd2, hxx,
    shared_axis_edge_continuity unitGrid diagonalPass 0 2 1 2 0 3 (by decide) (by decide)
      (by decide) (by decide) hc1 hc2 hv1 hv2 hd0 hd2 (Or.inl hxx) (1 / 2) 1 (1 / 2)
      (by simp [cellCorner, bottomRight, topRight, unitGrid, arrayOfList, mkCoord])
      (by simp [cellCorner, bottomRight, topRight, unitGrid, arrayOfList, mkCoord])⟩

/-- The comparison of `calcDistance` with `1.0` in `findFirstCell` is the comparison of
the squared distance with `1`. -/
lemma calcDistance_gt_one_iff (x1 y1 x2 y2 : ℚ) :
    1 < Real.sqrt ((calcDistanceSq x1 y1 x2 y2 : ℚ) : ℝ) ↔ 1 < calcDistanceSq x1 y1 x2 y2 := by
  rw [Real.lt_sqrt (by norm_num)]
  constructor
  · intro h
    have h1 : ((1 : ℚ) : ℝ) < ((calcDistanceSq x1 y1 x2 y2 : ℚ) : ℝ) := by
      simpa using h
    exact_mod_cast h1
  · intro h
    have h1 : ((1 : ℚ) : ℝ) < ((calcDistanceSq x1 y1 x2 y2 : ℚ) : ℝ) := by
      exact_mod_cast h
    simpa using h1

lemma passesCellTests_iff (g : Grid) (x y : ℚ) (i : Int) :
    PassesCellTests g x y i ↔ findFirstCellBody g x y i = true := by
  rw [findFirstCellBody_iff, insideCell_fst_iff]
  unfold PassesCellTests
  have hd : Real.sqrt ((((x - (bottomLeft g i).x) ^ 2 + (y - (bottomLeft g i).y) ^ 2 : ℚ)) : ℝ)
      ≤ 1 ↔ calcDistanceSq x y (g.weatherCoords i) (g.weatherCoords (i + 1)) ≤ 1 := by
    have e : (x - (bottomLeft g i).x) ^ 2 + (y - (bottomLeft g i).y) ^ 2 =
        calcDistanceSq x y (g.weatherCoords i) (g.weatherCoords (i + 1)) := by
      simp only [bottomLeft, mkCoord, calcDistanceSq]
      ring
    rw [e, ← not_lt, ← not_lt, calcDistance_gt_one_iff]
  have hl := aboveOrBelowLine_swap (bottomLeft g i) (topLeft g i) (mkCoord x y)
  rw [hd, hl]
  simp only [bottomLeft, bottomRight, topLeft, topRight]
  tauto

/-- C5: `findFirstCell(x, y, index)` returns true with `index = i` exactly when `i` is
the offset of the first cell in row-major order (rows `0..numRows-2`, columns
`0..numCols-2`, `i = row * 2 * numCols + 2 * col`) that passes the cell tests (distance
to the bottom-left corner at most `1.0`, not below the bottom edge, not below the left
edge, not above the right edge, not above the top edge); it returns false with `index`
unchanged exactly when no cell passes them. -/
theorem findFirstCell_first_passing_cell (g : Grid) (x y : ℚ) (index i : Int) :
    (findFirstCell g x y index = (true, i) ↔
      ∃ row col : Int, 0 ≤ row ∧ row ≤ g.numRows - 2 ∧ 0 ≤ col ∧ col ≤ g.numCols - 2 ∧
        i = cellOffset g row col ∧ PassesCellTests g x y i ∧
        ∀ row1 col1 : Int, 0 ≤ row1 → row1 ≤ g.numRows - 2 → 0 ≤ col1 → col1 ≤ g.numCols - 2 →
          (row1 < row ∨ (row1 = row ∧ col1 < col)) →
          ¬ PassesCellTests g x y (cellOffset g row1 col1)) ∧
    (findFirstCell g x y index = (false, index) ↔
      ∀ row col : Int, 0 ≤ row → row ≤ g.numRows - 2 → 0 ≤ col → col ≤ g.numCols - 2 →
        ¬ PassesCellTests g x y (cellOffset g row col)) := by
  constructor
  · constructor
    · intro h
      have hs : findFirstCellScan g x y = some i := by
        cases hsc : findFirstCellScan g x y with
        | none =>
          rw [findFirstCell_eq_of_scan_none g x y index hsc] at h
          simp at h
        | some i1 =>
          rw [findFirstCell_eq_of_scan_some g x y index i1 hsc] at h
          simp only [Prod.mk.injEq, true_and] at h
          rw [h]
      obtain ⟨row, col, hr, hc, hi, hb, hcm, hrm⟩ := (findFirstCellScan_eq_some_iff g x y i).1 hs
      refine ⟨row, col, by omega, by omega, by omega, by omega, hi, ?_, ?_⟩
      · rw [passesCellTests_iff, hi]
        exact hb
      · intro row1 col1 hr0 hr1 hc0 hc1 hlt
        rw [passesCellTests_iff, Bool.not_eq_true]
        have er : ((row1.toNat : Nat) : Int) = row1 := Int.toNat_of_nonneg hr0
        have ec : ((col1.toNat : Nat) : Int) = col1 := Int.toNat_of_nonneg hc0
        rcases hlt with h1 | ⟨h1, h2⟩
        · have := hrm row1.toNat col1.toNat (by omega) (by omega)
          rwa [er, ec] at this
        · have := hcm col1.toNat (by omega)
          rwa [ec, ← h1] at this
    · rintro ⟨row, col, hr0, hr1, hc0, hc1, hi, hb, hmin⟩
      apply findFirstCell_eq_of_scan_some
      rw [findFirstCellScan_eq_some_iff]
      have er : ((row.toNat : Nat) : Int) = row := Int.toNat_of_nonneg hr0
      have ec : ((col.toNat : Nat) : Int) = col := Int.toNat_of_nonneg hc0
      refine ⟨row.toNat, col.toNat, by omega, by omega, by rw [er, ec]; exact hi, ?_, ?_, ?_⟩
      · rw [er, ec, ← hi, ← passesCellTests_iff]
        exact hb
      · intro j hj
        have := hmin row j hr0 hr1 (by omega) (by omega) (Or.inr ⟨rfl, by omega⟩)
        rw [passesCellTests_iff, Bool.not_eq_true] at this
        rwa [er]
      · intro r c hr hc
        have := hmin r c (by omega) (by omega) (by omega) (by omega) (Or.inl (by omega))
        rwa [passesCellTests_iff, Bool.not_eq_true] at this
  · constructor
    · intro h
      have hs : findFirstCellScan g x y = none := by
        cases hsc : findFirstCellScan g x y with
        | none => rfl
        | some i1 =>
          rw [findFirstCell_eq_of_scan_some g x y index i1 hsc] at h
          simp at h
      intro row col hr0 hr1 hc0 hc1
      have er : ((row.toNat : Nat) : Int) = row := Int.toNat_of_nonneg hr0
      have ec : ((col.toNat : Nat) : Int) = col := Int.toNat_of_nonneg hc0
      have := (findFirstCellScan_eq_none_iff g x y).1 hs row.toNat col.toNat (by omega) (by omega)
      rw [er, ec] at this
      rw [passesCellTests_iff, Bool.not_eq_true]
      exact this
    · intro h
      apply findFirstCell_eq_of_scan_none
      rw [findFirstCellScan_eq_none_iff]
      intro row col hr hc
      have := h row col (by omega) (by omega) (by omega) (by omega)
      rwa [passesCellTests_iff, Bool.not_eq_true] at this

/-- C6: for every level in `1..10`, `nextInterpolationPoint(x, y, index, level)` returns
false with `index` unchanged when `index` fails the range check; otherwise it returns
true with `index` unchanged when `insideCell(x, y, index)` holds; otherwise its flag and
index are those of `findFirstCell(x, y, index)`, which is what every call with a level
above `10` returns. -/
theorem nextInterpolationPoint_closed_form (g : Grid) (x y : ℚ) (index level : Int)
    (_h1 : 1 ≤ level) (h10 : level ≤ 10) :
    nextInterpolationPoint g x y index level =
      (if index > 2 * g.recSize - 2 * g.numCols ∨
          index.tmod (2 * g.numCols) = 2 * g.numCols - 1 then (false, index)
        else if (insideCell g x y index).1 = true then (true, index)
        else findFirstCell g x y index) ∧
    (insideCell g x y index).2 = index ∧
    ∀ deep : Int, 10 < deep →
      nextInterpolationPoint g x y index deep = findFirstCell g x y index := by
  refine ⟨?_, insideCell_snd g x y index,
    fun deep hd => nextInterpolationPoint_fallback g x y index deep hd⟩
  rw [nextInterpolationPoint_closed g x y index level h10]
  unfold indexOutOfRange
  by_cases ha : index > 2 * g.recSize - 2 * g.numCols
  · simp [ha]
  · by_cases hb : index.tmod (2 * g.numCols) = 2 * g.numCols - 1
    · simp [hb]
    · simp [ha, hb]

/-- Witness of C6: on the grid of the concrete scenarios, the walk from cell `0` at
level `1` finds the point `(1/2, 1/2)` in cell `0`. -/
theorem nextInterpolationPoint_closed_form_witness :
    (1 : Int) ≤ 1 ∧ (1 : Int) ≤ 10 ∧
    nextInterpolationPoint unitGrid (1 / 2) (1 / 2) 0 1 = (true, 0) := by
  have h := (nextInterpolationPoint_closed_form unitGrid (1 / 2) (1 / 2) 0 1 (by decide)
    (by decide)).1
  have hin : (insideCell unitGrid (1 / 2) (1 / 2) 0).1 = true := by
    have e := (unitGrid_insideCell 0 0 (by decide) (by decide) (1 / 2) (1 / 2)).2
      (by norm_num)
    simpa [unitGrid_cellOffset] using e
  have hr : ¬ ((0 : Int) > 2 * unitGrid.recSize - 2 * unitGrid.numCols ∨
      (0 : Int).tmod (2 * unitGrid.numCols) = 2 * unitGrid.numCols - 1) := by decide
  rw [if_neg hr, if_pos hin] at h
  exact ⟨by decide, by decide, h⟩

lemma nearBottomLeft_iff (g : Grid) (x y : ℚ) (i : Int) :
    NearBottomLeft g x y i ↔
      calcDistanceSq x y (g.weatherCoords i) (g.weatherCoords (i + 1)) ≤ 1 := by
  unfold NearBottomLeft
  have e : (x - (bottomLeft g i).x) ^ 2 + (y - (bottomLeft g i).y) ^ 2 =
      calcDistanceSq x y (g.weatherCoords i) (g.weatherCoords (i + 1)) := by
    simp only [bottomLeft, mkCoord, calcDistanceSq]
    ring
  rw [e, ← not_lt, ← not_lt, calcDistance_gt_one_iff]

lemma findFirstCell_fst_iff (g : Grid) (x y : ℚ) (index : Int) :
    (findFirstCell g x y index).1 = true ↔
      ∃ row col : Int, 0 ≤ row ∧ row ≤ g.numRows - 2 ∧ 0 ≤ col ∧ col ≤ g.numCols - 2 ∧
        (insideCell g x y (cellOffset g row col)).1 = true ∧
        NearBottomLeft g x y (cellOffset g row col) := by
  constructor
  · intro h
    cases hs : findFirstCellScan g x y with
    | none =>
      rw [findFirstCell_eq_of_scan_none g x y index hs] at h
      simp at h
    | some i =>
      obtain ⟨row, col, hr, hc, hi, hb, -⟩ := (findFirstCellScan_eq_some_iff g x y i).1 hs
      obtain ⟨hd, hin⟩ := (findFirstCellBody_iff g x y _).1 hb
      exact ⟨row, col, by omega, by omega, by omega, by omega, hin,
        (nearBottomLeft_iff g x y _).2 hd⟩
  · rintro ⟨row, col, hr0, hr1, hc0, hc1, hin, hd⟩
    cases hs : findFirstCellScan g x y with
    | none =>
      have er : ((row.toNat : Nat) : Int) = row := Int.toNat_of_nonneg hr0
      have ec : ((col.toNat : Nat) : Int) = col := Int.toNat_of_nonneg hc0
      have := (findFirstCellScan_eq_none_iff g x y).1 hs row.toNat col.toNat (by omega) (by omega)
      rw [er, ec] at this
      have hb := (findFirstCellBody_iff g x y _).2 ⟨(nearBottomLeft_iff g x y _).1 hd, hin⟩
      rw [hb] at this
      simp at this
    | some i =>
      rw [findFirstCell_eq_of_scan_some g x y index i hs]

lemma tallGrid_scan : findFirstCellScan tallGrid (3 / 2) (3 / 2) = none := by
  rw [findFirstCellScan_eq_none_iff]
  intro row col hr hc
  have hr2 : row < 2 := by simpa [tallGrid] using hr
  have hc1 : col < 1 := by simpa [tallGrid] using hc
  rw [Bool.eq_false_iff, Ne, findFirstCellBody_iff]
  intro h
  have hd := h.1
  interval_cases row <;> interval_cases col <;>
    · simp [cellOffset, tallGrid, arrayOfList, calcDistanceSq] at hd
      norm_num at hd

/-- C7, as the claim states it, fails: on `tallGrid` the point `(3/2, 3/2)` satisfies
`insideCell` for cell `0` (row 0, column 0), but `findFirstCell` returns false, because
the bottom-left corner `(0,0)` is farther than `1.0`; and `nextInterpolationPoint`
started from the valid index `4` returns false. -/
theorem findFirstCell_misses_far_cell :
    (insideCell tallGrid (3 / 2) (3 / 2) (cellOffset tallGrid 0 0)).1 = true ∧
    (0 : Int) ≤ tallGrid.numRows - 2 ∧ (0 : Int) ≤ tallGrid.numCols - 2 ∧
    (findFirstCell tallGrid (3 / 2) (3 / 2) 0).1 = false ∧
    indexOutOfRange tallGrid 4 = false ∧
    (nextInterpolationPoint tallGrid (3 / 2) (3 / 2) 4 1).1 = false := by
  have hin0 : (insideCell tallGrid (3 / 2) (3 / 2) (cellOffset tallGrid 0 0)).1 = true := by
    rw [insideCell_fst_iff]
    simp [cellOffset, tallGrid, arrayOfList, aboveOrBelowLine, aboveOrBelowLineTraced, mkCoord]
    norm_num
    decide
  have hin4 : (insideCell tallGrid (3 / 2) (3 / 2) 4).1 = false := by
    rw [Bool.eq_false_iff, Ne, insideCell_fst_iff]
    intro h
    apply h.1
    simp [tallGrid, arrayOfList, aboveOrBelowLine, aboveOrBelowLineTraced, mkCoord]
    norm_num
  have hr4 : indexOutOfRange tallGrid 4 = false := by decide
  refine ⟨hin0, by decide, by decide, ?_, hr4, ?_⟩
  · rw [findFirstCell_eq_of_scan_none _ _ _ _ tallGrid_scan]
  · rw [nextInterpolationPoint_closed _ _ _ _ _ (by norm_num), hr4, hin4,
      findFirstCell_eq_of_scan_none _ _ _ _ tallGrid_scan]
    simp

lemma unitGrid_scan_half : findFirstCellScan unitGrid (1 / 2) (1 / 2) = some 0 := by
  rw [findFirstCellScan_eq_some_iff]
  refine ⟨0, 0, by decide, by decide, by simp [cellOffset], ?_, ?_, ?_⟩
  · rw [unitGrid_body 0 0 (by decide) (by decide)]
    norm_num
  · intro j hj; omega
  · intro r c hr; omega

/-- C8, as the claim states it, fails: on the grid of the concrete scenarios
`findFirstCell` locates `(1/2, 1/2)` in cell `0`; the cell of offset `2 = 0 + 2` is
adjacent and passes the range check, but `nextInterpolationPoint(1/2, 1/2, 2, 1)`
returns true with the index `2`, not `0`: the edge shared by the two cells is vertical,
so `insideCell` accepts the point for cell `2` as well. -/
theorem nextInterpolationPoint_keeps_adjacent_cell :
    findFirstCell unitGrid (1 / 2) (1 / 2) 0 = (true, 0) ∧
    indexOutOfRange unitGrid (0 + 2) = false ∧
    nextInterpolationPoint unitGrid (1 / 2) (1 / 2) (0 + 2) 1 = (true, 2) ∧
    nextInterpolationPoint unitGrid (1 / 2) (1 / 2) (0 + 2) 1 ≠ (true, 0) := by
  have hin : (insideCell unitGrid (1 / 2) (1 / 2) 2).1 = true := by
    have e := (unitGrid_insideCell 0 1 (by decide) (by decide) (1 / 2) (1 / 2)).2
      (by norm_num)
    simpa [unitGrid_cellOffset] using e
  have hr : indexOutOfRange unitGrid 2 = false := by decide
  have hn : nextInterpolationPoint unitGrid (1 / 2) (1 / 2) (0 + 2) 1 = (true, 2) := by
    have e : (0 : Int) + 2 = 2 := by norm_num
    rw [e, nextInterpolationPoint_closed _ _ _ _ _ (by norm_num), hr]
    simp only [Bool.false_eq_true, if_false]
    rw [if_pos hin]
  refine ⟨findFirstCell_eq_of_scan_some _ _ _ _ _ unitGrid_scan_half, hr, hn, ?_⟩
  rw [hn]
  decide

/-- C8, amended: when `findFirstCell` succeeds for `(x, y)` with index `i`, the call
`nextInterpolationPoint(x, y, j, 1)` from every index `j` that passes the range check
(in particular from every adjacent cell) returns true, with the index `j` itself when
`insideCell(x, y, j)` holds and with the index `i` otherwise. -/
theorem nextInterpolationPoint_agrees_with_findFirstCell (g : Grid) (x y : ℚ)
    (index i j : Int) (hf : findFirstCell g x y index = (true, i))
    (hj : indexOutOfRange g j = false) :
    nextInterpolationPoint g x y j 1 =
      (true, if (insideCell g x y j).1 = true then j else i) := by
  have hs : findFirstCellScan g x y = some i := by
    cases hsc : findFirstCellScan g x y with
    | none =>
      rw [findFirstCell_eq_of_scan_none g x y index hsc] at hf
      simp at hf
    | some i1 =>
      rw [findFirstCell_eq_of_scan_some g x y index i1 hsc] at hf
      simp only [Prod.mk.injEq, true_and] at hf
      rw [hf]
  rw [nextInterpolationPoint_closed g x y j 1 (by norm_num), hj]
  simp only [Bool.false_eq_true, if_false]
  split_ifs
  · rfl
  · exact findFirstCell_eq_of_scan_some g x y j i hs

/-- Witness of C8 (amended): on the grid of the concrete scenarios, for the point
`(1/2, 1/2)` found in cell `0`, the walk from the cell of offset `8` (the cell above),
which does not contain the point, returns the index `0`. -/
theorem nextInterpolationPoint_agrees_with_findFirstCell_witness :
    findFirstCell unitGrid (1 / 2) (1 / 2) 0 = (true, 0) ∧
    indexOutOfRange unitGrid 8 = false ∧
    nextInterpolationPoint unitGrid (1 / 2) (1 / 2) 8 1 = (true, 0) := by
  have hf := findFirstCell_eq_of_scan_some unitGrid (1 / 2) (1 / 2) 0 0 unitGrid_scan_half
  have hin : ¬ (insideCell unitGrid (1 / 2) (1 / 2) 8).1 = true := by
    intro h
    have e := (unitGrid_insideCell 1 0 (by decide) (by decide) (1 / 2) (1 / 2)).1
      (by simpa [unitGrid_cellOffset] using h)
    norm_num at e
  have h := nextInterpolationPoint_agrees_with_findFirstCell unitGrid (1 / 2) (1 / 2) 0 0 8 hf
    (by decide)
  rw [if_neg hin] at h
  exact ⟨hf, by decide, h⟩

lemma orderLine_of_le (p : Pass) (h : p.lineStart.x ≤ p.lineEnd.x) : orderLine p = p := by
  unfold orderLine
  rw [if_neg (not_lt.mpr h)]

lemma unitGrid_corners (r c : Nat) (hr : r < 3) (hc : c < 3) :
    bottomLeft unitGrid (cellOffset unitGrid r c) = mkCoord (c : ℚ) (r : ℚ) ∧
    bottomRight unitGrid (cellOffset unitGrid r c) = mkCoord ((c : ℚ) + 1) (r : ℚ) ∧
    topRight unitGrid (cellOffset unitGrid r c) = mkCoord ((c : ℚ) + 1) ((r : ℚ) + 1) ∧
    topLeft unitGrid (cellOffset unitGrid r c) = mkCoord (c : ℚ) ((r : ℚ) + 1) := by
  have e0 := unitGrid_cellOffset r c
  have e1 : unitGrid.numCols * 2 = 8 := by simp [unitGrid]
  have a0 := unitGrid_coord r c (by omega) (by omega)
  have a1 := unitGrid_coord r (c + 1) (by omega) (by omega)
  have a2 := unitGrid_coord (r + 1) c (by omega) (by omega)
  have a3 := unitGrid_coord (r + 1) (c + 1) (by omega) (by omega)
  push_cast at a1 a2 a3
  have f1 : 8 * (r : Int) + 2 * (c : Int) + 2 = 8 * (r : Int) + 2 * ((c : Int) + 1) := by ring
  have f2 : 8 * (r : Int) + 2 * (c : Int) + 3 = 8 * (r : Int) + 2 * ((c : Int) + 1) + 1 := by
    ring
  have f3 : 8 * (r : Int) + 2 * (c : Int) + 8 = 8 * ((r : Int) + 1) + 2 * (c : Int) := by ring
  have f4 : 8 * (r : Int) + 2 * (c : Int) + 8 + 1 = 8 * ((r : Int) + 1) + 2 * (c : Int) + 1 := by
    ring
  have f5 : 8 * (r : Int) + 2 * (c : Int) + 8 + 2 = 8 * ((r : Int) + 1) + 2 * ((c : Int) + 1) := by
    ring
  have f6 : 8 * (r : Int) + 2 * (c : Int) + 8 + 3 =
      8 * ((r : Int) + 1) + 2 * ((c : Int) + 1) + 1 := by ring
  unfold bottomLeft bottomRight topRight topLeft
  rw [e0, e1, f1, f2, f4, f5, f6, f3, a0.1, a0.2, a1.1, a1.2, a2.1, a2.2, a3.1, a3.2]
  exact ⟨rfl, rfl, rfl, rfl⟩

lemma unitGrid_scan_outside : findFirstCellScan unitGrid (-1 / 2) (1 / 4) = some 0 := by
  rw [findFirstCellScan_eq_some_iff]
  refine ⟨0, 0, by decide, by decide, by simp [cellOffset], ?_, ?_, ?_⟩
  · rw [unitGrid_body 0 0 (by decide) (by decide)]
    norm_num
  · intro j hj; omega
  · intro r c hr; omega

/-- C9, as the claim states it, fails: the cells of the grid of the concrete scenarios
are convex quadrilaterals, the two sample points of `outsidePass` lie in no closed
cell (they are to the left of the grid), and yet `interpolateSliceGraph` stores
`-1/4`, not the sentinel, at step `0`: the left edges are vertical, so the point
`(-1/2, 1/4)` passes every edge test of cell `0`. -/
theorem outside_line_gets_value :
    (∀ r c : Nat, r < 3 → c < 3 →
      ConvexQuad (bottomLeft unitGrid (cellOffset unitGrid r c))
        (bottomRight unitGrid (cellOffset unitGrid r c))
        (topRight unitGrid (cellOffset unitGrid r c))
        (topLeft unitGrid (cellOffset unitGrid r c))) ∧
    (∀ k : Nat, k < 2 → ∀ r c : Nat, r < 3 → c < 3 →
      ¬ InClosedQuad (bottomLeft unitGrid (cellOffset unitGrid r c))
        (bottomRight unitGrid (cellOffset unitGrid r c))
        (topRight unitGrid (cellOffset unitGrid r c))
        (topLeft unitGrid (cellOffset unitGrid r c))
        (mkCoord (samplePoint (orderLine outsidePass) (k : Int)).1
          (samplePoint (orderLine outsidePass) (k : Int)).2)) ∧
    (interpolateSliceGraph unitGrid outsidePass (fun _ => 0) 2).sliceData 0 = -1 / 4 ∧
    (interpolateSliceGraph unitGrid outsidePass (fun _ => 0) 2).sliceData 0 ≠ 0 := by
  have ho : orderLine outsidePass = outsidePass :=
    orderLine_of_le outsidePass (by simp [outsidePass, mkCoord]; norm_num)
  have hv : (interpolateSliceGraph unitGrid outsidePass (fun _ => 0) 2).sliceData 0 = -1 / 4 := by
    have h := (interpolateSliceGraph_refines unitGrid outsidePass (by decide) (by decide)
      (by decide) (fun _ => 0) 2).2 0
    rw [h, ho]
    have hN : (0 : Int) ≤ 0 ∧ (0 : Int) < ((outsidePass.totalSliceSteps.toNat : Nat) : Int) := by
      decide
    rw [if_pos hN]
    have hp : samplePoint outsidePass ((0 : Nat) : Int) = (-1 / 2, 1 / 4) := by
      simp [samplePoint, outsidePass, mkCoord]
    have hc := unitGrid_cellValue outsidePass rfl rfl 0 0 (by decide) (by decide) (-1 / 2) (1 / 4)
    simp only [unitGrid_cellOffset, Nat.cast_zero, mul_zero, add_zero] at hc
    show samplerOutput unitGrid outsidePass 0 = -1 / 4
    unfold samplerOutput samplerStateAt
    rw [hp]
    simp only [samplerStep, unitGrid_scan_outside, hc]
    norm_num
  refine ⟨?_, ?_, hv, ?_⟩
  · intro r c hr hc
    obtain ⟨h1, h2, h3, h4⟩ := unitGrid_corners r c hr hc
    rw [h1, h2, h3, h4]
    simp only [ConvexQuad, cross, mkCoord]
    refine ⟨?_, ?_, ?_, ?_⟩ <;> ring_nf <;> norm_num
  · intro k hk r c hr hc
    obtain ⟨h1, h2, h3, h4⟩ := unitGrid_corners r c hr hc
    rw [h1, h2, h3, h4, ho]
    have hx : (samplePoint outsidePass (k : Int)).1 < 0 := by
      interval_cases k <;> simp [samplePoint, outsidePass, mkCoord] <;> norm_num
    intro hq
    have h := hq.2.2.2
    simp only [cross, mkCoord] at h
    have hc0 : (0 : ℚ) ≤ (c : ℚ) := Nat.cast_nonneg c
    nlinarith
  · rw [hv]
    norm_num

lemma samplerStateAt_searching (g : Grid) (p : Pass) (n : Nat)
    (h : ∀ k : Nat, k < n →
      findFirstCellScan g (samplePoint p (k : Int)).1 (samplePoint p (k : Int)).2 = none) :
    ∀ k : Nat, k ≤ n → samplerStateAt g p k = SEARCHING := by
  intro k
  induction k with
  | zero => intro _; rfl
  | succ k ih =>
    intro hk
    have hs := ih (by omega)
    simp only [samplerStateAt, hs, samplerStep, h k (by omega)]

/-! ## The first concrete scenario -/

lemma diagonalPass_point (k : Nat) :
    samplePoint diagonalPass (k : Int) = (1 / 2 + 2 * (k : ℚ) / 5, 1 / 2 + 2 * (k : ℚ) / 5) := by
  simp only [samplePoint, diagonalPass, mkCoord, Prod.mk.injEq]
  push_cast
  constructor <;> ring

lemma unitGrid_inside_at (r c : Nat) (hr : r < 3) (hc : c < 3) (x y : ℚ) (i : Int)
    (hi : i = 8 * (r : Int) + 2 * (c : Int)) (h1 : (r : ℚ) ≤ y) (h2 : y ≤ (r : ℚ) + 1) :
    (insideCell unitGrid x y i).1 = true := by
  rw [hi, ← unitGrid_cellOffset]
  exact (unitGrid_insideCell r c hr hc x y).2 ⟨h1, h2⟩

lemma unitGrid_outside_at (r c : Nat) (hr : r < 3) (hc : c < 3) (x y : ℚ) (i : Int)
    (hi : i = 8 * (r : Int) + 2 * (c : Int)) (h : (r : ℚ) + 1 < y) :
    (insideCell unitGrid x y i).1 = false := by
  rw [hi, ← unitGrid_cellOffset, Bool.eq_false_iff, Ne, unitGrid_insideCell r c hr hc x y]
  intro h1
  linarith [h1.2]

lemma unitGrid_value_at (r c : Nat) (hr : r < 3) (hc : c < 3) (x y : ℚ) (i : Int)
    (hi : i = 8 * (r : Int) + 2 * (c : Int)) :
    cellValue unitGrid diagonalPass i x y = x + y := by
  rw [hi, ← unitGrid_cellOffset]
  exact unitGrid_cellValue diagonalPass rfl rfl r c hr hc x y

lemma unitGrid_scan_13 : findFirstCellScan unitGrid (13 / 10) (13 / 10) = some 10 := by
  rw [findFirstCellScan_eq_some_iff]
  refine ⟨1, 1, by decide, by decide, by simp [cellOffset, unitGrid], ?_, ?_, ?_⟩
  · rw [unitGrid_body 1 1 (by decide) (by decide)]
    norm_num
  · intro j hj
    have hj0 : j = 0 := by omega
    subst hj0
    rw [Bool.eq_false_iff, Ne, unitGrid_body 1 0 (by decide) (by decide)]
    norm_num
  · intro r c hr hc
    have hr0 : r = 0 := by omega
    subst hr0
    have hc3 : c < 3 := by simpa [unitGrid] using hc
    rw [Bool.eq_false_iff, Ne, unitGrid_body 0 c (by decide) hc3]
    norm_num

lemma unitGrid_scan_21 : findFirstCellScan unitGrid (21 / 10) (21 / 10) = some 20 := by
  rw [findFirstCellScan_eq_some_iff]
  refine ⟨2, 2, by decide, by decide, by simp [cellOffset, unitGrid], ?_, ?_, ?_⟩
  · rw [unitGrid_body 2 2 (by decide) (by decide)]
    norm_num
  · intro j hj
    rw [Bool.eq_false_iff, Ne, unitGrid_body 2 j (by decide) (by omega)]
    interval_cases j <;> norm_num
  · intro r c hr hc
    have hc3 : c < 3 := by simpa [unitGrid] using hc
    rw [Bool.eq_false_iff, Ne, unitGrid_body r c (by omega) hc3]
    interval_cases r <;> norm_num

lemma unitGrid_walk_stay (x y : ℚ) (i : Int) (hr : indexOutOfRange unitGrid i = false)
    (hin : (insideCell unitGrid x y i).1 = true) :
    nextInterpolationPoint unitGrid x y i 1 = (true, i) := by
  rw [nextInterpolationPoint_closed _ _ _ _ _ (by norm_num), hr]
  simp only [Bool.false_eq_true, if_false]
  rw [if_pos hin]

lemma unitGrid_walk_move (x y : ℚ) (i j : Int) (hr : indexOutOfRange unitGrid i = false)
    (hin : (insideCell unitGrid x y i).1 = false)
    (hs : findFirstCellScan unitGrid x y = some j) :
    nextInterpolationPoint unitGrid x y i 1 = (true, j) := by
  rw [nextInterpolationPoint_closed _ _ _ _ _ (by norm_num), hr, hin]
  simp only [Bool.false_eq_true, if_false]
  exact findFirstCell_eq_of_scan_some _ _ _ _ _ hs

/-- The states and the outputs of the machine along the line of the first concrete
scenario. -/
lemma diagonal_trace :
    samplerOutput unitGrid diagonalPass 0 = 1 ∧
    samplerOutput unitGrid diagonalPass 1 = 9 / 5 ∧
    samplerOutput unitGrid diagonalPass 2 = 13 / 5 ∧
    samplerOutput unitGrid diagonalPass 3 = 17 / 5 ∧
    samplerOutput unitGrid diagonalPass 4 = 21 / 5 ∧
    samplerStateAt unitGrid diagonalPass 1 = TRACKING 0 ∧
    samplerStateAt unitGrid diagonalPass 2 = TRACKING 0 ∧
    samplerStateAt unitGrid diagonalPass 3 = TRACKING 10 ∧
    samplerStateAt unitGrid diagonalPass 4 = TRACKING 10 ∧
    samplerStateAt unitGrid diagonalPass 5 = TRACKING 20 := by
  have p0 : samplePoint diagonalPass ((0 : Nat) : Int) = (1 / 2, 1 / 2) := by
    rw [diagonalPass_point]; norm_num
  have p1 : samplePoint diagonalPass ((1 : Nat) : Int) = (9 / 10, 9 / 10) := by
    rw [diagonalPass_point]; norm_num
  have p2 : samplePoint diagonalPass ((2 : Nat) : Int) = (13 / 10, 13 / 10) := by
    rw [diagonalPass_point]; norm_num
  have p3 : samplePoint diagonalPass ((3 : Nat) : Int) = (17 / 10, 17 / 10) := by
    rw [diagonalPass_point]; norm_num
  have p4 : samplePoint diagonalPass ((4 : Nat) : Int) = (21 / 10, 21 / 10) := by
    rw [diagonalPass_point]; norm_num
  have v0 := unitGrid_value_at 0 0 (by decide) (by decide) (1 / 2) (1 / 2) 0 (by norm_num)
  have v1 := unitGrid_value_at 0 0 (by decide) (by decide) (9 / 10) (9 / 10) 0 (by norm_num)
  have v2 := unitGrid_value_at 1 1 (by decide) (by decide) (13 / 10) (13 / 10) 10 (by norm_num)
  have v3 := unitGrid_value_at 1 1 (by decide) (by decide) (17 / 10) (17 / 10) 10 (by norm_num)
  have v4 := unitGrid_value_at 2 2 (by decide) (by decide) (21 / 10) (21 / 10) 20 (by norm_num)
  have w1 := unitGrid_walk_stay (9 / 10) (9 / 10) 0 (by decide)
    (unitGrid_inside_at 0 0 (by decide) (by decide) _ _ 0 (by norm_num) (by norm_num)
      (by norm_num))
  have w2 := unitGrid_walk_move (13 / 10) (13 / 10) 0 10 (by decide)
    (unitGrid_outside_at 0 0 (by decide) (by decide) _ _ 0 (by norm_num) (by norm_num))
    unitGrid_scan_13
  have w3 := unitGrid_walk_stay (17 / 10) (17 / 10) 10 (by decide)
    (unitGrid_inside_at 1 1 (by decide) (by decide) _ _ 10 (by norm_num) (by norm_num)
      (by norm_num))
  have w4 := unitGrid_walk_move (21 / 10) (21 / 10) 10 20 (by decide)
    (unitGrid_outside_at 1 1 (by decide) (by decide) _ _ 10 (by norm_num) (by norm_num))
    unitGrid_scan_21
  have s1 : samplerStateAt unitGrid diagonalPass 1 = TRACKING 0 := by
    simp only [samplerStateAt, p0, samplerStep, unitGrid_scan_half]
  have s2 : samplerStateAt unitGrid diagonalPass 2 = TRACKING 0 := by
    rw [samplerStateAt, s1, p1]
    simp only [samplerStep, w1, if_true]
  have s3 : samplerStateAt unitGrid diagonalPass 3 = TRACKING 10 := by
    rw [samplerStateAt, s2, p2]
    simp only [samplerStep, w2, if_true]
  have s4 : samplerStateAt unitGrid diagonalPass 4 = TRACKING 10 := by
    rw [samplerStateAt, s3, p3]
    simp only [samplerStep, w3, if_true]
  have s5 : samplerStateAt unitGrid diagonalPass 5 = TRACKING 20 := by
    rw [samplerStateAt, s4, p4]
    simp only [samplerStep, w4, if_true]
  refine ⟨?_, ?_, ?_, ?_, ?_, s1, s2, s3, s4, s5⟩
  · simp only [samplerOutput, samplerStateAt, p0, samplerStep, unitGrid_scan_half, v0]
    norm_num
  · rw [samplerOutput, s1, p1]
    simp only [samplerStep, w1, if_true, v1]
    norm_num
  · rw [samplerOutput, s2, p2]
    simp only [samplerStep, w2, if_true, v2]
    norm_num
  · rw [samplerOutput, s3, p3]
    simp only [samplerStep, w3, if_true, v3]
    norm_num
  · rw [samplerOutput, s4, p4]
    simp only [samplerStep, w4, if_true, v4]
    norm_num

/-- C10: the first concrete scenario. On the grid with `numRows = numCols = 4`, corner
`(r, c)` at `(c, r)` and field value `r + c`, the line from `(0.5, 0.5)` to `(2.5, 2.5)`
sampled with `N = 5` runs to its end; the sample points are `(0.5, 0.5)`,
`(0.9, 0.9)`, `(1.3, 1.3)`, `(1.7, 1.7)`, `(2.1, 2.1)`, which lie strictly inside the
cells of offsets `0`, `0`, `10`, `10`, `20`; each stored value is the bilinear value of
that cell at the sample point, namely `1`, `9/5`, `13/5`, `17/5`, `21/5`; the values
increase strictly and none is the sentinel `0.0`. -/
theorem diagonal_scenario (sliceData : Int → ℚ) :
    (interpolateSliceGraph unitGrid diagonalPass sliceData 5).completed = true ∧
    (samplePoint (orderLine diagonalPass) 0 = (1 / 2, 1 / 2) ∧
      StrictlyInside (bottomLeft unitGrid 0) (bottomRight unitGrid 0) (topRight unitGrid 0)
        (topLeft unitGrid 0) (mkCoord (1 / 2) (1 / 2)) ∧
      (interpolateSliceGraph unitGrid diagonalPass sliceData 5).sliceData 0 =
        cellValue unitGrid diagonalPass 0 (1 / 2) (1 / 2) ∧
      (interpolateSliceGraph unitGrid diagonalPass sliceData 5).sliceData 0 = 1) ∧
    (samplePoint (orderLine diagonalPass) 1 = (9 / 10, 9 / 10) ∧
      StrictlyInside (bottomLeft unitGrid 0) (bottomRight unitGrid 0) (topRight unitGrid 0)
        (topLeft unitGrid 0) (mkCoord (9 / 10) (9 / 10)) ∧
      (interpolateSliceGraph unitGrid diagonalPass sliceData 5).sliceData 1 =
        cellValue unitGrid diagonalPass 0 (9 / 10) (9 / 10) ∧
      (interpolateSliceGraph unitGrid diagonalPass sliceData 5).sliceData 1 = 9 / 5) ∧
    (samplePoint (orderLine diagonalPass) 2 = (13 / 10, 13 / 10) ∧
      StrictlyInside (bottomLeft unitGrid 10) (bottomRight unitGrid 10) (topRight unitGrid 10)
        (topLeft unitGrid 10) (mkCoord (13 / 10) (13 / 10)) ∧
      (interpolateSliceGraph unitGrid diagonalPass sliceData 5).sliceData 2 =
        cellValue unitGrid diagonalPass 10 (13 / 10) (13 / 10) ∧
      (interpolateSliceGraph unitGrid diagonalPass sliceData 5).sliceData 2 = 13 / 5) ∧
    (samplePoint (orderLine diagonalPass) 3 = (17 / 10, 17 / 10) ∧
      StrictlyInside (bottomLeft unitGrid 10) (bottomRight unitGrid 10) (topRight unitGrid 10)
        (topLeft unitGrid 10) (mkCoord (17 / 10) (17 / 10)) ∧
      (interpolateSliceGraph unitGrid diagonalPass sliceData 5).sliceData 3 =
        cellValue unitGrid diagonalPass 10 (17 / 10) (17 / 10) ∧
      (interpolateSliceGraph unitGrid diagonalPass sliceData 5).sliceData 3 = 17 / 5) ∧
    (samplePoint (orderLine diagonalPass) 4 = (21 / 10, 21 / 10) ∧
      StrictlyInside (bottomLeft unitGrid 20) (bottomRight unitGrid 20) (topRight unitGrid 20)
        (topLeft unitGrid 20) (mkCoord (21 / 10) (21 / 10)) ∧
      (interpolateSliceGraph unitGrid diagonalPass sliceData 5).sliceData 4 =
        cellValue unitGrid diagonalPass 20 (21 / 10) (21 / 10) ∧
      (interpolateSliceGraph unitGrid diagonalPass sliceData 5).sliceData 4 = 21 / 5) ∧
    ((interpolateSliceGraph unitGrid diagonalPass sliceData 5).sliceData 0 <
        (interpolateSliceGraph unitGrid diagonalPass sliceData 5).sliceData 1 ∧
      (interpolateSliceGraph unitGrid diagonalPass sliceData 5).sliceData 1 <
        (interpolateSliceGraph unitGrid diagonalPass sliceData 5).sliceData 2 ∧
      (interpolateSliceGraph unitGrid diagonalPass sliceData 5).sliceData 2 <
        (interpolateSliceGraph unitGrid diagonalPass sliceData 5).sliceData 3 ∧
      (interpolateSliceGraph unitGrid diagonalPass sliceData 5).sliceData 3 <
        (interpolateSliceGraph unitGrid diagonalPass sliceData 5).sliceData 4) ∧
    (∀ k : Int, 0 ≤ k → k < 5 →
      (interpolateSliceGraph unitGrid diagonalPass sliceData 5).sliceData k ≠ 0) := by
  have ho : orderLine diagonalPass = diagonalPass :=
    orderLine_of_le diagonalPass (by simp [diagonalPass, mkCoord]; norm_num)
  have hR := interpolateSliceGraph_refines unitGrid diagonalPass (by decide) (by decide)
    (by decide) sliceData 5
  obtain ⟨hdone, hval⟩ := hR
  rw [ho] at hval
  obtain ⟨o0, o1, o2, o3, o4, -⟩ := diagonal_trace
  have hN : ((diagonalPass.totalSliceSteps.toNat : Nat) : Int) = 5 := by decide
  have d0 : (interpolateSliceGraph unitGrid diagonalPass sliceData 5).sliceData 0 = 1 := by
    rw [hval 0, hN, if_pos (by decide)]
    exact o0
  have d1 : (interpolateSliceGraph unitGrid diagonalPass sliceData 5).sliceData 1 = 9 / 5 := by
    rw [hval 1, hN, if_pos (by decide)]
    exact o1
  have d2 : (interpolateSliceGraph unitGrid diagonalPass sliceData 5).sliceData 2 = 13 / 5 := by
    rw [hval 2, hN, if_pos (by decide)]
    exact o2
  have d3 : (interpolateSliceGraph unitGrid diagonalPass sliceData 5).sliceData 3 = 17 / 5 := by
    rw [hval 3, hN, if_pos (by decide)]
    exact o3
  have d4 : (interpolateSliceGraph unitGrid diagonalPass sliceData 5).sliceData 4 = 21 / 5 := by
    rw [hval 4, hN, if_pos (by decide)]
    exact o4
  have v0 := unitGrid_value_at 0 0 (by decide) (by decide) (1 / 2) (1 / 2) 0 (by norm_num)
  have v1 := unitGrid_value_at 0 0 (by decide) (by decide) (9 / 10) (9 / 10) 0 (by norm_num)
  have v2 := unitGrid_value_at 1 1 (by decide) (by decide) (13 / 10) (13 / 10) 10 (by norm_num)
  have v3 := unitGrid_value_at 1 1 (by decide) (by decide) (17 / 10) (17 / 10) 10 (by norm_num)
  have v4 := unitGrid_value_at 2 2 (by decide) (by decide) (21 / 10) (21 / 10) 20 (by norm_num)
  have c0 := unitGrid_corners 0 0 (by decide) (by decide)
  have c1 := unitGrid_corners 1 1 (by decide) (by decide)
  have c2 := unitGrid_corners 2 2 (by decide) (by decide)
  have e0 : cellOffset unitGrid ((0 : Nat) : Int) ((0 : Nat) : Int) = 0 := by
    rw [unitGrid_cellOffset]; norm_num
  have e1 : cellOffset unitGrid ((1 : Nat) : Int) ((1 : Nat) : Int) = 10 := by
    rw [unitGrid_cellOffset]; norm_num
  have e2 : cellOffset unitGrid ((2 : Nat) : Int) ((2 : Nat) : Int) = 20 := by
    rw [unitGrid_cellOffset]; norm_num
  rw [e0] at c0
  rw [e1] at c1
  rw [e2] at c2
  have q0 := diagonalPass_point 0
  have q1 := diagonalPass_point 1
  have q2 := diagonalPass_point 2
  have q3 := diagonalPass_point 3
  have q4 := diagonalPass_point 4
  norm_num at q0 q1 q2 q3 q4
  refine ⟨hdone, ⟨?_, ?_, ?_, d0⟩, ⟨?_, ?_, ?_, d1⟩, ⟨?_, ?_, ?_, d2⟩, ⟨?_, ?_, ?_, d3⟩,
    ⟨?_, ?_, ?_, d4⟩, ?_, ?_⟩
  · rw [ho]; exact q0
  · rw [c0.1, c0.2.1, c0.2.2.1, c0.2.2.2]
    simp only [StrictlyInside, cross, mkCoord]
    norm_num
  · rw [d0, v0]; norm_num
  · rw [ho]; exact q1
  · rw [c0.1, c0.2.1, c0.2.2.1, c0.2.2.2]
    simp only [StrictlyInside, cross, mkCoord]
    norm_num
  · rw [d1, v1]; norm_num
  · rw [ho]; exact q2
  · rw [c1.1, c1.2.1, c1.2.2.1, c1.2.2.2]
    simp only [StrictlyInside, cross, mkCoord]
    norm_num
  · rw [d2, v2]; norm_num
  · rw [ho]; exact q3
  · rw [c1.1, c1.2.1, c1.2.2.1, c1.2.2.2]
    simp only [StrictlyInside, cross, mkCoord]
    norm_num
  · rw [d3, v3]; norm_num
  · rw [ho]; exact q4
  · rw [c2.1, c2.2.1, c2.2.2.1, c2.2.2.2]
    simp only [StrictlyInside, cross, mkCoord]
    norm_num
  · rw [d4, v4]; norm_num
  · rw [d0, d1, d2, d3, d4]
    norm_num
  · intro k hk0 hk5
    have hk : k = 0 ∨ k = 1 ∨ k = 2 ∨ k = 3 ∨ k = 4 := by omega
    rcases hk with h | h | h | h | h <;> subst h
    · rw [d0]; norm_num
    · rw [d1]; norm_num
    · rw [d2]; norm_num
    · rw [d3]; norm_num
    · rw [d4]; norm_num

/-! ## The second concrete scenario -/

lemma all_sentinel_of_scan_none (g : Grid) (p : Pass) (sliceData : Int → ℚ) (sdsize : Int)
    (hrec : g.recSize = g.numRows * g.numCols) (hr : 1 ≤ g.numRows) (hc : 1 ≤ g.numCols)
    (hscan : ∀ j : Nat, (j : Int) < p.totalSliceSteps →
      findFirstCellScan g (samplePoint (orderLine p) (j : Int)).1
        (samplePoint (orderLine p) (j : Int)).2 = none) :
    (interpolateSliceGraph g p sliceData sdsize).completed = true ∧
    ∀ k : Nat, (k : Int) < p.totalSliceSteps →
      (interpolateSliceGraph g p sliceData sdsize).sliceData (k : Int) = 0 := by
  obtain ⟨h1, h2⟩ := interpolateSliceGraph_refines g p hrec hr hc sliceData sdsize
  refine ⟨h1, fun k hk => ?_⟩
  have hscan1 : ∀ j : Nat, j < p.totalSliceSteps.toNat →
      findFirstCellScan g (samplePoint (orderLine p) (j : Int)).1
        (samplePoint (orderLine p) (j : Int)).2 = none := fun j hj => hscan j (by omega)
  have hst := samplerStateAt_searching g (orderLine p) p.totalSliceSteps.toNat hscan1 k (by omega)
  rw [h2 (k : Int)]
  have hk1 : (0 : Int) ≤ (k : Int) ∧ (k : Int) < ((orderLine p).totalSliceSteps.toNat : Int) := by
    rw [orderLine_totalSliceSteps]
    omega
  rw [if_pos hk1]
  simp only [Int.toNat_ofNat, samplerOutput, hst, samplerStep, hscan k hk]

lemma unitGrid_scan_below (x y : ℚ) (hy : y < 0) : findFirstCellScan unitGrid x y = none := by
  rw [findFirstCellScan_eq_none_iff]
  intro row col hr hc
  have hr3 : row < 3 := by simpa [unitGrid] using hr
  have hc3 : col < 3 := by simpa [unitGrid] using hc
  rw [Bool.eq_false_iff, Ne, unitGrid_body row col hr3 hc3]
  intro h
  have h0 : (0 : ℚ) ≤ (row : ℚ) := Nat.cast_nonneg row
  linarith [h.2.1]

lemma farLinePass_point (field : Int → ℚ) (T N : Int) (ticks : List coord_t) (k : Nat)
    (hk : (k : Int) < N) :
    (samplePoint (orderLine (farLinePass field T N ticks)) (k : Int)).2 < -1 := by
  have ho : orderLine (farLinePass field T N ticks) = farLinePass field T N ticks :=
    orderLine_of_le _ (by simp [farLinePass, mkCoord])
  rw [ho]
  simp only [samplePoint, farLinePass, mkCoord]
  have hN : (0 : ℚ) < (N : ℚ) := by
    have : (0 : Int) < N := by omega
    exact_mod_cast this
  have hkN : ((k : Int) : ℚ) < (N : ℚ) := by exact_mod_cast hk
  have ht : ((k : Int) : ℚ) / (N : ℚ) < 1 := (div_lt_one hN).2 hkN
  nlinarith

lemma first_five_entries (f : Int → ℚ) (h : ∀ k : Nat, (k : Int) < 5 → f (k : Int) = 0) :
    f 0 = 0 ∧ f 1 = 0 ∧ f 2 = 0 ∧ f 3 = 0 ∧ f 4 = 0 :=
  ⟨h 0 (by decide), h 1 (by decide), h 2 (by decide), h 3 (by decide), h 4 (by decide)⟩

/-- C11: the second concrete scenario. On the grid with corners at the integer points
`(0,0)..(3,3)` (`numRows = numCols = 4`), whatever the field, the timestep and the tick
vector, the line from `(-5,-5)` to `(-1,-1)` sampled with any step count `N` runs to
its end and stores the sentinel `0.0` at every step `k` below `N`; with `N = 5` the
entries `0..4` are all `0.0`. -/
theorem far_line_all_sentinel (field : Int → ℚ) (T N : Int) (ticks : List coord_t)
    (sliceData : Int → ℚ) (sdsize : Int) :
    ((interpolateSliceGraph unitGrid (farLinePass field T N ticks) sliceData sdsize).completed
      = true ∧
    ∀ k : Nat, (k : Int) < N →
      (interpolateSliceGraph unitGrid (farLinePass field T N ticks) sliceData sdsize).sliceData
        (k : Int) = 0) ∧
    ((interpolateSliceGraph unitGrid (farLinePass field T 5 ticks) sliceData sdsize).sliceData 0
        = 0 ∧
      (interpolateSliceGraph unitGrid (farLinePass field T 5 ticks) sliceData sdsize).sliceData 1
        = 0 ∧
      (interpolateSliceGraph unitGrid (farLinePass field T 5 ticks) sliceData sdsize).sliceData 2
        = 0 ∧
      (interpolateSliceGraph unitGrid (farLinePass field T 5 ticks) sliceData sdsize).sliceData 3
        = 0 ∧
      (interpolateSliceGraph unitGrid (farLinePass field T 5 ticks) sliceData sdsize).sliceData 4
        = 0) := by
  have hgen : ∀ M : Int,
      (interpolateSliceGraph unitGrid (farLinePass field T M ticks) sliceData sdsize).completed
        = true ∧
      ∀ k : Nat, (k : Int) < M →
        (interpolateSliceGraph unitGrid (farLinePass field T M ticks) sliceData sdsize).sliceData
          (k : Int) = 0 := by
    intro M
    apply all_sentinel_of_scan_none unitGrid (farLinePass field T M ticks) sliceData sdsize
      (by decide) (by decide) (by decide)
    intro j hj
    apply unitGrid_scan_below
    have := farLinePass_point field T M ticks j hj
    linarith
  exact ⟨hgen N,
    first_five_entries
      (interpolateSliceGraph unitGrid (farLinePass field T 5 ticks) sliceData sdsize).sliceData
      (hgen 5).2⟩

/-- Witness of C11: with the field `r + c` and `N = 5`, the last entry is the
sentinel. -/
theorem far_line_all_sentinel_witness :
    ((4 : Nat) : Int) < 5 ∧
    (interpolateSliceGraph unitGrid (farLinePass unitField 0 5 []) (fun _ => 7) 5).sliceData
      ((4 : Nat) : Int) = 0 :=
  ⟨by decide, (far_line_all_sentinel unitField 0 5 [] (fun _ => 7) 5).1.2 4 (by decide)⟩

/-! ## Two passes in succession -/

lemma sliceLegend_length (a b : coord_t) (l : List coord_t) :
    (sliceLegend a b l).length = l.length + 9 := by
  have hr : List.range (SLICE_XAXIS_COORDS - 1).toNat = [0, 1, 2, 3, 4, 5, 6] := by decide
  unfold sliceLegend
  simp only [hr, List.foldl_cons, List.foldl_nil, List.length_append, List.length_dropLast,
    List.length_cons, List.length_nil]
  omega

lemma interpolateSliceGraph_pass (g : Grid) (p : Pass)
    (hrec : g.recSize = g.numRows * g.numCols) (hr : 1 ≤ g.numRows) (hc : 1 ≤ g.numCols)
    (sliceData : Int → ℚ) (sdsize : Int) :
    (interpolateSliceGraph g p sliceData sdsize).pass.sliceLegendCoords =
      sliceLegend (orderLine p).lineStart (orderLine p).lineEnd (orderLine p).sliceLegendCoords ∧
    (interpolateSliceGraph g p sliceData sdsize).pass.lineStart = (orderLine p).lineStart ∧
    (interpolateSliceGraph g p sliceData sdsize).pass.lineEnd = (orderLine p).lineEnd ∧
    (interpolateSliceGraph g p sliceData sdsize).pass.totalSliceSteps = p.totalSliceSteps ∧
    (interpolateSliceGraph g p sliceData sdsize).pass.weatherData = p.weatherData ∧
    (interpolateSliceGraph g p sliceData sdsize).pass.currentTimeStep = p.currentTimeStep := by
  have h := sliceLoop_refines g (orderLine p) hrec (orderLine p).totalSliceSteps.toNat 0
    ⟨0, false⟩ sliceData (indexOutOfRange_zero g hrec hr hc) rfl
  obtain ⟨h1, -⟩ := h
  simp only [Nat.cast_zero] at h1
  unfold interpolateSliceGraph
  simp only [h1, if_true]
  refine ⟨?_, ?_, ?_, ?_, ?_, ?_⟩ <;>
    first
    | trivial
    | rfl
    | (unfold orderLine; split_ifs <;> rfl)

lemma orderLine_orderLine (p : Pass) : orderLine (orderLine p) = orderLine p := by
  unfold orderLine
  split_ifs with h1 h2
  · simp only at h2
    exact absurd h1 (not_lt.mpr h2.le)
  · rfl
  · rfl

lemma samplerStep_congr (g : Grid) (p q : Pass) (h : SameSamplingInputs p q) (x y : ℚ)
    (s : SamplerState) : samplerStep g p x y s = samplerStep g q x y s := by
  obtain ⟨hw, ht, -, -, -⟩ := h
  have hv : ∀ i, cellValue g p i x y = cellValue g q i x y := by
    intro i
    simp only [cellValue, cellRhs, hw, ht]
  cases s with
  | SEARCHING => simp only [samplerStep, hv]
  | TRACKING c => simp only [samplerStep, hv]

lemma samplePoint_congr (p q : Pass) (h : SameSamplingInputs p q) (k : Int) :
    samplePoint p k = samplePoint q k := by
  obtain ⟨-, -, hN, hs, he⟩ := h
  simp only [samplePoint, hN, hs, he]

lemma samplerStateAt_congr (g : Grid) (p q : Pass) (h : SameSamplingInputs p q) (k : Nat) :
    samplerStateAt g p k = samplerStateAt g q k := by
  induction k with
  | zero => rfl
  | succ k ih =>
    simp only [samplerStateAt, ih, samplePoint_congr p q h, samplerStep_congr g p q h]

lemma samplerOutput_congr (g : Grid) (p q : Pass) (h : SameSamplingInputs p q) (k : Nat) :
    samplerOutput g p k = samplerOutput g q k := by
  simp only [samplerOutput, samplerStateAt_congr g p q h, samplePoint_congr p q h,
    samplerStep_congr g p q h]

lemma first_five_agree (f h : Int → ℚ) (hfh : ∀ k : Nat, (k : Int) < 5 → f (k : Int) = h (k : Int)) :
    f 0 = h 0 ∧ f 1 = h 1 ∧ f 2 = h 2 ∧ f 3 = h 3 ∧ f 4 = h 4 :=
  ⟨hfh 0 (by decide), hfh 1 (by decide), hfh 2 (by decide), hfh 3 (by decide),
    hfh 4 (by decide)⟩

/-- C12 (the tick vector carries over): on the grid and the line of the first concrete
scenario, starting with an empty tick vector, a second call of `interpolateSliceGraph`
on the globals left by the first one (same line, already in order, same grid, field,
timestep and step count) runs to its end and stores the same five sample values, but
the tick vector, which holds 9 ticks after the first call, holds 18 entries after the
second: the second call appends to the vector it finds and the two tick sequences
differ. -/
theorem second_pass_changes_ticks (sliceData : Int → ℚ) :
    (interpolateSliceGraph unitGrid diagonalPass sliceData 5).completed = true ∧
    (interpolateSliceGraph unitGrid
      (interpolateSliceGraph unitGrid diagonalPass sliceData 5).pass
      (interpolateSliceGraph unitGrid diagonalPass sliceData 5).sliceData 5).completed = true ∧
    (interpolateSliceGraph unitGrid diagonalPass sliceData 5).pass.lineStart
      = diagonalPass.lineStart ∧
    (interpolateSliceGraph unitGrid diagonalPass sliceData 5).pass.lineEnd
      = diagonalPass.lineEnd ∧
    ((interpolateSliceGraph unitGrid
        (interpolateSliceGraph unitGrid diagonalPass sliceData 5).pass
        (interpolateSliceGraph unitGrid diagonalPass sliceData 5).sliceData 5).sliceData 0
        = (interpolateSliceGraph unitGrid diagonalPass sliceData 5).sliceData 0 ∧
      (interpolateSliceGraph unitGrid
        (interpolateSliceGraph unitGrid diagonalPass sliceData 5).pass
        (interpolateSliceGraph unitGrid diagonalPass sliceData 5).sliceData 5).sliceData 1
        = (interpolateSliceGraph unitGrid diagonalPass sliceData 5).sliceData 1 ∧
      (interpolateSliceGraph unitGrid
        (interpolateSliceGraph unitGrid diagonalPass sliceData 5).pass
        (interpolateSliceGraph unitGrid diagonalPass sliceData 5).sliceData 5).sliceData 2
        = (interpolateSliceGraph unitGrid diagonalPass sliceData 5).sliceData 2 ∧
      (interpolateSliceGraph unitGrid
        (interpolateSliceGraph unitGrid diagonalPass sliceData 5).pass
        (interpolateSliceGraph unitGrid diagonalPass sliceData 5).sliceData 5).sliceData 3
        = (interpolateSliceGraph unitGrid diagonalPass sliceData 5).sliceData 3 ∧
      (interpolateSliceGraph unitGrid
        (interpolateSliceGraph unitGrid diagonalPass sliceData 5).pass
        (interpolateSliceGraph unitGrid diagonalPass sliceData 5).sliceData 5).sliceData 4
        = (interpolateSliceGraph unitGrid diagonalPass sliceData 5).sliceData 4) ∧
    (interpolateSliceGraph unitGrid diagonalPass sliceData 5).pass.sliceLegendCoords.length = 9 ∧
    (interpolateSliceGraph unitGrid
      (interpolateSliceGraph unitGrid diagonalPass sliceData 5).pass
      (interpolateSliceGraph unitGrid diagonalPass sliceData 5).sliceData
      5).pass.sliceLegendCoords.length = 18 ∧
    (interpolateSliceGraph unitGrid
      (interpolateSliceGraph unitGrid diagonalPass sliceData 5).pass
      (interpolateSliceGraph unitGrid diagonalPass sliceData 5).sliceData
      5).pass.sliceLegendCoords ≠
      (interpolateSliceGraph unitGrid diagonalPass sliceData 5).pass.sliceLegendCoords := by
  have ho : orderLine diagonalPass = diagonalPass :=
    orderLine_of_le diagonalPass (by simp [diagonalPass, mkCoord]; norm_num)
  have hp1 := interpolateSliceGraph_pass unitGrid diagonalPass (by decide) (by decide)
    (by decide) sliceData 5
  rw [ho] at hp1
  obtain ⟨hc1, hv1⟩ := interpolateSliceGraph_refines unitGrid diagonalPass (by decide)
    (by decide) (by decide) sliceData 5
  rw [ho] at hv1
  generalize hR1 : interpolateSliceGraph unitGrid diagonalPass sliceData 5 = r1 at *
  obtain ⟨ht1, hs1, he1, hN1, hw1, hT1⟩ := hp1
  have ho2 : orderLine r1.pass = r1.pass :=
    orderLine_of_le _ (by rw [hs1, he1]; simp [diagonalPass, mkCoord]; norm_num)
  have hp2 := interpolateSliceGraph_pass unitGrid r1.pass (by decide) (by decide)
    (by decide) r1.sliceData 5
  obtain ⟨hc2, hv2⟩ := interpolateSliceGraph_refines unitGrid r1.pass (by decide)
    (by decide) (by decide) r1.sliceData 5
  rw [ho2] at hp2 hv2
  have hl1 : r1.pass.sliceLegendCoords.length = 9 := by
    rw [ht1, sliceLegend_length]
    rfl
  have hl2 : (interpolateSliceGraph unitGrid r1.pass r1.sliceData 5).pass.sliceLegendCoords.length
      = 18 := by
    rw [hp2.1, sliceLegend_length, hl1]
  refine ⟨hc1, hc2, hs1, he1, ?_, hl1, hl2, ?_⟩
  · apply first_five_agree
    intro k hk
    rw [hv2, hv1, hN1]
    have hk5 : k < 5 := by omega
    have hk1 : (0 : Int) ≤ (k : Int) ∧
        (k : Int) < ((diagonalPass.totalSliceSteps.toNat : Nat) : Int) := by
      have : ((diagonalPass.totalSliceSteps.toNat : Nat) : Int) = 5 := by decide
      omega
    rw [if_pos hk1, if_pos hk1]
    exact samplerOutput_congr unitGrid r1.pass diagonalPass ⟨hw1, hT1, hN1, hs1, he1⟩ _
  · intro h
    rw [h, hl1] at hl2
    exact absurd hl2 (by decide)

/-! ## Singular systems -/

/-- The determinant `det4` is the determinant of the 4x4 matrix. -/
lemma det4_eq_det (M : Nat → Nat → ℚ) :
    det4 M = Matrix.det (Matrix.of fun (i j : Fin 4) => M i.val j.val) := by
  rw [Matrix.det_succ_row_zero]
  have h12 : (1 : Fin 4) < Fin.succ (2 : Fin 3) := by decide
  simp [Fin.sum_univ_succ, Matrix.det_fin_three, det4, det3, Fin.succAbove, Matrix.submatrix, h12]
  ring

lemma dgesv_singular (a b : Nat → ℚ) (hdet : det4 (colMajor a) = 0) :
    dgesv a b = (b, true) := by
  unfold dgesv
  simp only [hdet, if_true]

lemma cellValue_singular (g : Grid) (p : Pass) (index : Int) (x y : ℚ)
    (hdet : det4 (colMajor (cellMatrix g index)) = 0) :
    cellValue g p index x y =
      cellRhs g p index 0 + cellRhs g p index 1 * x + cellRhs g p index 2 * y
        + cellRhs g p index 3 * x * y := by
  unfold cellValue solve4x4Lapack
  rw [dgesv_singular _ _ hdet]

lemma diamond_cellMatrix : cellMatrix diamondGrid 0 = fun k =>
    ([1, 1, 1, 1, 1, 2, 1, 0, 0, 1, 2, 1, 0, 2, 2, 0] : List ℚ).getD k 0 := by
  funext k
  simp [cellMatrix, diamondGrid, arrayOfList]

lemma diamond_cellRhs : cellRhs diamondGrid diamondPass 0 = fun k =>
    ([1, 2, 4, 3] : List ℚ).getD k 0 := by
  have t0 : (0 : Int).tdiv 2 = 0 := by decide
  funext k
  simp [cellRhs, diamondGrid, diamondPass, arrayOfList, t0]

lemma diamond_det : det4 (colMajor (cellMatrix diamondGrid 0)) = 0 := by
  rw [diamond_cellMatrix]
  simp [det4, det3, colMajor]
  norm_num

lemma diamond_inside : (insideCell diamondGrid 1 1 0).1 = true := by
  rw [insideCell_fst_iff]
  simp [diamondGrid, arrayOfList, aboveOrBelowLine, aboveOrBelowLineTraced, mkCoord]
  norm_num
  decide

lemma diamond_scan : findFirstCellScan diamondGrid 1 1 = some 0 := by
  rw [findFirstCellScan_eq_some_iff]
  refine ⟨0, 0, by decide, by decide, by simp [cellOffset], ?_, ?_, ?_⟩
  · rw [findFirstCellBody_iff]
    refine ⟨?_, ?_⟩
    · simp [cellOffset, diamondGrid, arrayOfList, calcDistanceSq]
    · have e : cellOffset diamondGrid ((0 : Nat) : Int) ((0 : Nat) : Int) = 0 := by
        simp [cellOffset]
      rw [e]
      exact diamond_inside
  · intro j hj; omega
  · intro r c hr; omega

lemma diamond_step :
    sliceStepAt diamondGrid diamondPass 1 1 ⟨0, false⟩ = some (⟨0, true⟩, 10) := by
  have hf := findFirstCell_eq_of_scan_some diamondGrid 1 1 0 0 diamond_scan
  have hr : indexOutOfRange diamondGrid 0 = false := by decide
  have hn : nextInterpolationPoint diamondGrid 1 1 0 1 = (true, 0) := by
    rw [nextInterpolationPoint_closed _ _ _ _ _ (by norm_num), hr]
    simp only [Bool.false_eq_true, if_false]
    rw [if_pos diamond_inside]
  have hv : cellValue diamondGrid diamondPass 0 1 1 = 10 := by
    rw [cellValue_singular _ _ _ _ _ diamond_det, diamond_cellRhs]
    norm_num
  simp only [sliceStepAt, hf, hn, hr, hv, Bool.not_false, Bool.not_true, if_true,
    Bool.false_eq_true, if_false]

/-- C13, as the claim states it, fails: the cell of `diamondGrid` is a convex
quadrilateral whose 4x4 system is singular (its determinant is zero and the nonzero
vector `(1, -1, -1, 1)` is mapped to zero, so no coefficient vector is unique);
`dgesv` reports the failure through `info`, but the sampling step at the centre
`(1, 1)` returns like any other step, with the value `10 = 1 + 2*1 + 4*1 + 3*1`
computed from the unsolved right-hand side `(1, 2, 4, 3)`. -/
theorem singular_cell_sampled_silently :
    ConvexQuad (bottomLeft diamondGrid 0) (bottomRight diamondGrid 0) (topRight diamondGrid 0)
      (topLeft diamondGrid 0) ∧
    det4 (colMajor (cellMatrix diamondGrid 0)) = 0 ∧
    (∀ k : Nat, k < 4 →
      matVec (cellMatrix diamondGrid 0) (fun j => ([1, -1, -1, 1] : List ℚ).getD j 0) k = 0) ∧
    (dgesv (cellMatrix diamondGrid 0) (cellRhs diamondGrid diamondPass 0)).2 = true ∧
    (cellRhs diamondGrid diamondPass 0 0 = 1 ∧ cellRhs diamondGrid diamondPass 0 1 = 2 ∧
      cellRhs diamondGrid diamondPass 0 2 = 4 ∧ cellRhs diamondGrid diamondPass 0 3 = 3) ∧
    sliceStepAt diamondGrid diamondPass 1 1 ⟨0, false⟩ = some (⟨0, true⟩, 10) := by
  refine ⟨?_, diamond_det, ?_, ?_, ?_, diamond_step⟩
  · simp [ConvexQuad, cross, bottomLeft, bottomRight, topLeft, topRight, diamondGrid,
      arrayOfList, mkCoord]
  · intro k hk
    rw [diamond_cellMatrix]
    have hk4 : k = 0 ∨ k = 1 ∨ k = 2 ∨ k = 3 := by omega
    rcases hk4 with h | h | h | h <;> subst h <;> norm_num [matVec, colMajor]
  · rw [dgesv_singular _ _ diamond_det]
  · rw [diamond_cellRhs]
    simp

/-! ## The range check and the reference parameter of `insideCell` -/

/-- C14, as the claim states it, fails (the two conditions admit corners of the last
row and of the last column): on
the grid of the concrete scenarios (`numRows = numCols = 4`, `recSize = 16`,
`pointsPerRow = 8`) the index `24` is nonnegative, satisfies
`index <= 2*recSize - pointsPerRow` and `index mod pointsPerRow != pointsPerRow - 1`,
so the range check of lines 1602 and 1782 accepts it; yet it is the offset of the first
corner of the last row, and the offset `index + pointsPerRow = 32` read by `insideCell`
is not below `2*recSize = 32`. The check also accepts `6`, the x-offset of the corner
in the last column of row 0, and `1`, which is the offset of a y-coordinate. The
program itself presents none of these indices to the check. -/
theorem indexOutOfRange_admits_last_row :
    ((2 : Int) ≤ unitGrid.numRows ∧ (2 : Int) ≤ unitGrid.numCols ∧
      unitGrid.recSize = unitGrid.numRows * unitGrid.numCols) ∧
    ((0 : Int) ≤ 24 ∧ (24 : Int) ≤ 2 * unitGrid.recSize - 2 * unitGrid.numCols ∧
      (24 : Int).tmod (2 * unitGrid.numCols) ≠ 2 * unitGrid.numCols - 1 ∧
      indexOutOfRange unitGrid 24 = false ∧
      (24 : Int) = cellOffset unitGrid (unitGrid.numRows - 1) 0 ∧
      ¬ ((24 : Int) + 2 * unitGrid.numCols < 2 * unitGrid.recSize)) ∧
    (indexOutOfRange unitGrid 6 = false ∧
      (6 : Int) = cellOffset unitGrid 0 (unitGrid.numCols - 1)) ∧
    (indexOutOfRange unitGrid 1 = false ∧ (1 : Int) % 2 = 1) := by
  decide

/-- C15 (`insideCell` never changes its index): for every grid, point and index the
reference parameter has its original value on return; on the grid of the concrete
scenarios the point `(1.3, 1.3)` is above the top edge of cell `0`, `insideCell`
returns false and leaves the index at `0`, not at `8`, the offset of the cell above;
the walk from cell `0` reaches the cell `10` of the point only through the full scan of
`findFirstCell`. -/
theorem insideCell_leaves_index :
    (∀ (g : Grid) (x y : ℚ) (i : Int), (insideCell g x y i).2 = i) ∧
    aboveOrBelowLine (topLeft unitGrid 0) (topRight unitGrid 0)
      (mkCoord (13 / 10) (13 / 10)) = ABOVE_LINE ∧
    insideCell unitGrid (13 / 10) (13 / 10) 0 = (false, 0) ∧
    (0 : Int) + 2 * unitGrid.numCols = 8 ∧
    findFirstCell unitGrid (13 / 10) (13 / 10) 0 = (true, 10) ∧
    nextInterpolationPoint unitGrid (13 / 10) (13 / 10) 0 1 = (true, 10) := by
  have hin : (insideCell unitGrid (13 / 10) (13 / 10) 0).1 = false :=
    unitGrid_outside_at 0 0 (by decide) (by decide) _ _ 0 (by norm_num) (by norm_num)
  refine ⟨insideCell_snd, ?_, ?_, by decide,
    findFirstCell_eq_of_scan_some _ _ _ _ _ unitGrid_scan_13,
    unitGrid_walk_move _ _ 0 10 (by decide) hin unitGrid_scan_13⟩
  · have c0 := unitGrid_corners 0 0 (by decide) (by decide)
    have e0 : cellOffset unitGrid ((0 : Nat) : Int) ((0 : Nat) : Int) = 0 := by
      rw [unitGrid_cellOffset]; norm_num
    rw [e0] at c0
    rw [c0.2.2.2, c0.2.2.1,
      aboveOrBelowLine_horizontal _ _ _ (by simp [mkCoord]) (by simp [mkCoord])]
    simp only [mkCoord]
    norm_num
  · have h2 := insideCell_snd unitGrid (13 / 10) (13 / 10) 0
    exact Prod.ext hin h2

/-! ## The classification of `aboveOrBelowLine` -/

lemma aboveOrBelowLine_of_height (a b c : coord_t) (hx : a.x ≠ b.x) :
    (c.y < lineHeight a b c → aboveOrBelowLine a b c = BELOW_LINE) ∧
    (c.y = lineHeight a b c → aboveOrBelowLine a b c = ON_LINE) ∧
    (lineHeight a b c < c.y → aboveOrBelowLine a b c = ABOVE_LINE) := by
  have hx0 : b.x - a.x ≠ 0 := sub_ne_zero.mpr (Ne.symm hx)
  by_cases hy : a.y = b.y
  · have hL : lineHeight a b c = a.y := by
      unfold lineHeight
      rw [hy]
      simp
    rw [hL, aboveOrBelowLine_horizontal a b c hx hy]
    refine ⟨fun h => ?_, fun h => ?_, fun h => ?_⟩
    · rw [if_neg (ne_of_lt h), if_pos h]
    · rw [if_pos h]
    · rw [if_neg (ne_of_gt h), if_neg (not_lt.mpr h.le)]
  · have hy0 : b.y - a.y ≠ 0 := sub_ne_zero.mpr (Ne.symm hy)
    have hL : lineHeight a b c = a.y + (c.x - a.x) / (b.x - a.x) * (b.y - a.y) := by
      unfold lineHeight
      field_simp
    have hc : c.y = a.y + (c.y - a.y) / (b.y - a.y) * (b.y - a.y) := by
      field_simp
    rw [hL]
    unfold aboveOrBelowLine aboveOrBelowLineTraced
    simp only [ne_eq, hx, hy, not_false_eq_true, if_true]
    generalize (c.x - a.x) / (b.x - a.x) = tx at *
    generalize hty : (c.y - a.y) / (b.y - a.y) = ty at *
    rcases lt_or_gt_of_ne hy with h | h
    · have hd : 0 < b.y - a.y := sub_pos.mpr h
      refine ⟨fun hlt => ?_, fun heq => ?_, fun hgt => ?_⟩
      · have h1 : ty < tx := by
          rw [hc] at hlt
          have := lt_of_mul_lt_mul_right (by linarith : ty * (b.y - a.y) < tx * (b.y - a.y)) hd.le
          exact this
        simp [ne_of_gt h1, h, h1]
      · have h1 : tx = ty := by
          rw [hc] at heq
          have : ty * (b.y - a.y) = tx * (b.y - a.y) := by linarith
          exact (mul_right_cancel₀ hy0 this).symm
        simp [h1]
      · have h1 : tx < ty := by
          rw [hc] at hgt
          exact lt_of_mul_lt_mul_right (by linarith : tx * (b.y - a.y) < ty * (b.y - a.y)) hd.le
        simp [ne_of_lt h1, h, h1, not_lt.mpr h1.le]
    · have hd : b.y - a.y < 0 := sub_neg.mpr h
      have hd1 : 0 < a.y - b.y := sub_pos.mpr h
      have hnlt : ¬ a.y < b.y := not_lt.mpr h.le
      refine ⟨fun hlt => ?_, fun heq => ?_, fun hgt => ?_⟩
      · have h1 : tx < ty := by
          rw [hc] at hlt
          exact lt_of_mul_lt_mul_right (by linarith : tx * (a.y - b.y) < ty * (a.y - b.y)) hd1.le
        simp [ne_of_lt h1, hnlt, h, h1]
      · have h1 : tx = ty := by
          rw [hc] at heq
          have : ty * (b.y - a.y) = tx * (b.y - a.y) := by linarith
          exact (mul_right_cancel₀ hy0 this).symm
        simp [h1]
      · have h1 : ty < tx := by
          rw [hc] at hgt
          exact lt_of_mul_lt_mul_right (by linarith : ty * (a.y - b.y) < tx * (a.y - b.y)) hd1.le
        simp [ne_of_gt h1, hnlt, h, h1, not_lt.mpr h1.le]

/-- C16: for all `a`, `b` with `a.x != b.x` (horizontal segments included) and every
`c`, with `yL = a.y + (c.x - a.x) * (b.y - a.y) / (b.x - a.x)` the height of the line
through `a` and `b` at the abscissa of `c`, `aboveOrBelowLine(a, b, c)` is `BELOW_LINE`
exactly when `c.y < yL`, `ABOVE_LINE` exactly when `c.y > yL` and `ON_LINE` exactly
when `c.y = yL`; in particular every point `a + s * (b - a)` of the segment is
classified `ON_LINE`. -/
theorem aboveOrBelowLine_classifies (a b c : coord_t) (hx : a.x ≠ b.x) :
    (aboveOrBelowLine a b c = BELOW_LINE ↔ c.y < lineHeight a b c) ∧
    (aboveOrBelowLine a b c = ABOVE_LINE ↔ c.y > lineHeight a b c) ∧
    (aboveOrBelowLine a b c = ON_LINE ↔ c.y = lineHeight a b c) ∧
    (∀ s : ℚ, c.x = a.x + s * (b.x - a.x) → c.y = a.y + s * (b.y - a.y) →
      aboveOrBelowLine a b c = ON_LINE) := by
  obtain ⟨h1, h2, h3⟩ := aboveOrBelowLine_of_height a b c hx
  have hx0 : b.x - a.x ≠ 0 := sub_ne_zero.mpr (Ne.symm hx)
  refine ⟨⟨fun h => ?_, h1⟩, ⟨fun h => ?_, h3⟩, ⟨fun h => ?_, h2⟩, fun s hsx hsy => ?_⟩
  · rcases lt_trichotomy c.y (lineHeight a b c) with hlt | heq | hgt
    · exact hlt
    · rw [h2 heq] at h
      exact absurd h (by decide)
    · rw [h3 hgt] at h
      exact absurd h (by decide)
  · rcases lt_trichotomy c.y (lineHeight a b c) with hlt | heq | hgt
    · rw [h1 hlt] at h
      exact absurd h (by decide)
    · rw [h2 heq] at h
      exact absurd h (by decide)
    · exact hgt
  · rcases lt_trichotomy c.y (lineHeight a b c) with hlt | heq | hgt
    · rw [h1 hlt] at h
      exact absurd h (by decide)
    · exact heq
    · rw [h3 hgt] at h
      exact absurd h (by decide)
  · apply h2
    unfold lineHeight
    rw [hsx, hsy]
    field_simp
    ring

/-- Witness of C16: for the line through `(0,0)` and `(2,1)`, the point `(2, 3)` is
above the line (`yL = 1`) and the midpoint `(1, 1/2)` is on it. -/
theorem aboveOrBelowLine_classifies_witness :
    (mkCoord 0 0).x ≠ (mkCoord 2 1).x ∧
    (mkCoord 2 3).y > lineHeight (mkCoord 0 0) (mkCoord 2 1) (mkCoord 2 3) ∧
    aboveOrBelowLine (mkCoord 0 0) (mkCoord 2 1) (mkCoord 2 3) = ABOVE_LINE := by
  have hx : (mkCoord 0 0).x ≠ (mkCoord 2 1).x := by simp [mkCoord]
  have hy : (mkCoord 2 3).y > lineHeight (mkCoord 0 0) (mkCoord 2 1) (mkCoord 2 3) := by
    simp [lineHeight, mkCoord]
  exact ⟨hx, hy,
    (aboveOrBelowLine_classifies (mkCoord 0 0) (mkCoord 2 1) (mkCoord 2 3) hx).2.1.2 hy⟩

/-- C17: for all `a`, `b` with `a.x = b.x` (vertical segment, `a = b` included) and
every point `c`, `aboveOrBelowLine(a, b, c)` returns `ON_LINE`, and neither
`unreachable` statement is reached. -/
theorem aboveOrBelowLine_vertical_is_on_line (a b c : coord_t) (h : a.x = b.x) :
    aboveOrBelowLine a b c = ON_LINE ∧ (aboveOrBelowLineTraced a b c).2 = false := by
  refine ⟨aboveOrBelowLine_vertical a b c h, ?_⟩
  simp [aboveOrBelowLineTraced, h]

/-- Witness of C17: the point `(5, 7)`, far to the right of the vertical segment from
`(0,0)` to `(0,1)`, is classified `ON_LINE`. -/
theorem aboveOrBelowLine_vertical_is_on_line_witness :
    (mkCoord 0 0).x = (mkCoord 0 1).x ∧
    aboveOrBelowLine (mkCoord 0 0) (mkCoord 0 1) (mkCoord 5 7) = ON_LINE :=
  ⟨rfl, (aboveOrBelowLine_vertical_is_on_line (mkCoord 0 0) (mkCoord 0 1) (mkCoord 5 7) rfl).1⟩

/-! ## What `insideCell` and the system of a cell read -/

/-- C18: `insideCell(x, y, i)` returns true if and only if the point is not below the
bottom edge (BL, BR), not above the right edge (BR, TR), not above the top edge
(TL, TR) and not below the left edge (TL, BL), each classified by `aboveOrBelowLine`,
where BL is read at the offsets `i`, `i+1`, BR at `i+2`, `i+3`, TL at `i+rowStride`,
`i+rowStride+1` and TR at `i+rowStride+2`, `i+rowStride+3`, with
`rowStride = 2*numCols`; it reads nothing else of the coordinate array: two grids with
the same `numCols` that agree at these eight offsets give the same result. -/
theorem insideCell_reads_and_tests (g : Grid) (x y : ℚ) (i : Int) :
    ((insideCell g x y i).1 = true ↔
      aboveOrBelowLine (mkCoord (g.weatherCoords i) (g.weatherCoords (i + 1)))
          (mkCoord (g.weatherCoords (i + 2)) (g.weatherCoords (i + 3))) (mkCoord x y)
        ≠ BELOW_LINE ∧
      aboveOrBelowLine (mkCoord (g.weatherCoords (i + 2)) (g.weatherCoords (i + 3)))
          (mkCoord (g.weatherCoords (i + 2 * g.numCols + 2))
            (g.weatherCoords (i + 2 * g.numCols + 3))) (mkCoord x y)
        ≠ ABOVE_LINE ∧
      aboveOrBelowLine (mkCoord (g.weatherCoords (i + 2 * g.numCols))
            (g.weatherCoords (i + 2 * g.numCols + 1)))
          (mkCoord (g.weatherCoords (i + 2 * g.numCols + 2))
            (g.weatherCoords (i + 2 * g.numCols + 3))) (mkCoord x y)
        ≠ ABOVE_LINE ∧
      aboveOrBelowLine (mkCoord (g.weatherCoords (i + 2 * g.numCols))
            (g.weatherCoords (i + 2 * g.numCols + 1)))
          (mkCoord (g.weatherCoords i) (g.weatherCoords (i + 1))) (mkCoord x y)
        ≠ BELOW_LINE) ∧
    (∀ g2 : Grid, g2.numCols = g.numCols →
      (∀ d : Int, d ∈ [0, 1, 2, 3, 2 * g.numCols, 2 * g.numCols + 1, 2 * g.numCols + 2,
          2 * g.numCols + 3] → g2.weatherCoords (i + d) = g.weatherCoords (i + d)) →
      insideCell g2 x y i = insideCell g x y i) := by
  have e : 2 * g.numCols = g.numCols * 2 := mul_comm _ _
  constructor
  · rw [e]
    exact insideCell_fst_iff g x y i
  · intro g2 hn hd
    have h0 := hd 0 (by simp)
    have h1 := hd 1 (by simp)
    have h2 := hd 2 (by simp)
    have h3 := hd 3 (by simp)
    have h4 := hd (2 * g.numCols) (by simp)
    have h5 := hd (2 * g.numCols + 1) (by simp)
    have h6 := hd (2 * g.numCols + 2) (by simp)
    have h7 := hd (2 * g.numCols + 3) (by simp)
    rw [add_zero] at h0
    rw [← add_assoc] at h5 h6 h7
    rw [e] at h4 h5 h6 h7
    unfold insideCell
    simp only [hn, h0, h1, h2, h3, h4, h5, h6, h7]

/-- Witness of C18: changing the entry at offset `31` of the grid of the concrete
scenarios, which the cell of offset `0` does not read, does not change `insideCell`
for that cell. -/
theorem insideCell_reads_and_tests_witness :
    unitGridMarked.numCols = unitGrid.numCols ∧
    (∀ d : Int, d ∈ [0, 1, 2, 3, 2 * unitGrid.numCols, 2 * unitGrid.numCols + 1,
        2 * unitGrid.numCols + 2, 2 * unitGrid.numCols + 3] →
      unitGridMarked.weatherCoords (0 + d) = unitGrid.weatherCoords (0 + d)) ∧
    insideCell unitGridMarked (1 / 2) (1 / 2) 0 = insideCell unitGrid (1 / 2) (1 / 2) 0 := by
  have hd : ∀ d : Int, d ∈ [0, 1, 2, 3, 2 * unitGrid.numCols, 2 * unitGrid.numCols + 1,
      2 * unitGrid.numCols + 2, 2 * unitGrid.numCols + 3] →
      unitGridMarked.weatherCoords (0 + d) = unitGrid.weatherCoords (0 + d) := by
    intro d hd
    have hn : unitGrid.numCols = 4 := rfl
    simp only [hn, List.mem_cons, List.mem_singleton, List.not_mem_nil, or_false] at hd
    have hne : ¬ (0 + d = 31) := by omega
    simp only [unitGridMarked, hne, if_false]
  exact ⟨rfl, hd,
    (insideCell_reads_and_tests unitGrid (1 / 2) (1 / 2) 0).2 unitGridMarked rfl hd⟩

lemma even_tdiv_two (m : Int) : (2 * m).tdiv 2 = m :=
  Int.mul_tdiv_cancel_left m (by decide)

/-- C19: for the cell in row `row` and column `col`, with bottom-left offset
`i = row * 2 * numCols + 2 * col`, at timestep `T`: the right-hand side holds
`field[T*recSize + i/2]`, `field[T*recSize + i/2 + 1]`,
`field[T*recSize + i/2 + numCols + 1]`, `field[T*recSize + i/2 + numCols]`; the rows of
the matrix hold the coordinates read at the offsets `i`, `i+2`, `i+2*numCols+2`,
`i+2*numCols`; and each field index is the coordinate offset of the same row divided
by 2, namely the corners `(row, col)`, `(row, col+1)`, `(row+1, col+1)`,
`(row+1, col)` of the grid. -/
theorem cellRhs_pairs_with_corners (g : Grid) (p : Pass) (row col : Int) :
    (cellRhs g p (cellOffset g row col) 0 =
        p.weatherData (p.currentTimeStep * g.recSize + (cellOffset g row col).tdiv 2) ∧
      cellRhs g p (cellOffset g row col) 1 =
        p.weatherData (p.currentTimeStep * g.recSize + ((cellOffset g row col).tdiv 2 + 1)) ∧
      cellRhs g p (cellOffset g row col) 2 =
        p.weatherData
          (p.currentTimeStep * g.recSize + ((cellOffset g row col).tdiv 2 + g.numCols + 1)) ∧
      cellRhs g p (cellOffset g row col) 3 =
        p.weatherData
          (p.currentTimeStep * g.recSize + ((cellOffset g row col).tdiv 2 + g.numCols))) ∧
    (cellCorner g (cellOffset g row col) 0 =
        mkCoord (g.weatherCoords (cellOffset g row col))
          (g.weatherCoords (cellOffset g row col + 1)) ∧
      cellCorner g (cellOffset g row col) 1 =
        mkCoord (g.weatherCoords (cellOffset g row col + 2))
          (g.weatherCoords (cellOffset g row col + 3)) ∧
      cellCorner g (cellOffset g row col) 2 =
        mkCoord (g.weatherCoords (cellOffset g row col + 2 * g.numCols + 2))
          (g.weatherCoords (cellOffset g row col + 2 * g.numCols + 3)) ∧
      cellCorner g (cellOffset g row col) 3 =
        mkCoord (g.weatherCoords (cellOffset g row col + 2 * g.numCols))
          (g.weatherCoords (cellOffset g row col + 2 * g.numCols + 1))) ∧
    (∀ k : Nat, k < 4 →
      colMajor (cellMatrix g (cellOffset g row col)) k 1 =
        (cellCorner g (cellOffset g row col) k).x ∧
      colMajor (cellMatrix g (cellOffset g row col)) k 2 =
        (cellCorner g (cellOffset g row col) k).y) ∧
    ((cellOffset g row col).tdiv 2 + 1 = (cellOffset g row col + 2).tdiv 2 ∧
      (cellOffset g row col).tdiv 2 + g.numCols + 1 =
        (cellOffset g row col + 2 * g.numCols + 2).tdiv 2 ∧
      (cellOffset g row col).tdiv 2 + g.numCols =
        (cellOffset g row col + 2 * g.numCols).tdiv 2) ∧
    ((cellOffset g row col).tdiv 2 = row * g.numCols + col ∧
      cellOffset g row col + 2 = cellOffset g row (col + 1) ∧
      cellOffset g row col + 2 * g.numCols + 2 = cellOffset g (row + 1) (col + 1) ∧
      cellOffset g row col + 2 * g.numCols = cellOffset g (row + 1) col) := by
  have e : 2 * g.numCols = g.numCols * 2 := mul_comm _ _
  have t0 : (cellOffset g row col).tdiv 2 = row * g.numCols + col := by
    have : cellOffset g row col = 2 * (row * g.numCols + col) := by
      unfold cellOffset; ring
    rw [this, even_tdiv_two]
  have t1 : (cellOffset g row col + 2).tdiv 2 = row * g.numCols + col + 1 := by
    have : cellOffset g row col + 2 = 2 * (row * g.numCols + col + 1) := by
      unfold cellOffset; ring
    rw [this, even_tdiv_two]
  have t2 : (cellOffset g row col + 2 * g.numCols + 2).tdiv 2 =
      row * g.numCols + col + g.numCols + 1 := by
    have : cellOffset g row col + 2 * g.numCols + 2 =
        2 * (row * g.numCols + col + g.numCols + 1) := by
      unfold cellOffset; ring
    rw [this, even_tdiv_two]
  have t3 : (cellOffset g row col + 2 * g.numCols).tdiv 2 = row * g.numCols + col + g.numCols := by
    have : cellOffset g row col + 2 * g.numCols = 2 * (row * g.numCols + col + g.numCols) := by
      unfold cellOffset; ring
    rw [this, even_tdiv_two]
  refine ⟨⟨rfl, rfl, rfl, rfl⟩, ⟨rfl, rfl, ?_, ?_⟩, ?_, ⟨?_, ?_, ?_⟩, ⟨t0, ?_, ?_, ?_⟩⟩
  · simp only [cellCorner, topRight, e]
  · simp only [cellCorner, topLeft, e]
  · intro k hk
    obtain ⟨-, h1, h2, -⟩ := cellMatrix_row g (cellOffset g row col) k hk
    exact ⟨h1, h2⟩
  · rw [t0, t1]
  · rw [t0, t2]
  · rw [t0, t3]
  · unfold cellOffset; ring
  · unfold cellOffset; ring
  · unfold cellOffset; ring

/-! ## The sample points -/

lemma samplePoint_eq (p : Pass) (k : Int) :
    samplePoint p k =
      (p.lineStart.x + (k : ℚ) / (p.totalSliceSteps : ℚ) * (p.lineEnd.x - p.lineStart.x),
        p.lineStart.y + (k : ℚ) / (p.totalSliceSteps : ℚ) * (p.lineEnd.y - p.lineStart.y)) := by
  simp only [samplePoint, Prod.mk.injEq]
  constructor <;> ring

/-- C20: the sampling loop of `interpolateSliceGraph` runs on the canonicalized line,
and its iteration for step `k` works at the point
`((1-t)*lineStart.x + t*lineEnd.x, (1-t)*lineStart.y + t*lineEnd.y)` with `t = k/N`;
hence the sample of step `0` is `lineStart`, consecutive samples differ by
`(lineEnd - lineStart)/N`, and for every step `0 <= k < N` the parameter `t` is below
`1` and the sample is not `lineEnd` (for a line whose endpoints differ). -/
theorem samplePoint_on_line (g : Grid) (p : Pass) :
    (∀ (sliceData : Int → ℚ) (sdsize : Int),
      (interpolateSliceGraph g p sliceData sdsize).sliceData =
        (sliceLoop g (orderLine p) (orderLine p).totalSliceSteps.toNat 0 ⟨0, false⟩
          sliceData).1) ∧
    (∀ (n : Nat) (k : Int) (cur : Cursor) (sliceData : Int → ℚ),
      sliceLoop g p (n + 1) k cur sliceData =
        match sliceStepAt g p (samplePoint p k).1 (samplePoint p k).2 cur with
        | none => (sliceData, false)
        | some (cur1, v) =>
          sliceLoop g p n (k + 1) cur1 (fun j => if j = k then v else sliceData j)) ∧
    (∀ k : Int, samplePoint p k =
      ((1 - (k : ℚ) / (p.totalSliceSteps : ℚ)) * p.lineStart.x
          + (k : ℚ) / (p.totalSliceSteps : ℚ) * p.lineEnd.x,
        (1 - (k : ℚ) / (p.totalSliceSteps : ℚ)) * p.lineStart.y
          + (k : ℚ) / (p.totalSliceSteps : ℚ) * p.lineEnd.y)) ∧
    samplePoint p 0 = (p.lineStart.x, p.lineStart.y) ∧
    (p.totalSliceSteps ≠ 0 → ∀ k : Int,
      (samplePoint p (k + 1)).1 - (samplePoint p k).1 =
        (p.lineEnd.x - p.lineStart.x) / (p.totalSliceSteps : ℚ) ∧
      (samplePoint p (k + 1)).2 - (samplePoint p k).2 =
        (p.lineEnd.y - p.lineStart.y) / (p.totalSliceSteps : ℚ)) ∧
    (∀ k : Int, 0 ≤ k → k < p.totalSliceSteps →
      (k : ℚ) / (p.totalSliceSteps : ℚ) < 1 ∧
      ((p.lineStart.x ≠ p.lineEnd.x ∨ p.lineStart.y ≠ p.lineEnd.y) →
        samplePoint p k ≠ (p.lineEnd.x, p.lineEnd.y))) := by
  refine ⟨?_, ?_, ?_, ?_, ?_, ?_⟩
  · intro sliceData sdsize
    unfold interpolateSliceGraph
    simp only
    split_ifs <;> rfl
  · intro n k cur sliceData
    rfl
  · intro k
    rfl
  · rw [samplePoint_eq]
    simp
  · intro hN k
    have hN0 : (p.totalSliceSteps : ℚ) ≠ 0 := by exact_mod_cast hN
    rw [samplePoint_eq, samplePoint_eq]
    simp only
    push_cast
    constructor <;> field_simp <;> ring
  · intro k hk0 hkN
    have hNpos : (0 : ℚ) < (p.totalSliceSteps : ℚ) := by
      have : (0 : Int) < p.totalSliceSteps := by omega
      exact_mod_cast this
    have hkq : (k : ℚ) < (p.totalSliceSteps : ℚ) := by exact_mod_cast hkN
    have ht : (k : ℚ) / (p.totalSliceSteps : ℚ) < 1 := (div_lt_one hNpos).2 hkq
    refine ⟨ht, fun hne heq => ?_⟩
    rw [samplePoint_eq, Prod.mk.injEq] at heq
    obtain ⟨h1, h2⟩ := heq
    have e1 : (1 - (k : ℚ) / (p.totalSliceSteps : ℚ)) * (p.lineEnd.x - p.lineStart.x) = 0 := by
      linarith
    have e2 : (1 - (k : ℚ) / (p.totalSliceSteps : ℚ)) * (p.lineEnd.y - p.lineStart.y) = 0 := by
      linarith
    have hpos : (1 - (k : ℚ) / (p.totalSliceSteps : ℚ)) ≠ 0 := by
      have : 0 < 1 - (k : ℚ) / (p.totalSliceSteps : ℚ) := by linarith
      exact ne_of_gt this
    rcases hne with h | h
    · rcases mul_eq_zero.1 e1 with h3 | h3
      · exact hpos h3
      · exact h (by linarith)
    · rcases mul_eq_zero.1 e2 with h3 | h3
      · exact hpos h3
      · exact h (by linarith)

/-- Witness of C20: on the line of the first concrete scenario (`N = 5`) the sample of
step `4` has `t = 4/5 < 1` and is not the end point `(5/2, 5/2)`. -/
theorem samplePoint_on_line_witness :
    (0 : Int) ≤ 4 ∧ (4 : Int) < diagonalPass.totalSliceSteps ∧
    (diagonalPass.lineStart.x ≠ diagonalPass.lineEnd.x ∨
      diagonalPass.lineStart.y ≠ diagonalPass.lineEnd.y) ∧
    samplePoint diagonalPass 4 ≠ (diagonalPass.lineEnd.x, diagonalPass.lineEnd.y) := by
  have hne : diagonalPass.lineStart.x ≠ diagonalPass.lineEnd.x ∨
      diagonalPass.lineStart.y ≠ diagonalPass.lineEnd.y := by
    left
    simp [diagonalPass, mkCoord]
    norm_num
  exact ⟨by decide, by decide, hne,
    ((samplePoint_on_line unitGrid diagonalPass).2.2.2.2.2 4 (by decide) (by decide)).2 hne⟩

/-! ## The axis ticks and the order of the endpoints -/

lemma sliceLegend_nil (a b : coord_t) :
    sliceLegend a b [] =
      [a,
       mkCoord (a.x + 1 * ((b.x - a.x) / 8)) (a.y + 1 * ((b.y - a.y) / 8)),
       mkCoord (a.x + 2 * ((b.x - a.x) / 8)) (a.y + 2 * ((b.y - a.y) / 8)),
       mkCoord (a.x + 3 * ((b.x - a.x) / 8)) (a.y + 3 * ((b.y - a.y) / 8)),
       mkCoord (a.x + 4 * ((b.x - a.x) / 8)) (a.y + 4 * ((b.y - a.y) / 8)),
       mkCoord (a.x + 5 * ((b.x - a.x) / 8)) (a.y + 5 * ((b.y - a.y) / 8)),
       mkCoord (a.x + 6 * ((b.x - a.x) / 8)) (a.y + 6 * ((b.y - a.y) / 8)),
       mkCoord (a.x + 7 * ((b.x - a.x) / 8)) (a.y + 7 * ((b.y - a.y) / 8)),
       b] := by
  have hr : List.range (SLICE_XAXIS_COORDS - 1).toNat = [0, 1, 2, 3, 4, 5, 6] := by decide
  unfold sliceLegend
  simp only [hr]
  simp only [List.foldl_cons, List.foldl_nil, List.nil_append, List.dropLast,
    List.getD_cons_zero, List.getD_cons_succ, List.cons_append, SLICE_XAXIS_COORDS]
  norm_num

lemma interpolateSliceGraph_line (g : Grid) (p : Pass) (sliceData : Int → ℚ) (sdsize : Int) :
    (interpolateSliceGraph g p sliceData sdsize).pass.lineStart = (orderLine p).lineStart ∧
    (interpolateSliceGraph g p sliceData sdsize).pass.lineEnd = (orderLine p).lineEnd := by
  unfold interpolateSliceGraph
  simp only
  split_ifs <;> exact ⟨rfl, rfl⟩

/-- C21: on a consistent grid (`recSize = numRows * numCols`, at least one row and one
column) a call of `interpolateSliceGraph` that finds the tick vector empty leaves
exactly 9 ticks in it: tick `j` is `lineStart + j * (lineEnd - lineStart) / 8` for
`j = 0, ..., 8` on the line as the call leaves it (the canonicalised line), tick 0 is
`lineStart` and tick 8 is `lineEnd` (the stored points themselves). The field, the
output array and the step count `N` are arbitrary. -/
theorem sliceLegend_nine_ticks (g : Grid) (p : Pass)
    (hrec : g.recSize = g.numRows * g.numCols) (hr : 1 ≤ g.numRows) (hc : 1 ≤ g.numCols)
    (sliceData : Int → ℚ) (sdsize : Int) (hempty : p.sliceLegendCoords = []) :
    (interpolateSliceGraph g p sliceData sdsize).pass.sliceLegendCoords.length = 9 ∧
    (∀ j : Nat, j ≤ 8 →
      ((interpolateSliceGraph g p sliceData sdsize).pass.sliceLegendCoords.getD j
          (mkCoord 0 0)).x =
        (orderLine p).lineStart.x +
          (j : ℚ) * ((orderLine p).lineEnd.x - (orderLine p).lineStart.x) / 8 ∧
      ((interpolateSliceGraph g p sliceData sdsize).pass.sliceLegendCoords.getD j
          (mkCoord 0 0)).y =
        (orderLine p).lineStart.y +
          (j : ℚ) * ((orderLine p).lineEnd.y - (orderLine p).lineStart.y) / 8) ∧
    (interpolateSliceGraph g p sliceData sdsize).pass.sliceLegendCoords.getD 0 (mkCoord 0 0) =
      (orderLine p).lineStart ∧
    (interpolateSliceGraph g p sliceData sdsize).pass.sliceLegendCoords.getD 8 (mkCoord 0 0) =
      (orderLine p).lineEnd ∧
    (interpolateSliceGraph g p sliceData sdsize).pass.lineStart = (orderLine p).lineStart ∧
    (interpolateSliceGraph g p sliceData sdsize).pass.lineEnd = (orderLine p).lineEnd := by
  obtain ⟨ht, hs, he, -⟩ := interpolateSliceGraph_pass g p hrec hr hc sliceData sdsize
  have hl : (orderLine p).sliceLegendCoords = [] := by
    unfold orderLine
    split_ifs
    · exact hempty
    · exact hempty
  rw [hl, sliceLegend_nil] at ht
  rw [ht]
  refine ⟨rfl, ?_, rfl, rfl, hs, he⟩
  intro j hj
  interval_cases j <;> refine ⟨?_, ?_⟩ <;>
    simp only [List.getD_cons_zero, List.getD_cons_succ, mkCoord] <;> push_cast <;> ring

/-- Witness of C21: on the 4x4 grid, with `N = 0` and a line drawn from right to
left. -/
theorem sliceLegend_nine_ticks_witness :
    unitGrid.recSize = unitGrid.numRows * unitGrid.numCols ∧
    (1 : Int) ≤ unitGrid.numRows ∧ (1 : Int) ≤ unitGrid.numCols ∧
    emptyPass.sliceLegendCoords = [] ∧
    (interpolateSliceGraph unitGrid emptyPass (fun _ => 0) 0).pass.sliceLegendCoords.length
      = 9 :=
  ⟨by decide, by decide, by decide, rfl,
    (sliceLegend_nine_ticks unitGrid emptyPass (by decide) (by decide) (by decide)
      (fun _ => 0) 0 rfl).1⟩

/-- C22: the exchange of the endpoints. After `interpolateSliceGraph` the line has
`lineStart.x <= lineEnd.x`; `lineStart` and `lineEnd` are exchanged as whole points
when `lineStart.x > lineEnd.x` on entry and are those of the entry otherwise (also
when the two abscissas are equal); the exchange applied to its own result changes
nothing, and a second call leaves the endpoints of the first. -/
theorem interpolateSliceGraph_orders_line (g : Grid) (p : Pass) (sliceData : Int → ℚ)
    (sdsize : Int) :
    (interpolateSliceGraph g p sliceData sdsize).pass.lineStart.x ≤
      (interpolateSliceGraph g p sliceData sdsize).pass.lineEnd.x ∧
    (interpolateSliceGraph g p sliceData sdsize).pass.lineStart =
      (if p.lineStart.x > p.lineEnd.x then p.lineEnd else p.lineStart) ∧
    (interpolateSliceGraph g p sliceData sdsize).pass.lineEnd =
      (if p.lineStart.x > p.lineEnd.x then p.lineStart else p.lineEnd) ∧
    orderLine (orderLine p) = orderLine p ∧
    (interpolateSliceGraph g (interpolateSliceGraph g p sliceData sdsize).pass
        sliceData sdsize).pass.lineStart =
      (interpolateSliceGraph g p sliceData sdsize).pass.lineStart ∧
    (interpolateSliceGraph g (interpolateSliceGraph g p sliceData sdsize).pass
        sliceData sdsize).pass.lineEnd =
      (interpolateSliceGraph g p sliceData sdsize).pass.lineEnd := by
  obtain ⟨hs, he⟩ := interpolateSliceGraph_line g p sliceData sdsize
  obtain ⟨hs2, he2⟩ := interpolateSliceGraph_line g
    (interpolateSliceGraph g p sliceData sdsize).pass sliceData sdsize
  have hs0 : (orderLine p).lineStart =
      (if p.lineStart.x > p.lineEnd.x then p.lineEnd else p.lineStart) := by
    unfold orderLine
    split_ifs <;> rfl
  have he0 : (orderLine p).lineEnd =
      (if p.lineStart.x > p.lineEnd.x then p.lineStart else p.lineEnd) := by
    unfold orderLine
    split_ifs <;> rfl
  have hle : (orderLine p).lineStart.x ≤ (orderLine p).lineEnd.x := by
    rw [hs0, he0]
    split_ifs with h
    · exact h.le
    · exact not_lt.mp h
  have hle1 : (interpolateSliceGraph g p sliceData sdsize).pass.lineStart.x ≤
      (interpolateSliceGraph g p sliceData sdsize).pass.lineEnd.x := by
    rw [hs, he]
    exact hle
  have ho := orderLine_of_le _ hle1
  rw [ho] at hs2 he2
  exact ⟨hle1, hs.trans hs0, he.trans he0, orderLine_orderLine p, hs2, he2⟩

/-! ## The number of samples -/

lemma calcDistanceSq_nonneg (x1 y1 x2 y2 : ℚ) : 0 ≤ calcDistanceSq x1 y1 x2 y2 := by
  unfold calcDistanceSq
  positivity

/-- The integer part of the square root of a nonnegative rational is the integer square
root of its integer part. -/
lemma floor_sqrt_eq (q : ℚ) (hq : 0 ≤ q) :
    ⌊Real.sqrt ((q : ℚ) : ℝ)⌋ = ((Nat.sqrt ⌊q⌋.toNat : Nat) : Int) := by
  have hfl : (0 : Int) ≤ ⌊q⌋ := Int.floor_nonneg.mpr hq
  have hm : ((⌊q⌋.toNat : Nat) : Int) = ⌊q⌋ := Int.toNat_of_nonneg hfl
  have hmq : ((⌊q⌋.toNat : Nat) : ℝ) ≤ (q : ℝ) := by
    have h1 : ((⌊q⌋ : Int) : ℚ) ≤ q := Int.floor_le q
    have h2 : (((⌊q⌋.toNat : Nat) : Int) : ℚ) ≤ q := by rw [hm]; exact h1
    have h3 : (((⌊q⌋.toNat : Nat) : ℚ) : ℝ) ≤ (q : ℝ) := by
      exact_mod_cast h2
    exact_mod_cast h3
  have hqm : (q : ℝ) < ((⌊q⌋.toNat : Nat) : ℝ) + 1 := by
    have h1 : q < ((⌊q⌋ : Int) : ℚ) + 1 := Int.lt_floor_add_one q
    have h2 : q < (((⌊q⌋.toNat : Nat) : Int) : ℚ) + 1 := by rw [hm]; exact h1
    have h3 : (q : ℝ) < (((⌊q⌋.toNat : Nat) : ℚ) : ℝ) + 1 := by
      exact_mod_cast h2
    exact_mod_cast h3
  set m : Nat := ⌊q⌋.toNat with hmdef
  have hs1 : Nat.sqrt m ^ 2 ≤ m := Nat.sqrt_le' m
  have hs2 : m < (Nat.sqrt m + 1) ^ 2 := Nat.lt_succ_sqrt' m
  have hs1r : ((Nat.sqrt m : Nat) : ℝ) ^ 2 ≤ (m : ℝ) := by exact_mod_cast hs1
  have hs2r : (m : ℝ) + 1 ≤ (((Nat.sqrt m : Nat) : ℝ) + 1) ^ 2 := by
    have : m + 1 ≤ (Nat.sqrt m + 1) ^ 2 := hs2
    exact_mod_cast this
  rw [Int.floor_eq_iff]
  constructor
  · have : ((Nat.sqrt m : Nat) : ℝ) ≤ Real.sqrt (q : ℝ) :=
      Real.le_sqrt_of_sq_le (le_trans hs1r hmq)
    exact_mod_cast this
  · have hpos : (0 : ℝ) < ((Nat.sqrt m : Nat) : ℝ) + 1 := by positivity
    have : Real.sqrt (q : ℝ) < ((Nat.sqrt m : Nat) : ℝ) + 1 := by
      rw [Real.sqrt_lt' hpos]
      exact lt_of_lt_of_le hqm hs2r
    exact_mod_cast this

/-- C23: `calcSliceSteps` sets the number of samples to the integer part of the
Euclidean distance between the two screen points when that distance is at most
`1000`, and to `1000` otherwise; so the number of samples lies between `0` and
`1000` for every pair of screen points. -/
theorem calcSliceSteps_integer_part (screenStart screenEnd : coord_t) :
    calcSliceSteps screenStart screenEnd =
      (if Real.sqrt (((calcDistanceSq screenStart.x screenStart.y screenEnd.x screenEnd.y
            : ℚ)) : ℝ) ≤ 1000
        then ⌊Real.sqrt (((calcDistanceSq screenStart.x screenStart.y screenEnd.x screenEnd.y
            : ℚ)) : ℝ)⌋
        else 1000) ∧
    0 ≤ calcSliceSteps screenStart screenEnd ∧ calcSliceSteps screenStart screenEnd ≤ 1000 := by
  have hq := calcDistanceSq_nonneg screenStart.x screenStart.y screenEnd.x screenEnd.y
  unfold calcSliceSteps
  simp only
  generalize calcDistanceSq screenStart.x screenStart.y screenEnd.x screenEnd.y = q at hq
  have hiff : Real.sqrt ((q : ℚ) : ℝ) ≤ 1000 ↔ q ≤ 1000 ^ 2 := by
    rw [Real.sqrt_le_left (by norm_num)]
    constructor
    · intro h
      exact_mod_cast h
    · intro h
      exact_mod_cast h
  by_cases h : q ≤ 1000 ^ 2
  · rw [if_pos h, if_pos (hiff.mpr h), floor_sqrt_eq q hq]
    refine ⟨rfl, Int.natCast_nonneg _, ?_⟩
    have hfl : (0 : Int) ≤ ⌊q⌋ := Int.floor_nonneg.mpr hq
    have h1 : ⌊q⌋ ≤ 1000 ^ 2 := by
      have : ((⌊q⌋ : Int) : ℚ) ≤ ((1000 ^ 2 : Int) : ℚ) := by
        push_cast
        exact le_trans (Int.floor_le q) h
      exact_mod_cast this
    have h2 : ⌊q⌋.toNat < 1001 ^ 2 := by omega
    have h3 : Nat.sqrt ⌊q⌋.toNat < 1001 := Nat.sqrt_lt'.mpr h2
    omega
  · rw [if_neg h, if_neg (fun hh => h (hiff.mp hh))]
    exact ⟨rfl, by norm_num, le_refl _⟩

/-! ## Termination and the work of a pass -/

lemma findFirstCellCounted_cols (g : Grid) (x y : ℚ) (row : Nat) (l : List Nat) :
    ∀ acc : Option Int × Nat,
      (l.foldl
        (fun (acc : Option Int × Nat) (k : Nat) =>
          match acc.1 with
          | some _ => acc
          | none =>
            let col : Int := 2 * (k : Int)
            let i := (row : Int) * (g.numCols * 2) + col
            (if findFirstCellBody g x y i then some i else none, acc.2 + 1)) acc).1 =
        (match acc.1 with
          | some i => some i
          | none => l.findSome? fun (k : Nat) =>
              let col : Int := 2 * (k : Int)
              let i := (row : Int) * (g.numCols * 2) + col
              if findFirstCellBody g x y i then some i else none) ∧
      (l.foldl
        (fun (acc : Option Int × Nat) (k : Nat) =>
          match acc.1 with
          | some _ => acc
          | none =>
            let col : Int := 2 * (k : Int)
            let i := (row : Int) * (g.numCols * 2) + col
            (if findFirstCellBody g x y i then some i else none, acc.2 + 1)) acc).2 ≤
        acc.2 + l.length := by
  induction l with
  | nil =>
    intro acc
    constructor
    · cases h : acc.1 <;> simp [h]
    · simp
  | cons k l ih =>
    intro acc
    rw [List.foldl_cons]
    obtain ⟨a1, a2⟩ := acc
    cases a1 with
    | some i =>
      have h := ih (some i, a2)
      simp only at h ⊢
      exact ⟨h.1, by rw [List.length_cons]; omega⟩
    | none =>
      simp only
      by_cases hb : findFirstCellBody g x y ((row : Int) * (g.numCols * 2) + 2 * (k : Int)) = true
      · have h := ih (some ((row : Int) * (g.numCols * 2) + 2 * (k : Int)), a2 + 1)
        simp only [hb, if_true] at h ⊢
        refine ⟨?_, by rw [List.length_cons]; omega⟩
        rw [h.1, List.findSome?_cons]
        simp only [hb, if_true]
      · have hb1 : findFirstCellBody g x y ((row : Int) * (g.numCols * 2) + 2 * (k : Int))
            = false := by simpa using hb
        have h := ih (none, a2 + 1)
        simp only [hb1, Bool.false_eq_true, if_false] at h ⊢
        refine ⟨?_, by rw [List.length_cons]; omega⟩
        rw [h.1, List.findSome?_cons]
        simp only [hb1, Bool.false_eq_true, if_false]

lemma findFirstCellCounted_rows (g : Grid) (x y : ℚ) (l : List Nat) :
    ∀ acc : Option Int × Nat,
      (l.foldl
        (fun (acc : Option Int × Nat) (row : Nat) =>
          (List.range (g.numCols - 1).toNat).foldl
            (fun (acc : Option Int × Nat) (k : Nat) =>
              match acc.1 with
              | some _ => acc
              | none =>
                let col : Int := 2 * (k : Int)
                let i := (row : Int) * (g.numCols * 2) + col
                (if findFirstCellBody g x y i then some i else none, acc.2 + 1))
            acc) acc).1 =
        (match acc.1 with
          | some i => some i
          | none => l.findSome? fun (row : Nat) => findFirstCellCols g x y (row : Int)) ∧
      (l.foldl
        (fun (acc : Option Int × Nat) (row : Nat) =>
          (List.range (g.numCols - 1).toNat).foldl
            (fun (acc : Option Int × Nat) (k : Nat) =>
              match acc.1 with
              | some _ => acc
              | none =>
                let col : Int := 2 * (k : Int)
                let i := (row : Int) * (g.numCols * 2) + col
                (if findFirstCellBody g x y i then some i else none, acc.2 + 1))
            acc) acc).2 ≤
        acc.2 + l.length * (g.numCols - 1).toNat := by
  induction l with
  | nil =>
    intro acc
    constructor
    · cases h : acc.1 <;> simp [h]
    · simp
  | cons row l ih =>
    intro acc
    rw [List.foldl_cons]
    have hc := findFirstCellCounted_cols g x y row (List.range (g.numCols - 1).toNat) acc
    rw [List.length_range] at hc
    have h := ih ((List.range (g.numCols - 1).toNat).foldl
            (fun (acc : Option Int × Nat) (k : Nat) =>
              match acc.1 with
              | some _ => acc
              | none =>
                let col : Int := 2 * (k : Int)
                let i := (row : Int) * (g.numCols * 2) + col
                (if findFirstCellBody g x y i then some i else none, acc.2 + 1))
            acc)
    refine ⟨?_, ?_⟩
    · rw [h.1, hc.1]
      cases ha : acc.1 with
      | some i => rfl
      | none =>
        simp only [List.findSome?_cons]
        have e : findFirstCellCols g x y (row : Int) =
            (List.range (g.numCols - 1).toNat).findSome? fun (k : Nat) =>
              let col : Int := 2 * (k : Int)
              let i := (row : Int) * (g.numCols * 2) + col
              if findFirstCellBody g x y i then some i else none := rfl
        rw [← e]
        cases findFirstCellCols g x y (row : Int) <;> rfl
    · refine le_trans h.2 ?_
      rw [List.length_cons, Nat.succ_mul]
      omega

lemma findFirstCellCounted_spec (g : Grid) (x y : ℚ) :
    (findFirstCellCounted g x y).1 = findFirstCellScan g x y ∧
    (findFirstCellCounted g x y).2 ≤ (g.numRows - 1).toNat * (g.numCols - 1).toNat := by
  have h := findFirstCellCounted_rows g x y (List.range (g.numRows - 1).toNat) (none, 0)
  rw [List.length_range] at h
  unfold findFirstCellCounted findFirstCellScan
  refine ⟨h.1, ?_⟩
  have := h.2
  simpa using this

lemma nextInterpolationPointCounted_spec (g : Grid) (x y : ℚ) (n : Nat) :
    ∀ (index level : Int), (11 - level).toNat = n →
      (nextInterpolationPointCounted g x y index level).1 =
        nextInterpolationPoint g x y index level ∧
      (nextInterpolationPointCounted g x y index level).2.insideCellTests ≤ n ∧
      (nextInterpolationPointCounted g x y index level).2.findFirstCellCalls ≤ 1 ∧
      (nextInterpolationPointCounted g x y index level).2.cellsExamined ≤
        (g.numRows - 1).toNat * (g.numCols - 1).toNat := by
  induction n with
  | zero =>
    intro index level hl
    have h10 : level > 10 := by omega
    rw [nextInterpolationPointCounted, nextInterpolationPoint]
    simp only [h10, if_true]
    exact ⟨trivial, le_refl _, le_refl _, (findFirstCellCounted_spec g x y).2⟩
  | succ n ih =>
    intro index level hl
    have h10 : ¬ level > 10 := by omega
    rw [nextInterpolationPointCounted, nextInterpolationPoint]
    simp only [h10, if_false]
    cases hr : indexOutOfRange g index with
    | true =>
      simp only [if_true]
      exact ⟨trivial, Nat.zero_le _, Nat.zero_le _, Nat.zero_le _⟩
    | false =>
      simp only [Bool.false_eq_true, if_false]
      cases hi : (insideCell g x y index).1 with
      | true =>
        simp only [if_true]
        exact ⟨trivial, by omega, Nat.zero_le _, Nat.zero_le _⟩
      | false =>
        simp only [Bool.false_eq_true, if_false]
        obtain ⟨e1, e2, e3, e4⟩ := ih (insideCell g x y index).2 (level + 1) (by omega)
        refine ⟨e1, ?_, ?_, ?_⟩
        · simp only [Work.add]
          omega
        · simp only [Work.add]
          omega
        · simp only [Work.add]
          omega

lemma sliceStepWork_le (g : Grid) (x y : ℚ) (cur : Cursor) :
    (sliceStepWork g x y cur).insideCellTests ≤ 10 ∧
    (sliceStepWork g x y cur).findFirstCellCalls ≤ 2 ∧
    (sliceStepWork g x y cur).cellsExamined ≤
      2 * ((g.numRows - 1).toNat * (g.numCols - 1).toNat) := by
  unfold sliceStepWork
  simp only
  generalize (if (!cur.insideGraph) = true then (findFirstCell g x y cur.index).2
    else cur.index) = index1
  obtain ⟨-, e2, e3, e4⟩ := nextInterpolationPointCounted_spec g x y 10 index1 1 (by decide)
  have hf := (findFirstCellCounted_spec g x y).2
  cases cur.insideGraph
  · simp only [Bool.not_false, if_true, Work.add]
    refine ⟨by omega, by omega, by omega⟩
  · simp only [Bool.not_true, Bool.false_eq_true, if_false, Work.add]
    refine ⟨by omega, by omega, by omega⟩

lemma sliceLoopWork_le (g : Grid) (p : Pass) (n : Nat) :
    ∀ (sliceStep : Int) (cur : Cursor),
      (sliceLoopWork g p n sliceStep cur).1 ≤ n ∧
      (sliceLoopWork g p n sliceStep cur).2.insideCellTests ≤ 10 * n ∧
      (sliceLoopWork g p n sliceStep cur).2.findFirstCellCalls ≤ 2 * n ∧
      (sliceLoopWork g p n sliceStep cur).2.cellsExamined ≤
        2 * n * ((g.numRows - 1).toNat * (g.numCols - 1).toNat) := by
  induction n with
  | zero =>
    intro sliceStep cur
    simp [sliceLoopWork]
  | succ n ih =>
    intro sliceStep cur
    obtain ⟨w1, w2, w3⟩ :=
      sliceStepWork_le g (samplePoint p sliceStep).1 (samplePoint p sliceStep).2 cur
    rw [sliceLoopWork]
    cases hs : sliceStepAt g p (samplePoint p sliceStep).1 (samplePoint p sliceStep).2 cur with
    | none =>
      simp only
      refine ⟨by omega, by omega, by omega, ?_⟩
      have : 2 * (n + 1) * ((g.numRows - 1).toNat * (g.numCols - 1).toNat) =
          2 * n * ((g.numRows - 1).toNat * (g.numCols - 1).toNat) +
            2 * ((g.numRows - 1).toNat * (g.numCols - 1).toNat) := by ring
      omega
    | some r =>
      obtain ⟨cur1, v⟩ := r
      obtain ⟨i1, i2, i3, i4⟩ := ih (sliceStep + 1) cur1
      simp only [Work.add]
      refine ⟨by omega, by omega, by omega, ?_⟩
      have : 2 * (n + 1) * ((g.numRows - 1).toNat * (g.numCols - 1).toNat) =
          2 * n * ((g.numRows - 1).toNat * (g.numCols - 1).toNat) +
            2 * ((g.numRows - 1).toNat * (g.numCols - 1).toNat) := by ring
      omega

/-- C24: `nextInterpolationPoint` is a total function (its recursion decreases
`11 - level`). With the counters of `nextInterpolationPointCounted`, which returns the
same result: a call at level `level` makes at most `11 - level` calls of `insideCell`
(at most 10 when started at level 1) and at most one call of `findFirstCell`;
`findFirstCell`, whose counted loops compute the same offset, examines at most
`(numRows - 1) * (numCols - 1)` cells (each factor taken as `0` when negative); and a
pass of `N = totalSliceSteps` steps runs at most `N` iterations, which make at most
`10 * N` calls of `insideCell` and `2 * N` calls of `findFirstCell` in all. -/
theorem nextInterpolationPoint_bounded_work (g : Grid) (p : Pass) (x y : ℚ)
    (index level : Int) :
    (nextInterpolationPointCounted g x y index level).1 =
      nextInterpolationPoint g x y index level ∧
    (nextInterpolationPointCounted g x y index level).2.insideCellTests ≤ (11 - level).toNat ∧
    (nextInterpolationPointCounted g x y index 1).2.insideCellTests ≤ 10 ∧
    (nextInterpolationPointCounted g x y index level).2.findFirstCellCalls ≤ 1 ∧
    (nextInterpolationPointCounted g x y index level).2.cellsExamined ≤
      (g.numRows - 1).toNat * (g.numCols - 1).toNat ∧
    (findFirstCellCounted g x y).1 = findFirstCellScan g x y ∧
    (findFirstCellCounted g x y).2 ≤ (g.numRows - 1).toNat * (g.numCols - 1).toNat ∧
    (interpolateSliceGraphWork g p).1 ≤ p.totalSliceSteps.toNat ∧
    (interpolateSliceGraphWork g p).2.insideCellTests ≤ 10 * p.totalSliceSteps.toNat ∧
    (interpolateSliceGraphWork g p).2.findFirstCellCalls ≤ 2 * p.totalSliceSteps.toNat ∧
    (interpolateSliceGraphWork g p).2.cellsExamined ≤
      2 * p.totalSliceSteps.toNat * ((g.numRows - 1).toNat * (g.numCols - 1).toNat) := by
  obtain ⟨a1, a2, a3, a4⟩ := nextInterpolationPointCounted_spec g x y _ index level rfl
  obtain ⟨-, b2, -, -⟩ := nextInterpolationPointCounted_spec g x y 10 index 1 (by decide)
  obtain ⟨c1, c2⟩ := findFirstCellCounted_spec g x y
  have hN := orderLine_totalSliceSteps p
  have d := sliceLoopWork_le g (orderLine p) (orderLine p).totalSliceSteps.toNat 0 ⟨0, false⟩
  rw [hN] at d
  unfold interpolateSliceGraphWork
  rw [hN]
  exact ⟨a1, a2, b2, a3, a4, c1, c2, d.1, d.2.1, d.2.2.1, d.2.2.2⟩

/-! ## The daily difference -/

lemma zeroFill_apply (a : Int → ℚ) (n : Nat) (j : Int) :
    ((List.range n).foldl
      (fun (a : Int → ℚ) (k : Nat) => fun j => if j = (k : Int) then 0 else a j) a) j =
      if 0 ≤ j ∧ j < (n : Int) then 0 else a j := by
  induction n with
  | zero =>
    have : ¬ (0 ≤ j ∧ j < ((0 : Nat) : Int)) := by push_cast; omega
    simp only [List.range_zero, List.foldl_nil, this, if_false]
  | succ n ih =>
    rw [List.range_succ, List.foldl_append, List.foldl_cons, List.foldl_nil]
    simp only [ih]
    by_cases hj : j = (n : Int)
    · have : 0 ≤ j ∧ j < ((n + 1 : Nat) : Int) := by push_cast; omega
      simp only [hj, if_true]
      rw [if_pos (by push_cast; omega)]
    · simp only [hj, if_false]
      by_cases h : 0 ≤ j ∧ j < (n : Int)
      · rw [if_pos h, if_pos (by push_cast; omega)]
      · rw [if_neg h, if_neg (by push_cast; omega)]

lemma sliceCoords_foldl_odd (sc : Int → ℚ) (a b : Nat → ℚ) (n : Nat) (i : Nat) (hi : i < n) :
    ((List.range n).foldl
      (fun (sc : Int → ℚ) (k : Nat) => fun j =>
        if j = 2 * (k : Int) + 1 then b k else if j = 2 * (k : Int) then a k else sc j) sc)
      (2 * (i : Int) + 1) = b i := by
  induction n with
  | zero => omega
  | succ n ih =>
    rw [List.range_succ, List.foldl_append, List.foldl_cons, List.foldl_nil]
    by_cases hin : i = n
    · subst hin
      simp only [if_true]
    · have h1 : ¬ (2 * (i : Int) + 1 = 2 * (n : Int) + 1) := by omega
      have h2 : ¬ (2 * (i : Int) + 1 = 2 * (n : Int)) := by omega
      simp only [h1, h2, if_false]
      exact ih (by omega)

lemma computeSliceCoords_y (v : View) (h4 : 4 ≤ v.weatherAttrNum)
    (h7 : v.weatherAttrNum ≤ 7) (T : Int) (sc : Int → ℚ) (N : Int)
    (sliceData prev : Int → ℚ) (i : Nat) (hi : (i : Int) < N) :
    computeSliceCoords v T sc (2 * N) sliceData prev (2 * (i : Int) + 1) =
      SLICE_GRAPH_HEIGHT / v.weatherAttrMax v.weatherAttrNum * sliceData i -
        (if T = 0 then 0
          else SLICE_GRAPH_HEIGHT / v.weatherAttrMax v.weatherAttrNum * prev i) := by
  have hN : (2 * N).tdiv 2 = N := even_tdiv_two N
  have hlt : i < N.toNat := by omega
  have hA : ¬ (v.weatherAttrNum ≥ ATTR_MIN ∧ v.weatherAttrNum < 4) := by
    intro h
    omega
  have hB : v.weatherAttrNum ≥ 4 ∧ v.weatherAttrNum ≤ ATTR_MAX := ⟨h4, h7⟩
  unfold computeSliceCoords
  simp only [hN, hA, hB, if_false, if_true]
  exact sliceCoords_foldl_odd sc
    (fun k => ((((k : Int) : ℚ)) / (N : ℚ)) * SLICE_GRAPH_WIDTH)
    (fun k => SLICE_GRAPH_HEIGHT / v.weatherAttrMax v.weatherAttrNum * sliceData (k : Int) -
      (if T = 0 then 0
        else SLICE_GRAPH_HEIGHT / v.weatherAttrMax v.weatherAttrNum * prev (k : Int)))
    N.toNat i hlt

lemma orderLine_ordered (p : Pass) : (orderLine p).lineStart.x ≤ (orderLine p).lineEnd.x := by
  unfold orderLine
  split_ifs with h
  · exact h.le
  · exact not_lt.mp h

/-- C25: the daily difference. On a consistent grid and for a daily attribute
(`4 <= weatherAttrNum <= 7`), `redraw2` fills `sliceData` by one call of the sampler at
the current timestep; for `currentTimeStep = 0` the first `N` entries of
`prevSliceData` are zero, otherwise `prevSliceData` is filled by a call of the sampler
with `currentTimeStep - 1`; each of the two vectors holds the values of the sampler at
its own timestep (absolute values); `currentTimeStep` has its original value at the
end; and the ordinate handed to the drawing call for step `i` is
`(SLICE_GRAPH_HEIGHT / max) * (sliceData[i] - prevSliceData[i])`. -/
theorem redraw2_daily_difference (g : Grid) (p : Pass) (v : View)
    (sliceData prevSliceData sliceCoords : Int → ℚ)
    (hrec : g.recSize = g.numRows * g.numCols) (hr : 1 ≤ g.numRows) (hc : 1 ≤ g.numCols)
    (h4 : 4 ≤ v.weatherAttrNum) (h7 : v.weatherAttrNum ≤ 7) :
    (redraw2 g p v sliceData prevSliceData sliceCoords).sliceData =
      (interpolateSliceGraph g p sliceData p.totalSliceSteps).sliceData ∧
    (∀ k : Nat, (k : Int) < p.totalSliceSteps →
      (redraw2 g p v sliceData prevSliceData sliceCoords).sliceData (k : Int) =
        samplerOutput g (orderLine p) k) ∧
    (p.currentTimeStep = 0 → ∀ k : Nat, (k : Int) < p.totalSliceSteps →
      (redraw2 g p v sliceData prevSliceData sliceCoords).prevSliceData (k : Int) = 0) ∧
    (p.currentTimeStep ≠ 0 →
      (redraw2 g p v sliceData prevSliceData sliceCoords).prevSliceData =
        (interpolateSliceGraph g
          (atTimeStep (interpolateSliceGraph g p sliceData p.totalSliceSteps).pass
            (p.currentTimeStep - 1))
          prevSliceData p.totalSliceSteps).sliceData ∧
      ∀ k : Nat, (k : Int) < p.totalSliceSteps →
        (redraw2 g p v sliceData prevSliceData sliceCoords).prevSliceData (k : Int) =
          samplerOutput g (atTimeStep (orderLine p) (p.currentTimeStep - 1)) k) ∧
    (redraw2 g p v sliceData prevSliceData sliceCoords).pass.currentTimeStep =
      p.currentTimeStep ∧
    (∀ i : Nat, (i : Int) < p.totalSliceSteps →
      (redraw2 g p v sliceData prevSliceData sliceCoords).sliceCoords (2 * (i : Int) + 1) =
        SLICE_GRAPH_HEIGHT / v.weatherAttrMax v.weatherAttrNum *
          ((redraw2 g p v sliceData prevSliceData sliceCoords).sliceData (i : Int) -
            (redraw2 g p v sliceData prevSliceData sliceCoords).prevSliceData (i : Int))) := by
  have hA : ¬ (v.weatherAttrNum ≥ ATTR_MIN ∧ v.weatherAttrNum < 4) := by
    intro h
    omega
  have hB : v.weatherAttrNum ≥ 4 ∧ v.weatherAttrNum ≤ ATTR_MAX := ⟨h4, h7⟩
  obtain ⟨-, hs1, he1, hN1, hw1, hT1⟩ :=
    interpolateSliceGraph_pass g p hrec hr hc sliceData p.totalSliceSteps
  obtain ⟨-, hv1⟩ := interpolateSliceGraph_refines g p hrec hr hc sliceData p.totalSliceSteps
  rw [orderLine_totalSliceSteps] at hv1
  have hcur : ∀ k : Nat, (k : Int) < p.totalSliceSteps →
      (interpolateSliceGraph g p sliceData p.totalSliceSteps).sliceData (k : Int) =
        samplerOutput g (orderLine p) k := by
    intro k hk
    rw [hv1, if_pos ⟨by omega, by omega⟩, Int.toNat_ofNat]
  unfold redraw2
  simp only [hA, hB, and_self, if_false, if_true, hT1, hN1]
  generalize interpolateSliceGraph g p sliceData p.totalSliceSteps = r1 at *
  by_cases hT : p.currentTimeStep = 0
  · rw [if_pos hT]
    have hz : ∀ k : Nat, (k : Int) < p.totalSliceSteps →
        zeroFill prevSliceData p.totalSliceSteps (k : Int) = 0 := by
      intro k hk
      unfold zeroFill
      rw [zeroFill_apply, if_pos ⟨by omega, by omega⟩]
    refine ⟨rfl, hcur, fun _ => hz, fun h => absurd hT h, hT1, ?_⟩
    intro i hi
    dsimp only
    rw [computeSliceCoords_y v h4 h7 _ _ _ _ _ i hi, hz i hi, if_pos hT]
    ring
  · rw [if_neg hT]
    have hp2T : (atTimeStep r1.pass (p.currentTimeStep - 1)).totalSliceSteps
        = p.totalSliceSteps := hN1
    obtain ⟨-, -, -, hN2, -, hT2⟩ :=
      interpolateSliceGraph_pass g (atTimeStep r1.pass (p.currentTimeStep - 1)) hrec hr hc
        prevSliceData p.totalSliceSteps
    obtain ⟨-, hv2⟩ := interpolateSliceGraph_refines g
      (atTimeStep r1.pass (p.currentTimeStep - 1)) hrec hr hc prevSliceData p.totalSliceSteps
    rw [orderLine_totalSliceSteps, hp2T] at hv2
    have hord : orderLine (atTimeStep r1.pass (p.currentTimeStep - 1)) =
        atTimeStep r1.pass (p.currentTimeStep - 1) := by
      apply orderLine_of_le
      show r1.pass.lineStart.x ≤ r1.pass.lineEnd.x
      rw [hs1, he1]
      exact orderLine_ordered p
    rw [hord] at hv2
    have hsame : SameSamplingInputs (atTimeStep r1.pass (p.currentTimeStep - 1))
        (atTimeStep (orderLine p) (p.currentTimeStep - 1)) :=
      ⟨hw1.trans (by unfold orderLine; split_ifs <;> rfl), rfl,
        hN1.trans (orderLine_totalSliceSteps p).symm, hs1, he1⟩
    have hprev : ∀ k : Nat, (k : Int) < p.totalSliceSteps →
        (interpolateSliceGraph g (atTimeStep r1.pass (p.currentTimeStep - 1)) prevSliceData
          p.totalSliceSteps).sliceData (k : Int) =
          samplerOutput g (atTimeStep (orderLine p) (p.currentTimeStep - 1)) k := by
      intro k hk
      rw [hv2, if_pos ⟨by omega, by omega⟩, Int.toNat_ofNat]
      exact samplerOutput_congr g _ _ hsame k
    have e1 : (atTimeStep r1.pass (p.currentTimeStep - 1)).totalSliceSteps
        = p.totalSliceSteps := hN1
    simp only [e1]
    generalize interpolateSliceGraph g (atTimeStep r1.pass (p.currentTimeStep - 1))
      prevSliceData p.totalSliceSteps = r2 at *
    have hT3 : (atTimeStep r2.pass (r2.pass.currentTimeStep + 1)).currentTimeStep
        = p.currentTimeStep := by
      show r2.pass.currentTimeStep + 1 = p.currentTimeStep
      rw [hT2]
      show p.currentTimeStep - 1 + 1 = p.currentTimeStep
      ring
    refine ⟨trivial, hcur, fun h => absurd h hT, fun _ => ⟨trivial, hprev⟩, hT3, ?_⟩
    intro i hi
    rw [hT3, computeSliceCoords_y v h4 h7 _ _ _ _ _ i hi, if_neg hT]
    ring

/-- Witness of C25: on the 4x4 grid, the line of the first concrete scenario and the
daily attribute `4`, `currentTimeStep` is `0` after `redraw2` as it was before. -/
theorem redraw2_daily_difference_witness :
    unitGrid.recSize = unitGrid.numRows * unitGrid.numCols ∧
    (1 : Int) ≤ unitGrid.numRows ∧ (1 : Int) ≤ unitGrid.numCols ∧
    (4 : Int) ≤ dailyView.weatherAttrNum ∧ dailyView.weatherAttrNum ≤ 7 ∧
    (redraw2 unitGrid diagonalPass dailyView (fun _ => 0) (fun _ => 0)
      (fun _ => 0)).pass.currentTimeStep = diagonalPass.currentTimeStep :=
  ⟨by decide, by decide, by decide, by decide, by decide,
    (redraw2_daily_difference unitGrid diagonalPass dailyView (fun _ => 0) (fun _ => 0)
      (fun _ => 0) (by decide) (by decide) (by decide) (by decide) (by decide)).2.2.2.2.1⟩

/-! ## The parametric comparison of `aboveOrBelowLine` -/

lemma aboveOrBelowLineTraced_snd (a b c : coord_t) :
    (aboveOrBelowLineTraced a b c).2 = false := by
  unfold aboveOrBelowLineTraced
  by_cases hx : a.x = b.x
  · simp [hx]
  · by_cases hy : a.y = b.y
    · simp only [ne_eq, hx, hy, not_false_eq_true, if_true, not_true_eq_false, if_false]
      rcases lt_trichotomy c.y b.y with h | h | h
      · simp [ne_of_lt h, h]
      · simp [h]
      · simp [ne_of_gt h, h, not_lt.mpr h.le]
    · simp only [ne_eq, hx, hy, not_false_eq_true, if_true]
      generalize (c.x - a.x) / (b.x - a.x) = tx
      generalize (c.y - a.y) / (b.y - a.y) = ty
      rcases lt_trichotomy tx ty with h3 | h3 | h3
      · rcases lt_or_gt_of_ne hy with h | h
        · simp [ne_of_lt h3, h, h3, not_lt.mpr h3.le]
        · simp [ne_of_lt h3, h, h3, not_lt.mpr h.le]
      · simp [h3]
      · rcases lt_or_gt_of_ne hy with h | h
        · simp [ne_of_gt h3, h, h3]
        · simp [ne_of_gt h3, h, h3, not_lt.mpr h.le, not_lt.mpr h3.le]

/-- C26: the `unreachable` statements of `aboveOrBelowLine` are reached for no `a`,
`b`, `c`; and for `a.x != b.x`, `a.y != b.y`, with `tx = (c.x - a.x) / (b.x - a.x)` and
`ty = (c.y - a.y) / (b.y - a.y)`, the function returns `ON_LINE` exactly when
`tx = ty`; when `a.y < b.y` it returns `BELOW_LINE` for `tx > ty` and `ABOVE_LINE` for
`tx < ty`; when `a.y > b.y` it returns `BELOW_LINE` for `tx < ty` and `ABOVE_LINE` for
`tx > ty`. -/
theorem aboveOrBelowLine_parametric (a b c : coord_t) :
    (aboveOrBelowLineTraced a b c).2 = false ∧
    (a.x ≠ b.x → a.y ≠ b.y →
      (aboveOrBelowLine a b c = ON_LINE ↔
        (c.x - a.x) / (b.x - a.x) = (c.y - a.y) / (b.y - a.y)) ∧
      (a.y < b.y →
        ((c.x - a.x) / (b.x - a.x) > (c.y - a.y) / (b.y - a.y) →
          aboveOrBelowLine a b c = BELOW_LINE) ∧
        ((c.x - a.x) / (b.x - a.x) < (c.y - a.y) / (b.y - a.y) →
          aboveOrBelowLine a b c = ABOVE_LINE)) ∧
      (a.y > b.y →
        ((c.x - a.x) / (b.x - a.x) < (c.y - a.y) / (b.y - a.y) →
          aboveOrBelowLine a b c = BELOW_LINE) ∧
        ((c.x - a.x) / (b.x - a.x) > (c.y - a.y) / (b.y - a.y) →
          aboveOrBelowLine a b c = ABOVE_LINE))) := by
  refine ⟨aboveOrBelowLineTraced_snd a b c, fun hx hy => ?_⟩
  unfold aboveOrBelowLine aboveOrBelowLineTraced
  simp only [ne_eq, hx, hy, not_false_eq_true, if_true]
  generalize (c.x - a.x) / (b.x - a.x) = tx
  generalize (c.y - a.y) / (b.y - a.y) = ty
  refine ⟨⟨fun h => ?_, fun h => ?_⟩, fun h => ⟨fun h3 => ?_, fun h3 => ?_⟩,
    fun h => ⟨fun h3 => ?_, fun h3 => ?_⟩⟩
  · by_contra hne
    rcases lt_or_gt_of_ne hy with h1 | h1
    · rcases lt_or_gt_of_ne hne with h3 | h3
      · simp [hne, h1, h3, not_lt.mpr h3.le] at h
      · simp [hne, h1, h3] at h
    · rcases lt_or_gt_of_ne hne with h3 | h3
      · simp [hne, h1, h3, not_lt.mpr h1.le] at h
      · simp [hne, h1, h3, not_lt.mpr h1.le, not_lt.mpr h3.le] at h
  · simp [h]
  · simp [ne_of_gt h3, h, h3]
  · simp [ne_of_lt h3, h, h3, not_lt.mpr h3.le]
  · simp [ne_of_lt h3, h, h3, not_lt.mpr h.le]
  · simp [ne_of_gt h3, h, h3, not_lt.mpr h.le, not_lt.mpr h3.le]

/-- Witness of C26: for the segment from `(0,0)` to `(2,1)` and the point `(2,3)`,
`tx = 1 < ty = 3` and the point is above the line. -/
theorem aboveOrBelowLine_parametric_witness :
    (mkCoord 0 0).x ≠ (mkCoord 2 1).x ∧ (mkCoord 0 0).y ≠ (mkCoord 2 1).y ∧
    (mkCoord 0 0).y < (mkCoord 2 1).y ∧
    ((mkCoord 2 3).x - (mkCoord 0 0).x) / ((mkCoord 2 1).x - (mkCoord 0 0).x) <
      ((mkCoord 2 3).y - (mkCoord 0 0).y) / ((mkCoord 2 1).y - (mkCoord 0 0).y) ∧
    aboveOrBelowLine (mkCoord 0 0) (mkCoord 2 1) (mkCoord 2 3) = ABOVE_LINE := by
  have hx : (mkCoord 0 0).x ≠ (mkCoord 2 1).x := by simp [mkCoord]
  have hy : (mkCoord 0 0).y ≠ (mkCoord 2 1).y := by simp [mkCoord]
  have hlt : (mkCoord 0 0).y < (mkCoord 2 1).y := by simp [mkCoord]
  have ht : ((mkCoord 2 3).x - (mkCoord 0 0).x) / ((mkCoord 2 1).x - (mkCoord 0 0).x) <
      ((mkCoord 2 3).y - (mkCoord 0 0).y) / ((mkCoord 2 1).y - (mkCoord 0 0).y) := by
    simp [mkCoord]
  exact ⟨hx, hy, hlt, ht,
    (((aboveOrBelowLine_parametric (mkCoord 0 0) (mkCoord 2 1) (mkCoord 2 3)).2 hx hy).2.1
      hlt).2 ht⟩

/-- C27: `aboveOrBelowLine` does not depend on the direction of the segment; so the
test of the top edge of `findFirstCell`, on `(topRight, topLeft)`, is that of
`insideCell`, on `(topLeft, topRight)`, and the body of the loop of `findFirstCell`
accepts a cell exactly when the cell passes the distance test and `insideCell`. -/
theorem aboveOrBelowLine_direction_independent (a b c : coord_t) (g : Grid) (x y : ℚ)
    (i : Int) :
    aboveOrBelowLine a b c = aboveOrBelowLine b a c ∧
    aboveOrBelowLine (topRight g i) (topLeft g i) (mkCoord x y) =
      aboveOrBelowLine (topLeft g i) (topRight g i) (mkCoord x y) ∧
    (findFirstCellBody g x y i = true ↔
      calcDistanceSq x y (g.weatherCoords i) (g.weatherCoords (i + 1)) ≤ 1 ∧
        (insideCell g x y i).1 = true) :=
  ⟨aboveOrBelowLine_swap a b c, aboveOrBelowLine_swap _ _ _, findFirstCellBody_iff g x y i⟩

/-! ## Soundness of the search -/

lemma findFirstCell_insideCell (g : Grid) (x y : ℚ) (index : Int)
    (h : (findFirstCell g x y index).1 = true) :
    (insideCell g x y (findFirstCell g x y index).2).1 = true ∧
      NearBottomLeft g x y (findFirstCell g x y index).2 := by
  cases hs : findFirstCellScan g x y with
  | none =>
    rw [findFirstCell_eq_of_scan_none g x y index hs] at h
    exact absurd h (by simp)
  | some i =>
    rw [findFirstCell_eq_of_scan_some g x y index i hs]
    obtain ⟨row, col, -, -, hi, hb, -⟩ := (findFirstCellScan_eq_some_iff g x y i).1 hs
    rw [← hi] at hb
    have hb1 := (findFirstCellBody_iff g x y i).1 hb
    exact ⟨hb1.2, (nearBottomLeft_iff g x y i).2 hb1.1⟩

/-! ## The cursor of a pass -/

lemma findFirstCell_snd_cases (g : Grid) (x y : ℚ) (index : Int) :
    (findFirstCell g x y index).2 = index ∨
      findFirstCellScan g x y = some (findFirstCell g x y index).2 := by
  cases hs : findFirstCellScan g x y with
  | none =>
    left
    rw [findFirstCell_eq_of_scan_none g x y index hs]
  | some i =>
    right
    rw [findFirstCell_eq_of_scan_some g x y index i hs]

lemma nextInterpolationPoint_snd_cases (g : Grid) (x y : ℚ) (index level : Int) :
    (nextInterpolationPoint g x y index level).2 = index ∨
      findFirstCellScan g x y = some (nextInterpolationPoint g x y index level).2 := by
  by_cases hl : level > 10
  · rw [nextInterpolationPoint_fallback g x y index level hl]
    exact findFirstCell_snd_cases g x y index
  · rw [nextInterpolationPoint_closed g x y index level (by omega)]
    split_ifs
    · exact Or.inl rfl
    · exact Or.inl rfl
    · exact findFirstCell_snd_cases g x y index

lemma sliceStepAt_index (g : Grid) (p : Pass) (x y : ℚ) (cur cur1 : Cursor) (v : ℚ)
    (h : sliceStepAt g p x y cur = some (cur1, v)) :
    indexOutOfRange g cur1.index = false ∧
    (cur1.index = cur.index ∨ findFirstCellScan g x y = some cur1.index) := by
  obtain ⟨index, insideGraph⟩ := cur
  have key : ∀ idx1 : Int,
      (idx1 = index ∨ findFirstCellScan g x y = some idx1) →
      ∀ b : Bool,
      (if indexOutOfRange g
            (if !(nextInterpolationPoint g x y idx1 1).1 then
              (⟨(nextInterpolationPoint g x y idx1 1).2, false⟩ : Cursor)
            else ⟨(nextInterpolationPoint g x y idx1 1).2, b⟩).index then none
        else if !(if !(nextInterpolationPoint g x y idx1 1).1 then
              (⟨(nextInterpolationPoint g x y idx1 1).2, false⟩ : Cursor)
            else ⟨(nextInterpolationPoint g x y idx1 1).2, b⟩).insideGraph then
          some ((if !(nextInterpolationPoint g x y idx1 1).1 then
              (⟨(nextInterpolationPoint g x y idx1 1).2, false⟩ : Cursor)
            else ⟨(nextInterpolationPoint g x y idx1 1).2, b⟩), (0 : ℚ))
        else some ((if !(nextInterpolationPoint g x y idx1 1).1 then
              (⟨(nextInterpolationPoint g x y idx1 1).2, false⟩ : Cursor)
            else ⟨(nextInterpolationPoint g x y idx1 1).2, b⟩),
            cellValue g p (if !(nextInterpolationPoint g x y idx1 1).1 then
              (⟨(nextInterpolationPoint g x y idx1 1).2, false⟩ : Cursor)
            else ⟨(nextInterpolationPoint g x y idx1 1).2, b⟩).index x y)) = some (cur1, v) →
      indexOutOfRange g cur1.index = false ∧
        (cur1.index = index ∨ findFirstCellScan g x y = some cur1.index) := by
    intro idx1 h1 b hh
    have hidx : ∀ c : Bool, (if c then
              (⟨(nextInterpolationPoint g x y idx1 1).2, false⟩ : Cursor)
            else ⟨(nextInterpolationPoint g x y idx1 1).2, b⟩).index =
          (nextInterpolationPoint g x y idx1 1).2 := by
      intro c
      cases c <;> rfl
    have h2 : (nextInterpolationPoint g x y idx1 1).2 = index ∨
        findFirstCellScan g x y = some (nextInterpolationPoint g x y idx1 1).2 := by
      rcases nextInterpolationPoint_snd_cases g x y idx1 1 with e | e
      · rw [e]
        exact h1
      · exact Or.inr e
    generalize hc : (if !(nextInterpolationPoint g x y idx1 1).1 then
              (⟨(nextInterpolationPoint g x y idx1 1).2, false⟩ : Cursor)
            else ⟨(nextInterpolationPoint g x y idx1 1).2, b⟩) = c2 at hh
    have hc2 : c2.index = (nextInterpolationPoint g x y idx1 1).2 := by
      rw [← hc]
      exact hidx _
    cases hr : indexOutOfRange g c2.index with
    | true =>
      rw [hr] at hh
      simp at hh
    | false =>
      rw [hr] at hh
      simp only [Bool.false_eq_true, if_false] at hh
      have hcc : c2 = cur1 := by
        split_ifs at hh
        · exact (Prod.mk.inj (Option.some.inj hh)).1
        · exact (Prod.mk.inj (Option.some.inj hh)).1
      rw [← hcc, hc2]
      rw [hc2] at hr
      exact ⟨hr, h2⟩
  unfold sliceStepAt at h
  cases insideGraph with
  | false =>
    simp only [Bool.not_false, if_true] at h
    refine key (findFirstCell g x y index).2 (findFirstCell_snd_cases g x y index) ?_ ?_
    · exact (findFirstCell g x y index).1
    · cases hf : (findFirstCell g x y index).1
      · simp only [hf, Bool.false_eq_true, if_false] at h
        exact h
      · simp only [hf, if_true] at h
        exact h
  | true =>
    simp only [Bool.not_true, Bool.false_eq_true, if_false] at h
    exact key index (Or.inl rfl) true h

lemma isCellOffset_zero (g : Grid) (hr : 2 ≤ g.numRows) (hc : 2 ≤ g.numCols) :
    IsCellOffset g 0 :=
  ⟨0, 0, le_refl _, by omega, le_refl _, by omega, by simp [cellOffset]⟩

lemma isCellOffset_of_scan (g : Grid) (x y : ℚ) (i : Int)
    (h : findFirstCellScan g x y = some i) : IsCellOffset g i := by
  obtain ⟨row, col, hr, hc, hi, -⟩ := (findFirstCellScan_eq_some_iff g x y i).1 h
  exact ⟨row, col, by omega, by omega, by omega, by omega, hi⟩

lemma isCellOffset_bounds (g : Grid) (hrec : g.recSize = g.numRows * g.numCols) (i : Int)
    (h : IsCellOffset g i) :
    indexOutOfRange g i = false ∧ i.tmod 2 = 0 ∧
    0 ≤ i ∧ i + g.numCols * 2 + 3 < 2 * g.recSize ∧
    0 ≤ i.tdiv 2 ∧ i.tdiv 2 + g.numCols + 1 < g.recSize := by
  obtain ⟨row, col, hr0, hr, hc0, hc, hi⟩ := h
  have hin := cellOffset_inRange g hrec row col hr0 hr hc0 hc
  rw [← hi] at hin
  have hC : 0 ≤ g.numCols := by omega
  have h0 : 0 ≤ row * g.numCols := mul_nonneg hr0 hC
  have h1 : row * g.numCols ≤ (g.numRows - 2) * g.numCols :=
    mul_le_mul_of_nonneg_right hr hC
  have e1 : (g.numRows - 2) * g.numCols = g.numRows * g.numCols - 2 * g.numCols := by ring
  have e2 : i = 2 * (row * g.numCols + col) := by
    rw [hi]
    unfold cellOffset
    ring
  have e3 : i.tdiv 2 = row * g.numCols + col := by
    rw [e2]
    exact even_tdiv_two _
  have e4 : i.tmod 2 = 0 := by
    rw [e2]
    exact Int.mul_tmod_right 2 _
  refine ⟨hin, e4, by omega, by omega, by omega, by omega⟩

lemma cursorAt_invariant (g : Grid) (p : Pass) (hrec : g.recSize = g.numRows * g.numCols)
    (hr : 2 ≤ g.numRows) (hc : 2 ≤ g.numCols) (k : Nat) :
    ∃ cur : Cursor, cursorAt g p k = some cur ∧
      (cur.index = 0 ∨ ∃ j : Nat, j < k ∧
        findFirstCellScan g (samplePoint p (j : Int)).1 (samplePoint p (j : Int)).2
          = some cur.index) ∧
      IsCellOffset g cur.index := by
  induction k with
  | zero => exact ⟨⟨0, false⟩, rfl, Or.inl rfl, isCellOffset_zero g hr hc⟩
  | succ k ih =>
    obtain ⟨cur, hcur, hor, hcell⟩ := ih
    have hin := (isCellOffset_bounds g hrec cur.index hcell).1
    obtain ⟨cur1, hstep, -, -⟩ :=
      sliceStepAt_refines g p hrec (samplePoint p (k : Int)).1 (samplePoint p (k : Int)).2
        cur hin
    obtain ⟨-, hidx⟩ := sliceStepAt_index g p _ _ cur cur1 _ hstep
    refine ⟨cur1, ?_, ?_, ?_⟩
    · rw [cursorAt, hcur]
      simp only [hstep]
    · rcases hidx with e | e
      · rcases hor with e0 | ⟨j, hj, e0⟩
        · exact Or.inl (e.trans e0)
        · exact Or.inr ⟨j, by omega, by rw [e]; exact e0⟩
      · exact Or.inr ⟨k, by omega, e⟩
    · rcases hidx with e | e
      · rw [e]
        exact hcell
      · exact isCellOffset_of_scan g _ _ _ e

lemma cursorAt_none_add (g : Grid) (p : Pass) (k : Nat) (h : cursorAt g p k = none)
    (m : Nat) : cursorAt g p (k + m) = none := by
  induction m with
  | zero => exact h
  | succ m ih =>
    rw [← Nat.add_assoc, cursorAt, ih]

/-- The loop of `interpolateSliceGraph` runs to its end exactly when `cursorAt` is
defined after its last iteration. -/
lemma sliceLoop_completed_eq (g : Grid) (p : Pass) (n : Nat) :
    ∀ (k0 : Nat) (cur : Cursor) (sliceData : Int → ℚ), cursorAt g p k0 = some cur →
      (sliceLoop g p n (k0 : Int) cur sliceData).2 = (cursorAt g p (k0 + n)).isSome := by
  induction n with
  | zero =>
    intro k0 cur sliceData hcur
    rw [Nat.add_zero, hcur]
    rfl
  | succ n ih =>
    intro k0 cur sliceData hcur
    rw [sliceLoop]
    cases hs : sliceStepAt g p (samplePoint p (k0 : Int)).1 (samplePoint p (k0 : Int)).2 cur with
    | none =>
      have h1 : cursorAt g p (k0 + 1) = none := by
        rw [cursorAt, hcur]
        simp only [hs]
      have h2 := cursorAt_none_add g p (k0 + 1) h1 n
      have e : k0 + (n + 1) = k0 + 1 + n := by omega
      rw [e, h2]
      rfl
    | some r =>
      obtain ⟨cur1, v⟩ := r
      have h1 : cursorAt g p (k0 + 1) = some cur1 := by
        rw [cursorAt, hcur]
        simp only [hs]
      have h2 := ih (k0 + 1) cur1 (fun k => if k = (k0 : Int) then v else sliceData k) h1
      have e : k0 + (n + 1) = k0 + 1 + n := by omega
      rw [e, ← h2]
      simp only [Nat.cast_add, Nat.cast_one]

/-- C29: the cursor of a sampling pass. On a grid with `recSize = numRows * numCols`,
`numRows >= 2` and `numCols >= 2`, at the top of every iteration of the loop of
`interpolateSliceGraph` the local variable `index` is `0` or an offset assigned by
`findFirstCell` at an earlier sample point, and it is the offset
`row * 2 * numCols + 2 * col` of a cell, `0 <= row <= numRows - 2`,
`0 <= col <= numCols - 2`. For every such offset the range check does not fail, the
eight coordinate offsets `i, ..., i + 2 * numCols + 3` lie in `[0, 2 * recSize)` and
the four field offsets `i/2, ..., i/2 + numCols + 1` lie in `[0, recSize)`. So the call
runs to its end and writes the `N` output entries. -/
theorem cursor_is_cell_offset (g : Grid) (p : Pass) (sliceData : Int → ℚ) (sdsize : Int)
    (hrec : g.recSize = g.numRows * g.numCols) (hr : 2 ≤ g.numRows) (hc : 2 ≤ g.numCols) :
    (∀ k : Nat, ∃ cur : Cursor, cursorAt g (orderLine p) k = some cur ∧
      (cur.index = 0 ∨ ∃ j : Nat, j < k ∧
        findFirstCellScan g (samplePoint (orderLine p) (j : Int)).1
          (samplePoint (orderLine p) (j : Int)).2 = some cur.index) ∧
      IsCellOffset g cur.index) ∧
    (∀ i : Int, IsCellOffset g i →
      indexOutOfRange g i = false ∧ i.tmod 2 = 0 ∧
      0 ≤ i ∧ i + g.numCols * 2 + 3 < 2 * g.recSize ∧
      0 ≤ i.tdiv 2 ∧ i.tdiv 2 + g.numCols + 1 < g.recSize) ∧
    (interpolateSliceGraph g p sliceData sdsize).completed = true ∧
    (∀ j : Int, 0 ≤ j → j < p.totalSliceSteps →
      (interpolateSliceGraph g p sliceData sdsize).sliceData j =
        samplerOutput g (orderLine p) j.toNat) := by
  obtain ⟨h1, h2⟩ := interpolateSliceGraph_refines g p hrec (by omega) (by omega)
    sliceData sdsize
  rw [orderLine_totalSliceSteps] at h2
  refine ⟨fun k => cursorAt_invariant g (orderLine p) hrec hr hc k,
    fun i hi => isCellOffset_bounds g hrec i hi, h1, fun j hj0 hj => ?_⟩
  rw [h2, if_pos ⟨hj0, by omega⟩]

/-- Witness of C29: the pass of the first concrete scenario runs to its end. -/
theorem cursor_is_cell_offset_witness :
    unitGrid.recSize = unitGrid.numRows * unitGrid.numCols ∧
    (2 : Int) ≤ unitGrid.numRows ∧ (2 : Int) ≤ unitGrid.numCols ∧
    (interpolateSliceGraph unitGrid diagonalPass (fun _ => 0) 5).completed = true :=
  ⟨by decide, by decide, by decide,
    (cursor_is_cell_offset unitGrid diagonalPass (fun _ => 0) 5 (by decide) (by decide)
      (by decide)).2.2.1⟩

/-! ## The date of `drawText` -/

/-- In the last branch that assigns a month (`totalDays < 365`), `drawText` subtracts
`333`: for the day indices `334, ..., 363` it composes `October` with the day
`d - 332`, one more than the day of the month. -/
lemma drawText_october (d : Int) (h1 : 334 ≤ d) (h2 : d ≤ 363) :
    (drawText d).month = some "October " ∧ (drawText d).day = d - 332 := by
  unfold drawText
  dsimp only
  repeat (first | rw [if_pos (by omega)] | rw [if_neg (by omega)])
  exact ⟨rfl, by ring⟩

lemma drawText_year (d : Int) : (drawText d).year = calendarYear d := by
  show (if d + 1 < 62 then ", 2001" else ", 2002") = if d ≤ 60 then ", 2001" else ", 2002"
  by_cases h : d ≤ 60
  · rw [if_pos h, if_pos (by omega)]
  · rw [if_neg h, if_neg (by omega)]

/-- Up to September 30 (`d = 333`) the day of the month is that of the calendar. -/
lemma drawText_day_until_september (d : Int) (h0 : 0 ≤ d) (h1 : d ≤ 333) :
    (calendarDate d).map Prod.snd = some (drawText d).day := by
  have hcases : d < 30 ∨ (30 ≤ d ∧ d < 61) ∨ (61 ≤ d ∧ d < 92) ∨ (92 ≤ d ∧ d < 120) ∨
      (120 ≤ d ∧ d < 151) ∨ (151 ≤ d ∧ d < 181) ∨ (181 ≤ d ∧ d < 212) ∨
      (212 ≤ d ∧ d < 242) ∨ (242 ≤ d ∧ d < 273) ∨ (273 ≤ d ∧ d < 304) ∨
      (304 ≤ d ∧ d < 334) := by omega
  unfold drawText calendarDate monthsFromNovember
  dsimp only [calendarDateFrom]
  rcases hcases with h | h | h | h | h | h | h | h | h | h | h <;>
    (repeat (first | rw [if_pos (by omega)] | rw [if_neg (by omega)])) <;>
    (simp only [Option.map_some', Option.some.injEq] <;> omega)

lemma calendarDate_october (d : Int) (h1 : 334 ≤ d) (h2 : d ≤ 364) :
    calendarDate d = some ("October ", d - 333) := by
  unfold calendarDate monthsFromNovember
  simp only [calendarDateFrom]
  repeat (first | rw [if_pos (by omega)] | rw [if_neg (by omega)])
  congr 2
  ring

/-- C30 (the dates of October are one day late): for the day index `333`
(`currentTimeStep = 2664`) `drawText` composes `September 30`, and for the next day
index `334` it composes `October 2`, where the date `334` days after November 1 is
October 1; for the last day index `363` of the range it composes `October 31`, where
the calendar date is October 30. For the day indices `30` to `60` the month is
spelled `Decemeber`. -/
theorem drawText_october_one_day_late :
    dayOfTimeStep 2664 = 333 ∧ dayOfTimeStep 2672 = 334 ∧
    (drawText 333).month = some "September " ∧ (drawText 333).day = 30 ∧
    calendarDate 333 = some ("September ", 30) ∧
    (drawText 334).month = some "October " ∧ (drawText 334).day = 2 ∧
    calendarDate 334 = some ("October ", 1) ∧
    (drawText 363).month = some "October " ∧ (drawText 363).day = 31 ∧
    calendarDate 363 = some ("October ", 30) ∧
    (drawText 30).month = some "Decemeber " ∧ calendarDate 30 = some ("December ", 1) := by
  have hsteps : dayOfTimeStep 2664 = 333 ∧ dayOfTimeStep 2672 = 334 := by decide
  have h333 : (drawText 333).month = some "September " ∧ (drawText 333).day = 30 ∧
      calendarDate 333 = some ("September ", 30) := by decide
  have h334 : (drawText 334).month = some "October " ∧ (drawText 334).day = 2 ∧
      calendarDate 334 = some ("October ", 1) := by decide
  have h363 : (drawText 363).month = some "October " ∧ (drawText 363).day = 31 ∧
      calendarDate 363 = some ("October ", 30) := by decide
  have h30 : (drawText 30).month = some "Decemeber " ∧
      calendarDate 30 = some ("December ", 1) := by decide
  exact ⟨hsteps.1, hsteps.2, h333.1, h333.2.1, h333.2.2, h334.1, h334.2.1, h334.2.2,
    h363.1, h363.2.1, h363.2.2, h30.1, h30.2⟩

/-! ## Lemmas on the functions over a side test -/

lemma insideCellWith_snd
    (side : coord_t → coord_t → coord_t → lineloc_t) (g : Grid) (x y : ℚ) (i : Int) : (insideCellWith side g x y i).2 = i := by
  unfold insideCellWith
  simp only
  split_ifs <;> rfl

lemma findFirstCellWith_eq_of_scan_some
    (side : coord_t → coord_t → coord_t → lineloc_t) (g : Grid) (x y : ℚ) (index i : Int)
    (h : findFirstCellScanWith side g x y = some i) :
    findFirstCellWith side g x y index = (true, i) := by
  unfold findFirstCellWith
  rw [h]

lemma findFirstCellWith_eq_of_scan_none
    (side : coord_t → coord_t → coord_t → lineloc_t) (g : Grid) (x y : ℚ) (index : Int)
    (h : findFirstCellScanWith side g x y = none) :
    findFirstCellWith side g x y index = (false, index) := by
  unfold findFirstCellWith
  rw [h]

lemma nextInterpolationPointWith_fallback
    (side : coord_t → coord_t → coord_t → lineloc_t) (g : Grid) (x y : ℚ) (index level : Int)
    (h : level > 10) :
    nextInterpolationPointWith side g x y index level = findFirstCellWith side g x y index := by
  rw [nextInterpolationPointWith]
  simp only [h, if_true]
  cases hf : (findFirstCellWith side g x y index).1 <;> simp [← hf]

lemma nextInterpolationPointWith_closed_aux
    (side : coord_t → coord_t → coord_t → lineloc_t) (g : Grid) (x y : ℚ) (n : Nat) (index : Int) :
    nextInterpolationPointWith side g x y index (10 - (n : Int)) =
      if indexOutOfRange g index then (false, index)
      else if (insideCellWith side g x y index).1 then (true, index)
      else findFirstCellWith side g x y index := by
  induction n with
  | zero =>
    rw [nextInterpolationPointWith]
    have h10 : ¬ ((10 : Int) - ((0 : Nat) : Int) > 10) := by simp
    simp only [h10, if_false, insideCellWith_snd]
    split_ifs
    · rfl
    · rfl
    · exact nextInterpolationPointWith_fallback side g x y index _ (by simp)
  | succ n ih =>
    rw [nextInterpolationPointWith]
    have h10 : ¬ ((10 : Int) - ((n + 1 : Nat) : Int) > 10) := by push_cast; omega
    have hl : (10 : Int) - ((n + 1 : Nat) : Int) + 1 = 10 - (n : Int) := by push_cast; ring
    simp only [h10, if_false, insideCellWith_snd, hl]
    split_ifs with h1 h2
    · rfl
    · rfl
    · rw [ih]
      simp [h1, h2]

lemma nextInterpolationPointWith_closed
    (side : coord_t → coord_t → coord_t → lineloc_t) (g : Grid) (x y : ℚ) (index level : Int)
    (h : level ≤ 10) :
    nextInterpolationPointWith side g x y index level =
      if indexOutOfRange g index then (false, index)
      else if (insideCellWith side g x y index).1 then (true, index)
      else findFirstCellWith side g x y index := by
  have e : level = 10 - (((10 - level).toNat : Nat) : Int) := by
    rw [Int.toNat_of_nonneg (by omega)]
    ring
  rw [e]
  exact nextInterpolationPointWith_closed_aux side g x y _ index

lemma findFirstCellColsWith_eq_none_iff
    (side : coord_t → coord_t → coord_t → lineloc_t) (g : Grid) (x y : ℚ) (row : Int) :
    findFirstCellColsWith side g x y row = none ↔
      ∀ k : Nat, k < (g.numCols - 1).toNat →
        findFirstCellBodyWith side g x y (cellOffset g row k) = false := by
  unfold findFirstCellColsWith cellOffset
  rw [findSome_range_eq_none]
  constructor
  · intro h k hk
    have := h k hk
    simpa using this
  · intro h k hk
    simp [h k hk]

lemma findFirstCellColsWith_eq_some_iff
    (side : coord_t → coord_t → coord_t → lineloc_t) (g : Grid) (x y : ℚ) (row i : Int) :
    findFirstCellColsWith side g x y row = some i ↔
      ∃ k : Nat, k < (g.numCols - 1).toNat ∧ i = cellOffset g row k ∧
        findFirstCellBodyWith side g x y (cellOffset g row k) = true ∧
        ∀ j : Nat, j < k →
          findFirstCellBodyWith side g x y (cellOffset g row j) = false := by
  unfold findFirstCellColsWith cellOffset
  rw [findSome_range_eq_some]
  constructor
  · rintro ⟨k, hk, hfk, hmin⟩
    refine ⟨k, hk, ?_, ?_, ?_⟩
    · by_cases hb :
          findFirstCellBodyWith side g x y (row * (g.numCols * 2) + 2 * (k : Int)) = true
      · simp only [hb, if_true, Option.some.injEq] at hfk
        exact hfk.symm
      · simp [hb] at hfk
    · by_cases hb :
          findFirstCellBodyWith side g x y (row * (g.numCols * 2) + 2 * (k : Int)) = true
      · exact hb
      · simp [hb] at hfk
    · intro j hj
      have := hmin j hj
      simpa using this
  · rintro ⟨k, hk, hi, hb, hmin⟩
    refine ⟨k, hk, ?_, ?_⟩
    · simp [hb, hi]
    · intro j hj
      simp [hmin j hj]

lemma findFirstCellScanWith_eq_none_iff
    (side : coord_t → coord_t → coord_t → lineloc_t) (g : Grid) (x y : ℚ) :
    findFirstCellScanWith side g x y = none ↔
      ∀ row col : Nat, row < (g.numRows - 1).toNat → col < (g.numCols - 1).toNat →
        findFirstCellBodyWith side g x y (cellOffset g row col) = false := by
  unfold findFirstCellScanWith
  rw [findSome_range_eq_none]
  constructor
  · intro h row col hr hc
    exact (findFirstCellColsWith_eq_none_iff side g x y row).1 (h row hr) col hc
  · intro h row hr
    exact (findFirstCellColsWith_eq_none_iff side g x y row).2 fun col hc => h row col hr hc

lemma findFirstCellScanWith_eq_some_iff
    (side : coord_t → coord_t → coord_t → lineloc_t) (g : Grid) (x y : ℚ) (i : Int) :
    findFirstCellScanWith side g x y = some i ↔
      ∃ row col : Nat, row < (g.numRows - 1).toNat ∧ col < (g.numCols - 1).toNat ∧
        i = cellOffset g row col ∧
        findFirstCellBodyWith side g x y (cellOffset g row col) = true ∧
        (∀ j : Nat, j < col →
          findFirstCellBodyWith side g x y (cellOffset g row j) = false) ∧
        (∀ r c : Nat, r < row → c < (g.numCols - 1).toNat →
          findFirstCellBodyWith side g x y (cellOffset g r c) = false) := by
  unfold findFirstCellScanWith
  rw [findSome_range_eq_some]
  constructor
  · rintro ⟨row, hr, hf, hmin⟩
    obtain ⟨col, hc, hi, hb, hcm⟩ :=
      (findFirstCellColsWith_eq_some_iff side g x y row i).1 hf
    refine ⟨row, col, hr, hc, hi, hb, hcm, fun r c hr1 hc1 => ?_⟩
    exact (findFirstCellColsWith_eq_none_iff side g x y r).1 (hmin r hr1) c hc1
  · rintro ⟨row, col, hr, hc, hi, hb, hcm, hrm⟩
    refine ⟨row, hr, ?_, fun r hr1 => ?_⟩
    · exact (findFirstCellColsWith_eq_some_iff side g x y row i).2 ⟨col, hc, hi, hb, hcm⟩
    · exact (findFirstCellColsWith_eq_none_iff side g x y r).2 fun c hc1 => hrm r c hr1 hc1

lemma findFirstCellBodyWith_iff (side : coord_t → coord_t → coord_t → lineloc_t) (g : Grid)
    (x y : ℚ) (i : Int) :
    findFirstCellBodyWith side g x y i = true ↔ PassesFindFirstCellTests side g x y i := by
  unfold PassesFindFirstCellTests
  rw [nearBottomLeft_iff]
  unfold findFirstCellBodyWith bottomLeft bottomRight topLeft topRight
  simp only [mkCoord]
  split_ifs <;> simp_all

/-- With the exact side test, the functions over a side test are those of the exact
embedding. -/
lemma insideCellWith_exact (g : Grid) (x y : ℚ) (i : Int) :
    insideCellWith aboveOrBelowLine g x y i = insideCell g x y i := rfl

lemma findFirstCellBodyWith_exact (g : Grid) (x y : ℚ) (i : Int) :
    findFirstCellBodyWith aboveOrBelowLine g x y i = findFirstCellBody g x y i := rfl

lemma findFirstCellScanWith_exact (g : Grid) (x y : ℚ) :
    findFirstCellScanWith aboveOrBelowLine g x y = findFirstCellScan g x y := rfl

lemma findFirstCellWith_exact (g : Grid) (x y : ℚ) (index : Int) :
    findFirstCellWith aboveOrBelowLine g x y index = findFirstCell g x y index := rfl

lemma nextInterpolationPointWith_exact (g : Grid) (x y : ℚ) (index level : Int) :
    nextInterpolationPointWith aboveOrBelowLine g x y index level =
      nextInterpolationPoint g x y index level := by
  by_cases hl : level > 10
  · rw [nextInterpolationPointWith_fallback _ g x y index level hl,
      nextInterpolationPoint_fallback g x y index level hl]
    rfl
  · rw [nextInterpolationPointWith_closed _ g x y index level (by omega),
      nextInterpolationPoint_closed g x y index level (by omega)]
    rfl

lemma cellValueWith_exact (g : Grid) (p : Pass) (index : Int) (x y : ℚ) :
    cellValueWith dgesvExact g p index x y = cellValue g p index x y := rfl

lemma sliceStepAtWith_exact (g : Grid) (p : Pass) (x y : ℚ) (cur : Cursor) :
    sliceStepAtWith aboveOrBelowLine dgesvExact g p x y cur = sliceStepAt g p x y cur := by
  unfold sliceStepAtWith sliceStepAt
  simp only [findFirstCellWith_exact, nextInterpolationPointWith_exact, cellValueWith_exact]

lemma sliceLoopWith_exact (g : Grid) (p : Pass) (n : Nat) :
    ∀ (sliceStep : Int) (cur : Cursor) (sliceData : Int → ℚ),
      sliceLoopWith aboveOrBelowLine dgesvExact (samplePoint p) g p n sliceStep cur sliceData =
        sliceLoop g p n sliceStep cur sliceData := by
  induction n with
  | zero => intro _ _ _; rfl
  | succ n ih =>
    intro sliceStep cur sliceData
    rw [sliceLoopWith, sliceLoop, sliceStepAtWith_exact]
    cases sliceStepAt g p (samplePoint p sliceStep).1 (samplePoint p sliceStep).2 cur with
    | none => rfl
    | some r =>
      obtain ⟨cur1, v⟩ := r
      exact ih _ _ _

lemma interpolateSliceGraphWith_exact (g : Grid) (p : Pass) (sliceData : Int → ℚ)
    (sdsize : Int) :
    interpolateSliceGraphWith aboveOrBelowLine dgesvExact samplePoint g p sliceData sdsize =
      interpolateSliceGraph g p sliceData sdsize := by
  unfold interpolateSliceGraphWith interpolateSliceGraph
  simp only [sliceLoopWith_exact]

/-! ## Rounding to `float` -/

lemma roundHalfEven_eq (x : ℚ) (k : Int) (h : |x - (k : ℚ)| < 1 / 2) : roundHalfEven x = k := by
  rw [abs_lt] at h
  obtain ⟨h1, h2⟩ := h
  unfold roundHalfEven
  have hf := Int.fract_add_floor x
  have hf0 := Int.fract_nonneg x
  have hf1 := Int.fract_lt_one x
  by_cases hk : (k : ℚ) ≤ x
  · have hfl : ⌊x⌋ = k := by
      rw [Int.floor_eq_iff]
      constructor
      · exact hk
      · linarith
    have hfr : Int.fract x < 1 / 2 := by
      rw [Int.fract, hfl]
      linarith
    rw [if_pos hfr, hfl]
  · have hfl : ⌊x⌋ = k - 1 := by
      rw [Int.floor_eq_iff]
      push_cast
      constructor
      · linarith
      · linarith [not_le.mp hk]
    have hfr : 1 / 2 < Int.fract x := by
      rw [Int.fract, hfl]
      push_cast
      linarith
    rw [if_neg (not_lt.mpr hfr.le), if_pos hfr, hfl]
    ring

/-- The value of `roundFloat32` at `q`, from the binade of `q` and an integer within
one half of the scaled value. -/
lemma roundFloat32_eq (q : ℚ) (e k : Int) (hlo : (2 : ℚ) ^ e ≤ |q|)
    (hhi : |q| < (2 : ℚ) ^ (e + 1)) (hk : |q / (2 : ℚ) ^ (e - 23) - (k : ℚ)| < 1 / 2) :
    roundFloat32 q = (k : ℚ) * (2 : ℚ) ^ (e - 23) := by
  have hpos : (0 : ℚ) < |q| := lt_of_lt_of_le (zpow_pos (by norm_num) e) hlo
  have hq : q ≠ 0 := abs_pos.mp hpos
  have hlog : Int.log 2 |q| = e := by
    have h1 : e ≤ Int.log 2 |q| := by
      rw [← Int.zpow_le_iff_le_log (by norm_num) hpos]
      exact_mod_cast hlo
    have h2 : Int.log 2 |q| < e + 1 := by
      rw [← Int.lt_zpow_iff_log_lt (by norm_num) hpos]
      exact_mod_cast hhi
    omega
  unfold roundFloat32
  rw [if_neg hq]
  simp only [hlog]
  rw [roundHalfEven_eq _ k hk]

lemma roundFloat32_eq_pos (q : ℚ) (e k : Int) (hlo : (2 : ℚ) ^ e ≤ q)
    (hhi : q < (2 : ℚ) ^ (e + 1)) (hk1 : (k : ℚ) - 1 / 2 < q / (2 : ℚ) ^ (e - 23))
    (hk2 : q / (2 : ℚ) ^ (e - 23) < (k : ℚ) + 1 / 2) :
    roundFloat32 q = (k : ℚ) * (2 : ℚ) ^ (e - 23) := by
  have hpos : (0 : ℚ) < q := lt_of_lt_of_le (zpow_pos (by norm_num) e) hlo
  apply roundFloat32_eq q e k
  · rw [abs_of_pos hpos]
    exact hlo
  · rw [abs_of_pos hpos]
    exact hhi
  · rw [abs_lt]
    constructor <;> linarith

lemma roundFloat32_eq_neg (q : ℚ) (e k : Int) (hlo : (2 : ℚ) ^ e ≤ -q)
    (hhi : -q < (2 : ℚ) ^ (e + 1)) (hk1 : (k : ℚ) - 1 / 2 < q / (2 : ℚ) ^ (e - 23))
    (hk2 : q / (2 : ℚ) ^ (e - 23) < (k : ℚ) + 1 / 2) :
    roundFloat32 q = (k : ℚ) * (2 : ℚ) ^ (e - 23) := by
  have hpos : (0 : ℚ) < -q := lt_of_lt_of_le (zpow_pos (by norm_num) e) hlo
  have hneg : q < 0 := by linarith
  apply roundFloat32_eq q e k
  · rw [abs_of_neg hneg]
    exact hlo
  · rw [abs_of_neg hneg]
    exact hhi
  · rw [abs_lt]
    constructor <;> linarith

/-! ## The side test in `float` arithmetic -/

lemma roundFloat32_seven_tenths : roundFloat32 (7 / 10) = 11744051 / 16777216 := by
  rw [roundFloat32_eq_pos (7 / 10) (-1) 11744051 (by norm_num) (by norm_num) (by norm_num)
    (by norm_num)]
  norm_num

lemma roundFloat32_three_tenths : roundFloat32 (3 / 10) = 5033165 / 16777216 := by
  rw [roundFloat32_eq_pos (3 / 10) (-2) 10066330 (by norm_num) (by norm_num) (by norm_num)
    (by norm_num)]
  norm_num

lemma roundFloat32_fifty_six : roundFloat32 (56 / 100) = 9395241 / 16777216 := by
  rw [roundFloat32_eq_pos (56 / 100) (-1) 9395241 (by norm_num) (by norm_num) (by norm_num)
    (by norm_num)]
  norm_num

lemma roundFloat32_one : roundFloat32 1 = 1 := by
  rw [roundFloat32_eq_pos 1 0 8388608 (by norm_num) (by norm_num) (by norm_num)
    (by norm_num)]
  norm_num

lemma roundFloat32_neg_one : roundFloat32 (-1) = -1 := by
  rw [roundFloat32_eq_neg (-1) 0 (-8388608) (by norm_num) (by norm_num) (by norm_num)
    (by norm_num)]
  norm_num

/-- The differences and the quotients of the top edge taken from left to right. -/
lemma floatEdge_left_to_right :
    roundFloat32 (5033165 / 16777216) = 5033165 / 16777216 ∧
    roundFloat32 (1006633 / 16777216) = 1006633 / 16777216 ∧
    roundFloat32 (3355443 / 16777216) = 3355443 / 16777216 ∧
    roundFloat32 (1006633 / 3355443) = 10066331 / 33554432 := by
  refine ⟨?_, ?_, ?_, ?_⟩
  · rw [roundFloat32_eq_pos _ (-2) 10066330 (by norm_num) (by norm_num) (by norm_num)
      (by norm_num)]
    norm_num
  · rw [roundFloat32_eq_pos _ (-5) 16106128 (by norm_num) (by norm_num) (by norm_num)
      (by norm_num)]
    norm_num
  · rw [roundFloat32_eq_pos _ (-3) 13421772 (by norm_num) (by norm_num) (by norm_num)
      (by norm_num)]
    norm_num
  · rw [roundFloat32_eq_pos _ (-2) 10066331 (by norm_num) (by norm_num) (by norm_num)
      (by norm_num)]
    norm_num

/-- The differences and the quotients of the top edge taken from right to left. -/
lemma floatEdge_right_to_left :
    roundFloat32 (-11744051 / 16777216) = -11744051 / 16777216 ∧
    roundFloat32 (11744051 / 16777216) = 11744051 / 16777216 ∧
    roundFloat32 (-1174405 / 8388608) = -1174405 / 8388608 ∧
    roundFloat32 (-3355443 / 16777216) = -3355443 / 16777216 ∧
    roundFloat32 (2348810 / 3355443) = 11744051 / 16777216 := by
  refine ⟨?_, ?_, ?_, ?_, ?_⟩
  · rw [roundFloat32_eq_neg _ (-1) (-11744051) (by norm_num) (by norm_num) (by norm_num)
      (by norm_num)]
    norm_num
  · rw [roundFloat32_eq_pos _ (-1) 11744051 (by norm_num) (by norm_num) (by norm_num)
      (by norm_num)]
    norm_num
  · rw [roundFloat32_eq_neg _ (-3) (-9395240) (by norm_num) (by norm_num) (by norm_num)
      (by norm_num)]
    norm_num
  · rw [roundFloat32_eq_neg _ (-3) (-13421772) (by norm_num) (by norm_num) (by norm_num)
      (by norm_num)]
    norm_num
  · rw [roundFloat32_eq_pos _ (-1) 11744051 (by norm_num) (by norm_num) (by norm_num)
      (by norm_num)]
    norm_num

lemma floatGrid_corners :
    bottomLeft floatGrid 0 = mkCoord 0 0 ∧ bottomRight floatGrid 0 = mkCoord 1 0 ∧
    topLeft floatGrid 0 = mkCoord 0 (1 / 2) ∧
    topRight floatGrid 0 = mkCoord 1 (11744051 / 16777216) := by
  refine ⟨?_, ?_, ?_, ?_⟩ <;>
    simp [bottomLeft, bottomRight, topLeft, topRight, floatGrid, arrayOfList, mkCoord]

lemma floatTop_left_to_right :
    aboveOrBelowLineFloat (mkCoord 0 (1 / 2)) (mkCoord 1 (11744051 / 16777216))
      (mkCoord (5033165 / 16777216) (9395241 / 16777216)) = ABOVE_LINE := by
  obtain ⟨e1, e2, e3, e4⟩ := floatEdge_left_to_right
  have d1 : (5033165 / 16777216 : ℚ) - 0 = 5033165 / 16777216 := by norm_num
  have d2 : (1 : ℚ) - 0 = 1 := by norm_num
  have d3 : (9395241 / 16777216 : ℚ) - 1 / 2 = 1006633 / 16777216 := by norm_num
  have d4 : (11744051 / 16777216 : ℚ) - 1 / 2 = 3355443 / 16777216 := by norm_num
  have q1 : (5033165 / 16777216 : ℚ) / 1 = 5033165 / 16777216 := by norm_num
  have q2 : (1006633 / 16777216 : ℚ) / (3355443 / 16777216) = 1006633 / 3355443 := by
    norm_num
  have hx : ¬ ((0 : ℚ) = 1) := by norm_num
  have hy : ¬ ((1 / 2 : ℚ) = 11744051 / 16777216) := by norm_num
  have hlt : (1 / 2 : ℚ) < 11744051 / 16777216 := by norm_num
  have hne : ¬ ((5033165 / 16777216 : ℚ) = 10066331 / 33554432) := by norm_num
  have hgt : ¬ ((5033165 / 16777216 : ℚ) > 10066331 / 33554432) := by norm_num
  have hl : (5033165 / 16777216 : ℚ) < 10066331 / 33554432 := by norm_num
  simp only [aboveOrBelowLineFloat, mkCoord, ne_eq, hx, hy, not_false_eq_true, if_true,
    d1, d2, d3, d4, e1, e2, e3, roundFloat32_one, q1, q2, e4, hne, hgt, hl, hlt, if_false]

lemma floatTop_right_to_left :
    aboveOrBelowLineFloat (mkCoord 1 (11744051 / 16777216)) (mkCoord 0 (1 / 2))
      (mkCoord (5033165 / 16777216) (9395241 / 16777216)) = ON_LINE := by
  obtain ⟨e1, e2, e3, e4, e5⟩ := floatEdge_right_to_left
  have d1 : (5033165 / 16777216 : ℚ) - 1 = -11744051 / 16777216 := by norm_num
  have d2 : (0 : ℚ) - 1 = -1 := by norm_num
  have d3 : (9395241 / 16777216 : ℚ) - 11744051 / 16777216 = -1174405 / 8388608 := by
    norm_num
  have d4 : (1 / 2 : ℚ) - 11744051 / 16777216 = -3355443 / 16777216 := by norm_num
  have q1 : (-11744051 / 16777216 : ℚ) / (-1) = 11744051 / 16777216 := by norm_num
  have q2 : (-1174405 / 8388608 : ℚ) / (-3355443 / 16777216) = 2348810 / 3355443 := by
    norm_num
  have hx : ¬ ((1 : ℚ) = 0) := by norm_num
  have hy : ¬ ((11744051 / 16777216 : ℚ) = 1 / 2) := by norm_num
  simp only [aboveOrBelowLineFloat, mkCoord, ne_eq, hx, hy, not_false_eq_true, if_true,
    d1, d2, d3, d4, e1, e3, e4, roundFloat32_neg_one, q1, q2, e2, e5]

/-! ## Soundness and completeness of the search for its own tests -/

lemma insideCellWith_fst_iff (side : coord_t → coord_t → coord_t → lineloc_t) (g : Grid)
    (x y : ℚ) (i : Int) :
    (insideCellWith side g x y i).1 = true ↔
      side (bottomLeft g i) (bottomRight g i) (mkCoord x y) ≠ BELOW_LINE ∧
      side (bottomRight g i) (topRight g i) (mkCoord x y) ≠ ABOVE_LINE ∧
      side (topLeft g i) (topRight g i) (mkCoord x y) ≠ ABOVE_LINE ∧
      side (topLeft g i) (bottomLeft g i) (mkCoord x y) ≠ BELOW_LINE := by
  unfold insideCellWith bottomLeft bottomRight topLeft topRight
  simp only
  split_ifs <;> simp_all

lemma isCellOffset_of_scanWith (side : coord_t → coord_t → coord_t → lineloc_t) (g : Grid)
    (x y : ℚ) (i : Int) (h : findFirstCellScanWith side g x y = some i) :
    IsCellOffset g i ∧ PassesFindFirstCellTests side g x y i := by
  obtain ⟨row, col, hr, hc, hi, hb, -⟩ := (findFirstCellScanWith_eq_some_iff side g x y i).1 h
  refine ⟨⟨row, col, by omega, by omega, by omega, by omega, hi⟩, ?_⟩
  rw [hi]
  exact (findFirstCellBodyWith_iff side g x y _).1 hb

lemma findFirstCellWith_sound (side : coord_t → coord_t → coord_t → lineloc_t) (g : Grid)
    (x y : ℚ) (index : Int) (h : (findFirstCellWith side g x y index).1 = true) :
    IsCellOffset g (findFirstCellWith side g x y index).2 ∧
      PassesFindFirstCellTests side g x y (findFirstCellWith side g x y index).2 := by
  cases hs : findFirstCellScanWith side g x y with
  | none =>
    rw [findFirstCellWith_eq_of_scan_none side g x y index hs] at h
    exact absurd h (by simp)
  | some i =>
    rw [findFirstCellWith_eq_of_scan_some side g x y index i hs]
    exact isCellOffset_of_scanWith side g x y i hs

lemma findFirstCellWith_fst_iff (side : coord_t → coord_t → coord_t → lineloc_t) (g : Grid)
    (x y : ℚ) (index : Int) :
    (findFirstCellWith side g x y index).1 = true ↔
      ∃ row col : Int, 0 ≤ row ∧ row ≤ g.numRows - 2 ∧ 0 ≤ col ∧ col ≤ g.numCols - 2 ∧
        PassesFindFirstCellTests side g x y (cellOffset g row col) := by
  constructor
  · intro h
    obtain ⟨⟨row, col, h1, h2, h3, h4, hi⟩, hp⟩ := findFirstCellWith_sound side g x y index h
    rw [hi] at hp
    exact ⟨row, col, h1, h2, h3, h4, hp⟩
  · rintro ⟨row, col, hr0, hr, hc0, hc, hp⟩
    cases hs : findFirstCellScanWith side g x y with
    | some i => rw [findFirstCellWith_eq_of_scan_some side g x y index i hs]
    | none =>
      exfalso
      have hb := (findFirstCellScanWith_eq_none_iff side g x y).1 hs row.toNat col.toNat
        (by omega) (by omega)
      rw [Int.toNat_of_nonneg hr0, Int.toNat_of_nonneg hc0] at hb
      rw [(findFirstCellBodyWith_iff side g x y _).2 hp] at hb
      exact absurd hb (by decide)

lemma passesFindFirstCellTests_exact (g : Grid) (x y : ℚ) (i : Int) :
    PassesFindFirstCellTests aboveOrBelowLine g x y i ↔
      (insideCell g x y i).1 = true ∧ NearBottomLeft g x y i := by
  rw [← findFirstCellBodyWith_iff, findFirstCellBodyWith_exact, findFirstCellBody_iff,
    nearBottomLeft_iff]
  exact and_comm

lemma floatGrid_passes :
    PassesFindFirstCellTests aboveOrBelowLineFloat floatGrid (5033165 / 16777216)
      (9395241 / 16777216) 0 := by
  obtain ⟨c1, c2, c3, c4⟩ := floatGrid_corners
  unfold PassesFindFirstCellTests
  rw [c1, c2, c3, c4, floatTop_right_to_left]
  refine ⟨?_, ?_, ?_, ?_, by decide⟩
  · rw [nearBottomLeft_iff]
    simp [floatGrid, arrayOfList, calcDistanceSq]
    norm_num
  · have hx : ¬ ((0 : ℚ) = 1) := by norm_num
    have h1 : ¬ ((9395241 / 16777216 : ℚ) = 0) := by norm_num
    have h2 : ¬ ((9395241 / 16777216 : ℚ) < 0) := by norm_num
    have h3 : (9395241 / 16777216 : ℚ) > 0 := by norm_num
    simp only [aboveOrBelowLineFloat, mkCoord, ne_eq, hx, not_false_eq_true, if_true,
      not_true_eq_false, if_false, h1, h2, h3]
    decide
  · simp only [aboveOrBelowLineFloat, mkCoord, ne_eq, not_true_eq_false, if_false]
    decide
  · simp only [aboveOrBelowLineFloat, mkCoord, ne_eq, not_true_eq_false, if_false]
    decide

lemma floatGrid_scan :
    findFirstCellScanWith aboveOrBelowLineFloat floatGrid (5033165 / 16777216)
      (9395241 / 16777216) = some 0 := by
  rw [findFirstCellScanWith_eq_some_iff]
  have e : cellOffset floatGrid ((0 : Nat) : Int) ((0 : Nat) : Int) = 0 := by
    simp [cellOffset]
  refine ⟨0, 0, by decide, by decide, e.symm, ?_, ?_, ?_⟩
  · rw [e, findFirstCellBodyWith_iff]
    exact floatGrid_passes
  · intro j hj; omega
  · intro r c hr; omega

lemma floatGrid_insideCell :
    (insideCellWith aboveOrBelowLineFloat floatGrid (5033165 / 16777216)
      (9395241 / 16777216) 0).1 = false := by
  obtain ⟨c1, c2, c3, c4⟩ := floatGrid_corners
  rw [Bool.eq_false_iff, Ne, insideCellWith_fst_iff, c1, c2, c3, c4, floatTop_left_to_right]
  intro h
  exact h.2.2.1 rfl

/-- C28, as the claim states it, fails on the program: in `float` arithmetic the side
test depends on the direction of the edge. On the cell with corners `(0, 0)`, `(1, 0)`,
`(0, 0.5)`, `(1, 0.7f)` and at the point `(0.3f, 0.56f)` (the constants are the `float`
values nearest to `0.7`, `0.3` and `0.56`), the top edge taken as `(topLeft, topRight)`,
as `insideCell` does, gives `ABOVE_LINE`, and taken as `(topRight, topLeft)`, as
`findFirstCell` does, gives `ON_LINE`. So `findFirstCell` returns true with index `0`,
`nextInterpolationPoint` started at index `0` returns true with index `0`, and
`insideCell` is false at index `0`. -/
theorem float_search_accepts_where_insideCell_rejects :
    roundFloat32 (7 / 10) = 11744051 / 16777216 ∧
    roundFloat32 (3 / 10) = 5033165 / 16777216 ∧
    roundFloat32 (56 / 100) = 9395241 / 16777216 ∧
    aboveOrBelowLineFloat (topLeft floatGrid 0) (topRight floatGrid 0)
      (mkCoord (5033165 / 16777216) (9395241 / 16777216)) = ABOVE_LINE ∧
    aboveOrBelowLineFloat (topRight floatGrid 0) (topLeft floatGrid 0)
      (mkCoord (5033165 / 16777216) (9395241 / 16777216)) = ON_LINE ∧
    findFirstCellWith aboveOrBelowLineFloat floatGrid (5033165 / 16777216)
      (9395241 / 16777216) 0 = (true, 0) ∧
    nextInterpolationPointWith aboveOrBelowLineFloat floatGrid (5033165 / 16777216)
      (9395241 / 16777216) 0 1 = (true, 0) ∧
    (insideCellWith aboveOrBelowLineFloat floatGrid (5033165 / 16777216)
      (9395241 / 16777216) 0).1 = false := by
  obtain ⟨-, -, c3, c4⟩ := floatGrid_corners
  have hf := findFirstCellWith_eq_of_scan_some aboveOrBelowLineFloat floatGrid
    (5033165 / 16777216) (9395241 / 16777216) 0 0 floatGrid_scan
  have hr : indexOutOfRange floatGrid 0 = false := by decide
  refine ⟨roundFloat32_seven_tenths, roundFloat32_three_tenths, roundFloat32_fifty_six,
    ?_, ?_, hf, ?_, floatGrid_insideCell⟩
  · rw [c3, c4]
    exact floatTop_left_to_right
  · rw [c3, c4]
    exact floatTop_right_to_left
  · rw [nextInterpolationPointWith_closed _ _ _ _ _ _ (by norm_num), hr, floatGrid_insideCell,
      hf]
    simp

/-- C28, amended: a successful search is sound for the tests of `findFirstCell`.
Whatever the arithmetic of the side test, when `findFirstCell(x, y)` returns true the
index it assigns is the offset of a cell that passes the five tests of its loop (the
bottom-left corner within `1.0`, and the four edge tests with the top edge taken as
`(topRight, topLeft)`); when `nextInterpolationPoint` returns true, the resulting index
is one at which `insideCell` holds or a cell that passes these five tests. In exact
arithmetic the side test does not depend on the direction of the edge, and `insideCell`
holds at the resulting index in both cases. -/
theorem search_sound_for_own_tests (side : coord_t → coord_t → coord_t → lineloc_t)
    (g : Grid) (x y : ℚ) (index level : Int) :
    ((findFirstCellWith side g x y index).1 = true →
      IsCellOffset g (findFirstCellWith side g x y index).2 ∧
      PassesFindFirstCellTests side g x y (findFirstCellWith side g x y index).2) ∧
    ((nextInterpolationPointWith side g x y index level).1 = true →
      (insideCellWith side g x y (nextInterpolationPointWith side g x y index level).2).1
          = true ∨
        PassesFindFirstCellTests side g x y
          (nextInterpolationPointWith side g x y index level).2) ∧
    ((findFirstCell g x y index).1 = true →
      (insideCell g x y (findFirstCell g x y index).2).1 = true ∧
        NearBottomLeft g x y (findFirstCell g x y index).2) ∧
    ((nextInterpolationPoint g x y index level).1 = true →
      (insideCell g x y (nextInterpolationPoint g x y index level).2).1 = true) := by
  have key : ∀ (s : coord_t → coord_t → coord_t → lineloc_t),
      (nextInterpolationPointWith s g x y index level).1 = true →
      (insideCellWith s g x y (nextInterpolationPointWith s g x y index level).2).1 = true ∨
        PassesFindFirstCellTests s g x y
          (nextInterpolationPointWith s g x y index level).2 := by
    intro s
    by_cases hl : level > 10
    · rw [nextInterpolationPointWith_fallback s g x y index level hl]
      exact fun h => Or.inr (findFirstCellWith_sound s g x y index h).2
    · rw [nextInterpolationPointWith_closed s g x y index level (by omega)]
      cases hr : indexOutOfRange g index with
      | true =>
        simp only [if_true]
        exact fun h => absurd h (by simp)
      | false =>
        simp only [Bool.false_eq_true, if_false]
        cases hi : (insideCellWith s g x y index).1 with
        | true =>
          simp only [if_true]
          exact fun _ => Or.inl hi
        | false =>
          simp only [Bool.false_eq_true, if_false]
          exact fun h => Or.inr (findFirstCellWith_sound s g x y index h).2
  have hexact : (findFirstCell g x y index).1 = true →
      (insideCell g x y (findFirstCell g x y index).2).1 = true ∧
        NearBottomLeft g x y (findFirstCell g x y index).2 := by
    intro h
    rw [← findFirstCellWith_exact] at h ⊢
    exact (passesFindFirstCellTests_exact g x y _).1
      (findFirstCellWith_sound aboveOrBelowLine g x y index h).2
  refine ⟨findFirstCellWith_sound side g x y index, key side, hexact, ?_⟩
  intro h
  rw [← nextInterpolationPointWith_exact] at h ⊢
  rcases key aboveOrBelowLine h with h1 | h1
  · exact h1
  · exact ((passesFindFirstCellTests_exact g x y _).1 h1).1

/-- Witness of C28 (amended), in `float` arithmetic: on `floatGrid` the search at
`(0.3f, 0.56f)` succeeds and the cell it assigns passes the five tests of
`findFirstCell`. -/
theorem search_sound_for_own_tests_witness :
    (findFirstCellWith aboveOrBelowLineFloat floatGrid (5033165 / 16777216)
      (9395241 / 16777216) 0).1 = true ∧
    PassesFindFirstCellTests aboveOrBelowLineFloat floatGrid (5033165 / 16777216)
      (9395241 / 16777216)
      (findFirstCellWith aboveOrBelowLineFloat floatGrid (5033165 / 16777216)
        (9395241 / 16777216) 0).2 := by
  have h : (findFirstCellWith aboveOrBelowLineFloat floatGrid (5033165 / 16777216)
      (9395241 / 16777216) 0).1 = true := by
    rw [findFirstCellWith_eq_of_scan_some _ _ _ _ 0 0 floatGrid_scan]
  exact ⟨h, ((search_sound_for_own_tests aboveOrBelowLineFloat floatGrid
    (5033165 / 16777216) (9395241 / 16777216) 0 1).1 h).2⟩

/-- C7, amended: whatever the arithmetic of the side test, `findFirstCell(x, y)` returns
true exactly when some cell `i = row * 2 * numCols + 2 * col` with
`0 <= row <= numRows-2`, `0 <= col <= numCols-2` passes the five tests of its loop: the
bottom-left corner is within `1.0` of `(x, y)` and the point is not below
`(bottomLeft, bottomRight)`, not below `(topLeft, bottomLeft)`, not above
`(bottomRight, topRight)` and not above `(topRight, topLeft)`. When such a cell exists,
`nextInterpolationPoint` started from any index that passes the range check, at any
level, returns true; a failure of `findFirstCell` means that no cell passes the five
tests. In exact arithmetic the four edge tests are those of `insideCell`. -/
theorem findFirstCell_complete_for_own_tests
    (side : coord_t → coord_t → coord_t → lineloc_t) (g : Grid) (x y : ℚ) :
    (∀ index : Int, (findFirstCellWith side g x y index).1 = true ↔
      ∃ row col : Int, 0 ≤ row ∧ row ≤ g.numRows - 2 ∧ 0 ≤ col ∧ col ≤ g.numCols - 2 ∧
        PassesFindFirstCellTests side g x y (cellOffset g row col)) ∧
    ((∃ row col : Int, 0 ≤ row ∧ row ≤ g.numRows - 2 ∧ 0 ≤ col ∧ col ≤ g.numCols - 2 ∧
        PassesFindFirstCellTests side g x y (cellOffset g row col)) →
      ∀ index level : Int, indexOutOfRange g index = false →
        (nextInterpolationPointWith side g x y index level).1 = true) ∧
    (∀ i : Int, PassesFindFirstCellTests aboveOrBelowLine g x y i ↔
      (insideCell g x y i).1 = true ∧ NearBottomLeft g x y i) := by
  refine ⟨fun index => findFirstCellWith_fst_iff side g x y index,
    fun h index level hin => ?_, fun i => passesFindFirstCellTests_exact g x y i⟩
  have hf := (findFirstCellWith_fst_iff side g x y index).2 h
  by_cases hl : level ≤ 10
  · rw [nextInterpolationPointWith_closed side g x y index level hl, hin]
    simp only [Bool.false_eq_true, if_false]
    split_ifs
    · rfl
    · exact hf
  · rw [nextInterpolationPointWith_fallback side g x y index level (by omega)]
    exact hf

/-- Witness of C7 (amended), in `float` arithmetic: on `floatGrid` the cell passes the
five tests of `findFirstCell` at `(0.3f, 0.56f)`, and the walk started from index `0`
succeeds although `insideCell` rejects the cell. -/
theorem findFirstCell_complete_for_own_tests_witness :
    (∃ row col : Int, 0 ≤ row ∧ row ≤ floatGrid.numRows - 2 ∧ 0 ≤ col ∧
        col ≤ floatGrid.numCols - 2 ∧
        PassesFindFirstCellTests aboveOrBelowLineFloat floatGrid (5033165 / 16777216)
          (9395241 / 16777216) (cellOffset floatGrid row col)) ∧
    indexOutOfRange floatGrid 0 = false ∧
    (nextInterpolationPointWith aboveOrBelowLineFloat floatGrid (5033165 / 16777216)
      (9395241 / 16777216) 0 1).1 = true := by
  have hex : ∃ row col : Int, 0 ≤ row ∧ row ≤ floatGrid.numRows - 2 ∧ 0 ≤ col ∧
      col ≤ floatGrid.numCols - 2 ∧
      PassesFindFirstCellTests aboveOrBelowLineFloat floatGrid (5033165 / 16777216)
        (9395241 / 16777216) (cellOffset floatGrid row col) :=
    ⟨0, 0, by decide, by decide, by decide, by decide, by
      have e : cellOffset floatGrid 0 0 = 0 := by simp [cellOffset]
      rw [e]
      exact floatGrid_passes⟩
  exact ⟨hex, by decide,
    (findFirstCell_complete_for_own_tests aboveOrBelowLineFloat floatGrid
      (5033165 / 16777216) (9395241 / 16777216)).2.1 hex 0 1 (by decide)⟩

/-! ## A pass whose sample points `findFirstCell` rejects -/

lemma sliceStepAtWith_of_scan_none (side : coord_t → coord_t → coord_t → lineloc_t)
    (dgesv_ : (Nat → ℚ) → (Nat → ℚ) → (Nat → ℚ) × Int) (g : Grid) (p : Pass) (x y : ℚ)
    (index : Int) (hin : indexOutOfRange g index = false)
    (hs : findFirstCellScanWith side g x y = none) :
    sliceStepAtWith side dgesv_ g p x y ⟨index, false⟩ = some (⟨index, false⟩, 0) := by
  have hf := findFirstCellWith_eq_of_scan_none side g x y index hs
  have hn : (nextInterpolationPointWith side g x y index 1).2 = index := by
    rw [nextInterpolationPointWith_closed side g x y index 1 (by norm_num), hin]
    simp only [Bool.false_eq_true, if_false]
    split_ifs
    · rfl
    · rw [hf]
  unfold sliceStepAtWith
  simp only [hf, hn, hin, Bool.not_false, if_true, Bool.false_eq_true, if_false]
  cases (nextInterpolationPointWith side g x y index 1).1 <;> simp [hin]

lemma sliceLoopWith_of_scan_none (side : coord_t → coord_t → coord_t → lineloc_t)
    (dgesv_ : (Nat → ℚ) → (Nat → ℚ) → (Nat → ℚ) × Int) (point : Int → ℚ × ℚ) (g : Grid)
    (p : Pass) (index : Int) (hin : indexOutOfRange g index = false) (n : Nat) :
    ∀ (k0 : Nat) (sliceData : Int → ℚ),
      (∀ j : Nat, k0 ≤ j → j < k0 + n →
        findFirstCellScanWith side g (point (j : Int)).1 (point (j : Int)).2 = none) →
      (sliceLoopWith side dgesv_ point g p n (k0 : Int) ⟨index, false⟩ sliceData).2 = true ∧
      ∀ j : Int,
        (sliceLoopWith side dgesv_ point g p n (k0 : Int) ⟨index, false⟩ sliceData).1 j =
          if (k0 : Int) ≤ j ∧ j < (k0 : Int) + (n : Int) then 0 else sliceData j := by
  induction n with
  | zero =>
    intro k0 sliceData _
    refine ⟨rfl, fun j => ?_⟩
    have : ¬ ((k0 : Int) ≤ j ∧ j < (k0 : Int) + ((0 : Nat) : Int)) := by
      push_cast; omega
    rw [if_neg this]
    rfl
  | succ n ih =>
    intro k0 sliceData h
    have hstep := sliceStepAtWith_of_scan_none side dgesv_ g p _ _ index hin
      (h k0 (le_refl _) (by omega))
    rw [sliceLoopWith]
    simp only [hstep]
    have h2 := ih (k0 + 1) (fun k => if k = (k0 : Int) then 0 else sliceData k)
      (fun j hj1 hj2 => h j (by omega) (by omega))
    have e : ((k0 + 1 : Nat) : Int) = (k0 : Int) + 1 := by push_cast; rfl
    rw [e] at h2
    refine ⟨h2.1, fun j => ?_⟩
    rw [h2.2 j]
    dsimp only
    by_cases hj : j = (k0 : Int)
    · have c1 : ¬ ((k0 : Int) + 1 ≤ j ∧ j < (k0 : Int) + 1 + (n : Int)) := by omega
      have c2 : (k0 : Int) ≤ j ∧ j < (k0 : Int) + ((n + 1 : Nat) : Int) := by
        push_cast; omega
      rw [if_neg c1, if_pos hj, if_pos c2]
    · by_cases hr : (k0 : Int) + 1 ≤ j ∧ j < (k0 : Int) + 1 + (n : Int)
      · have c2 : (k0 : Int) ≤ j ∧ j < (k0 : Int) + ((n + 1 : Nat) : Int) := by
          push_cast; omega
        rw [if_pos hr, if_pos c2]
      · have c2 : ¬ ((k0 : Int) ≤ j ∧ j < (k0 : Int) + ((n + 1 : Nat) : Int)) := by
          push_cast; omega
        rw [if_neg hr, if_neg hj, if_neg c2]

/-- C9, amended: whatever the arithmetic of the side test and of the sample points and
whatever `dgesv_` computes, for every grid with `recSize = numRows * numCols` and at
least one row and one column of corners, and every query line none of whose sample
points passes the five tests of the loop of `findFirstCell` for any cell of the grid,
`interpolateSliceGraph` runs to its end and writes the sentinel `0.0` to every one of
the `N` entries of the output sequence. -/
theorem all_sentinel_when_findFirstCell_rejects
    (side : coord_t → coord_t → coord_t → lineloc_t)
    (dgesv_ : (Nat → ℚ) → (Nat → ℚ) → (Nat → ℚ) × Int)
    (samplePointOf : Pass → Int → ℚ × ℚ) (g : Grid) (p : Pass)
    (sliceData : Int → ℚ) (sdsize : Int) (hrec : g.recSize = g.numRows * g.numCols)
    (hr : 1 ≤ g.numRows) (hc : 1 ≤ g.numCols)
    (hout : ∀ k : Nat, (k : Int) < p.totalSliceSteps →
      ∀ row col : Int, 0 ≤ row → row ≤ g.numRows - 2 → 0 ≤ col → col ≤ g.numCols - 2 →
        ¬ PassesFindFirstCellTests side g (samplePointOf (orderLine p) (k : Int)).1
          (samplePointOf (orderLine p) (k : Int)).2 (cellOffset g row col)) :
    (interpolateSliceGraphWith side dgesv_ samplePointOf g p sliceData sdsize).completed
      = true ∧
    ∀ k : Nat, (k : Int) < p.totalSliceSteps →
      (interpolateSliceGraphWith side dgesv_ samplePointOf g p sliceData sdsize).sliceData
        (k : Int) = 0 := by
  have hscan : ∀ j : Nat, 0 ≤ j → j < 0 + p.totalSliceSteps.toNat →
      findFirstCellScanWith side g (samplePointOf (orderLine p) (j : Int)).1
        (samplePointOf (orderLine p) (j : Int)).2 = none := by
    intro j _ hj
    rw [findFirstCellScanWith_eq_none_iff]
    intro row col hr1 hc1
    rw [Bool.eq_false_iff, Ne, findFirstCellBodyWith_iff]
    exact hout j (by omega) row col (by omega) (by omega) (by omega) (by omega)
  have hN := orderLine_totalSliceSteps p
  obtain ⟨h1, h2⟩ := sliceLoopWith_of_scan_none side dgesv_ (samplePointOf (orderLine p)) g
    (orderLine p) 0 (indexOutOfRange_zero g hrec hr hc) p.totalSliceSteps.toNat 0 sliceData
    hscan
  simp only [Nat.cast_zero, zero_add] at h1 h2
  unfold interpolateSliceGraphWith
  simp only [hN, h1, if_true]
  refine ⟨trivial, fun k hk => ?_⟩
  rw [h2 (k : Int), if_pos ⟨by omega, by omega⟩]

/-- Witness of C9 (amended): on the grid of the concrete scenarios no sample point of
the line from `(-5,-5)` to `(-1,-1)` (`N = 5`) passes the tests of `findFirstCell` for
any cell, and the five entries are the sentinel. -/
theorem all_sentinel_when_findFirstCell_rejects_witness :
    unitGrid.recSize = unitGrid.numRows * unitGrid.numCols ∧
    (1 : Int) ≤ unitGrid.numRows ∧ (1 : Int) ≤ unitGrid.numCols ∧
    (∀ k : Nat, (k : Int) < farPass.totalSliceSteps →
      ∀ row col : Int, 0 ≤ row → row ≤ unitGrid.numRows - 2 → 0 ≤ col →
        col ≤ unitGrid.numCols - 2 →
        ¬ PassesFindFirstCellTests aboveOrBelowLine unitGrid
          (samplePoint (orderLine farPass) (k : Int)).1
          (samplePoint (orderLine farPass) (k : Int)).2 (cellOffset unitGrid row col)) ∧
    (interpolateSliceGraphWith aboveOrBelowLine dgesvExact samplePoint unitGrid farPass
      (fun _ => 7) 5).completed = true ∧
    (∀ k : Nat, (k : Int) < farPass.totalSliceSteps →
      (interpolateSliceGraphWith aboveOrBelowLine dgesvExact samplePoint unitGrid farPass
        (fun _ => 7) 5).sliceData (k : Int) = 0) := by
  have ho : orderLine farPass = farPass :=
    orderLine_of_le farPass (by simp [farPass, mkCoord])
  have hout : ∀ k : Nat, (k : Int) < farPass.totalSliceSteps →
      ∀ row col : Int, 0 ≤ row → row ≤ unitGrid.numRows - 2 → 0 ≤ col →
        col ≤ unitGrid.numCols - 2 →
        ¬ PassesFindFirstCellTests aboveOrBelowLine unitGrid
          (samplePoint (orderLine farPass) (k : Int)).1
          (samplePoint (orderLine farPass) (k : Int)).2 (cellOffset unitGrid row col) := by
    intro k hk row col hr0 hr1 hc0 hc1
    have hk5 : k < 5 := by
      have : farPass.totalSliceSteps = 5 := rfl
      omega
    have hy : (samplePoint farPass (k : Int)).2 < 0 := by
      interval_cases k <;> simp [samplePoint, farPass, mkCoord] <;> norm_num
    have hs := unitGrid_scan_below (samplePoint farPass (k : Int)).1 _ hy
    have hb := (findFirstCellScan_eq_none_iff unitGrid _ _).1 hs row.toNat col.toNat
      (by
        have : unitGrid.numRows = 4 := rfl
        omega)
      (by
        have : unitGrid.numCols = 4 := rfl
        omega)
    rw [Int.toNat_of_nonneg hr0, Int.toNat_of_nonneg hc0] at hb
    rw [ho, ← findFirstCellBodyWith_iff, findFirstCellBodyWith_exact, hb]
    exact Bool.false_ne_true
  have h := all_sentinel_when_findFirstCell_rejects aboveOrBelowLine dgesvExact samplePoint
    unitGrid farPass (fun _ => 7) 5 (by decide) (by decide) (by decide) hout
  exact ⟨by decide, by decide, by decide, hout, h.1, h.2⟩

/-! ## The value of `info` -/

lemma sliceStepAtWith_value (side : coord_t → coord_t → coord_t → lineloc_t)
    (dgesv_ : (Nat → ℚ) → (Nat → ℚ) → (Nat → ℚ) × Int) (g : Grid) (p : Pass) (x y : ℚ)
    (cur cur1 : Cursor) (v : ℚ)
    (h : sliceStepAtWith side dgesv_ g p x y cur = some (cur1, v))
    (hin : cur1.insideGraph = true) :
    v = cellValueWith dgesv_ g p cur1.index x y := by
  unfold sliceStepAtWith at h
  simp only at h
  split_ifs at h <;> cases h <;> first | rfl | simp_all

lemma sliceStepAtWith_cursor (side : coord_t → coord_t → coord_t → lineloc_t)
    (dgesv_ dgesv2 : (Nat → ℚ) → (Nat → ℚ) → (Nat → ℚ) × Int) (g : Grid) (p : Pass)
    (x y : ℚ) (cur : Cursor) :
    (sliceStepAtWith side dgesv2 g p x y cur).map Prod.fst =
      (sliceStepAtWith side dgesv_ g p x y cur).map Prod.fst := by
  unfold sliceStepAtWith
  simp only
  split_ifs <;> rfl

lemma dgesvExact_leavesRhs : LeavesRhsOnFailure dgesvExact := by
  intro a b h
  unfold dgesvExact at h ⊢
  simp only at h ⊢
  by_cases hd : det4 (colMajor a) = 0
  · rw [dgesv_singular a b hd]
  · exfalso
    have : (dgesv a b).2 = false := by
      unfold dgesv
      simp only [hd, if_false]
    rw [this] at h
    simp at h

/-- C13, amended: `solve4x4Lapack` drops the value of `info`, and the sampling step
has no failure path. Whatever the arithmetic of the side test and whatever `dgesv_`
computes: the cursor and the flag a step leaves are the same for every routine; two
routines that leave the same `B` and differ in `info` give the same step; the value
stored for a located point is `B[0] + B[1]*x + B[2]*y + B[3]*x*y` of the `B` the
routine leaves; and when the routine reports a failure (`info > 0`), which by its
contract leaves `B` as it was, the value stored is that form of the unsolved right-hand
side `(vala, valb, valc, vald)`. -/
theorem singular_info_is_dropped (side : coord_t → coord_t → coord_t → lineloc_t)
    (dgesv_ : (Nat → ℚ) → (Nat → ℚ) → (Nat → ℚ) × Int) (g : Grid) (p : Pass) (x y : ℚ)
    (cur : Cursor) :
    (∀ dgesv2 : (Nat → ℚ) → (Nat → ℚ) → (Nat → ℚ) × Int,
      (sliceStepAtWith side dgesv2 g p x y cur).map Prod.fst =
        (sliceStepAtWith side dgesv_ g p x y cur).map Prod.fst) ∧
    (∀ dgesv2 : (Nat → ℚ) → (Nat → ℚ) → (Nat → ℚ) × Int,
      (∀ a b, (dgesv2 a b).1 = (dgesv_ a b).1) →
      sliceStepAtWith side dgesv2 g p x y cur = sliceStepAtWith side dgesv_ g p x y cur) ∧
    (∀ (cur1 : Cursor) (v : ℚ), sliceStepAtWith side dgesv_ g p x y cur = some (cur1, v) →
      cur1.insideGraph = true →
      v = (dgesv_ (cellMatrix g cur1.index) (cellRhs g p cur1.index)).1 0
        + (dgesv_ (cellMatrix g cur1.index) (cellRhs g p cur1.index)).1 1 * x
        + (dgesv_ (cellMatrix g cur1.index) (cellRhs g p cur1.index)).1 2 * y
        + (dgesv_ (cellMatrix g cur1.index) (cellRhs g p cur1.index)).1 3 * x * y) ∧
    (LeavesRhsOnFailure dgesv_ →
      ∀ (cur1 : Cursor) (v : ℚ), sliceStepAtWith side dgesv_ g p x y cur = some (cur1, v) →
        cur1.insideGraph = true →
        0 < (dgesv_ (cellMatrix g cur1.index) (cellRhs g p cur1.index)).2 →
        v = cellRhs g p cur1.index 0 + cellRhs g p cur1.index 1 * x
          + cellRhs g p cur1.index 2 * y + cellRhs g p cur1.index 3 * x * y) := by
  refine ⟨fun dgesv2 => sliceStepAtWith_cursor side dgesv_ dgesv2 g p x y cur,
    fun dgesv2 h => ?_, fun cur1 v h hin => ?_, fun hcon cur1 v h hin hinfo => ?_⟩
  · have hv : ∀ i, cellValueWith dgesv2 g p i x y = cellValueWith dgesv_ g p i x y := by
      intro i
      simp only [cellValueWith, solve4x4LapackWith, h]
    unfold sliceStepAtWith
    simp only [hv]
  · exact sliceStepAtWith_value side dgesv_ g p x y cur cur1 v h hin
  · have hv := sliceStepAtWith_value side dgesv_ g p x y cur cur1 v h hin
    rw [hv]
    unfold cellValueWith solve4x4LapackWith
    rw [hcon _ _ hinfo]

/-- Witness of C13 (amended): with the exact side test and the exact routine, which
leaves `B` as it was on a failure, the step at the centre of the cell of `diamondGrid`
ends with `info > 0` and stores `10`, the form of the right-hand side `(1, 2, 4, 3)`. -/
theorem singular_info_is_dropped_witness :
    LeavesRhsOnFailure dgesvExact ∧
    sliceStepAtWith aboveOrBelowLine dgesvExact diamondGrid diamondPass 1 1 ⟨0, false⟩
      = some (⟨0, true⟩, 10) ∧
    0 < (dgesvExact (cellMatrix diamondGrid 0) (cellRhs diamondGrid diamondPass 0)).2 ∧
    (10 : ℚ) = cellRhs diamondGrid diamondPass 0 0 + cellRhs diamondGrid diamondPass 0 1 * 1
      + cellRhs diamondGrid diamondPass 0 2 * 1 + cellRhs diamondGrid diamondPass 0 3 * 1 * 1 := by
  have hstep : sliceStepAtWith aboveOrBelowLine dgesvExact diamondGrid diamondPass 1 1
      ⟨0, false⟩ = some (⟨0, true⟩, 10) := by
    rw [sliceStepAtWith_exact]
    exact diamond_step
  have hinfo : 0 < (dgesvExact (cellMatrix diamondGrid 0)
      (cellRhs diamondGrid diamondPass 0)).2 := by
    unfold dgesvExact
    rw [dgesv_singular _ _ diamond_det]
    decide
  exact ⟨dgesvExact_leavesRhs, hstep, hinfo,
    (singular_info_is_dropped aboveOrBelowLine dgesvExact diamondGrid diamondPass 1 1
      ⟨0, false⟩).2.2.2 dgesvExact_leavesRhs ⟨0, true⟩ 10 hstep rfl hinfo⟩

/-! ## The offsets of cells and the range check -/

lemma isCellOffset_iff (g : Grid) (hrec : g.recSize = g.numRows * g.numCols)
    (hc : 2 ≤ g.numCols) (i : Int) :
    IsCellOffset g i ↔
      0 ≤ i ∧ i.tmod 2 = 0 ∧ i < 2 * g.recSize - 2 * g.numCols ∧
        i.tmod (2 * g.numCols) ≠ 2 * g.numCols - 2 := by
  constructor
  · intro h
    obtain ⟨-, h2, h3, h4, -, -⟩ := isCellOffset_bounds g hrec i h
    obtain ⟨row, col, hr0, hr1, hc0, hc1, hi⟩ := h
    refine ⟨h3, h2, by omega, ?_⟩
    have hmod : i.tmod (2 * g.numCols) = 2 * col := by
      rw [Int.tmod_eq_emod h3 (by omega), hi]
      unfold cellOffset
      have e : row * (g.numCols * 2) + 2 * col = 2 * col + (2 * g.numCols) * row := by ring
      rw [e, Int.add_mul_emod_self_left]
      exact Int.emod_eq_of_lt (by omega) (by omega)
    rw [hmod]
    omega
  · rintro ⟨h0, h2, h3, h4⟩
    have hC : 0 < 2 * g.numCols := by omega
    have e2 : i.tmod 2 = i % 2 := Int.tmod_eq_emod h0 (by norm_num)
    have eC : i.tmod (2 * g.numCols) = i % (2 * g.numCols) := Int.tmod_eq_emod h0 hC.le
    rw [e2] at h2
    rw [eC] at h4
    have hdiv := Int.emod_add_ediv i (2 * g.numCols)
    have hr0 : 0 ≤ i % (2 * g.numCols) := Int.emod_nonneg _ (by omega)
    have hr1 : i % (2 * g.numCols) < 2 * g.numCols := Int.emod_lt_of_pos _ hC
    have hq0 : 0 ≤ i / (2 * g.numCols) := Int.ediv_nonneg h0 hC.le
    have heven : (i % (2 * g.numCols)) % 2 = 0 := by
      rw [Int.emod_emod_of_dvd i (Dvd.intro _ rfl)]
      exact h2
    have hprod : 2 * g.numCols * (i / (2 * g.numCols)) < 2 * g.numCols * (g.numRows - 1) := by
      have : 2 * g.recSize - 2 * g.numCols = 2 * g.numCols * (g.numRows - 1) := by
        rw [hrec]
        ring
      omega
    have hq1 : i / (2 * g.numCols) < g.numRows - 1 := lt_of_mul_lt_mul_left hprod hC.le
    refine ⟨i / (2 * g.numCols), i % (2 * g.numCols) / 2, hq0, by omega, by omega, by omega, ?_⟩
    unfold cellOffset
    have e : 2 * (i % (2 * g.numCols) / 2) = i % (2 * g.numCols) := by omega
    rw [e]
    have e' : i / (2 * g.numCols) * (g.numCols * 2) = 2 * g.numCols * (i / (2 * g.numCols)) := by
      ring
    rw [e']
    omega

/-- C14, amended: the two conditions of the range check do not by themselves single out
the offsets of cells. For `recSize = numRows * numCols`, `numRows >= 2` and
`numCols >= 2`, an index is the x-offset of a corner that is neither in the last row
nor in the last column (the offset of a cell) exactly when it is nonnegative and even,
`index < 2*recSize - pointsPerRow` and `index mod pointsPerRow != pointsPerRow - 2`.
Every such index passes the range check and has its eight offsets
`index, ..., index + pointsPerRow + 3` below `2*recSize`; and the indices the program
presents to the check, `0` and the offsets assigned by `findFirstCell` (whatever the
arithmetic of the side test), are of this kind. -/
theorem cell_offsets_pass_range_check (g : Grid) (hrec : g.recSize = g.numRows * g.numCols)
    (hr : 2 ≤ g.numRows) (hc : 2 ≤ g.numCols) (i : Int) :
    (IsCellOffset g i ↔
      0 ≤ i ∧ i.tmod 2 = 0 ∧ i < 2 * g.recSize - 2 * g.numCols ∧
        i.tmod (2 * g.numCols) ≠ 2 * g.numCols - 2) ∧
    (IsCellOffset g i →
      indexOutOfRange g i = false ∧ 0 ≤ i ∧ i + 2 * g.numCols + 3 < 2 * g.recSize) ∧
    IsCellOffset g 0 ∧
    (∀ (side : coord_t → coord_t → coord_t → lineloc_t) (x y : ℚ),
      findFirstCellScanWith side g x y = some i → IsCellOffset g i) := by
  refine ⟨isCellOffset_iff g hrec hc i, fun h => ?_, isCellOffset_zero g hr hc,
    fun side x y h => (isCellOffset_of_scanWith side g x y i h).1⟩
  obtain ⟨h1, -, h3, h4, -, -⟩ := isCellOffset_bounds g hrec i h
  exact ⟨h1, h3, by omega⟩

/-- Witness of C14 (amended): on the 4x4 grid the offset `10` of the cell in row 1 and
column 1 passes the range check, and its last offset `10 + 8 + 3` is below `32`. -/
theorem cell_offsets_pass_range_check_witness :
    unitGrid.recSize = unitGrid.numRows * unitGrid.numCols ∧
    (2 : Int) ≤ unitGrid.numRows ∧ (2 : Int) ≤ unitGrid.numCols ∧
    IsCellOffset unitGrid 10 ∧
    indexOutOfRange unitGrid 10 = false ∧
    (10 : Int) + 2 * unitGrid.numCols + 3 < 2 * unitGrid.recSize := by
  have hcell : IsCellOffset unitGrid 10 :=
    ⟨1, 1, by decide, by decide, by decide, by decide, by decide⟩
  have h := (cell_offsets_pass_range_check unitGrid (by decide) (by decide) (by decide)
    10).2.1 hcell
  exact ⟨by decide, by decide, by decide, hcell, h.1, h.2.2⟩

end WeatherSim
